import Mathlib

/-!
The per-client XSMP protocol engine of mate-session-manager.

A shallow embedding of `mate-session/gsm-client.c` and
`mate-session/gsm-xsmp-client.c`.

* A client is a record holding the fields of `GsmClientPrivate` and
  `GsmXSMPClientPrivate`.  Pointers that may be `NULL` are `Option`s.
* A C function that mutates the client and talks to the outside world becomes a
  function returning the new client together with the ordered list of things
  it did: frames handed to libSM (`Sms*` calls) and GObject signals emitted
  upward.  Signal handlers live outside these two files; an emission is
  recorded in the trace and the handlers are taken not to call back into the
  client while the emitting function runs.
* A failed `g_assert` aborts the process: functions that can reach one return
  an `Option`, `none` being the abort.
* The debug log is not modelled: `g_debug`, `debug_print_property`, and
  `description` with `set_description` (a label for the log holding the pointer
  identity of the client), which produce log text only; nor is
  `g_object_notify`.
* Property values are byte lists; where the source reads one through a
  `char *` the reading stops at the first NUL (`c_string`).  Reading
  `prop->vals[0]` of a property that has no value is undefined behaviour:
  the accessors that can do so return an `Option`, `none` standing for it
  (the same read made for the log text alone is outside the model).
* Internationalisation is left out: a message `_("...")` is the message itself.
-/

namespace MateSession

/-! ## Constants -/

/-- Save type `SmSaveGlobal` of the X11 session-management library (`X11/SM/SM.h`,
the wire encoding of the XSMP protocol): `#define SmSaveGlobal 0`. -/
def SmSaveGlobal : Int := 0

/-- Save type `SmSaveLocal` (`X11/SM/SM.h`): `#define SmSaveLocal 1`. -/
def SmSaveLocal : Int := 1

/-- Save type `SmSaveBoth` (`X11/SM/SM.h`): `#define SmSaveBoth 2`. -/
def SmSaveBoth : Int := 2

/-- Interact style `SmInteractStyleNone` (`X11/SM/SM.h`): `#define SmInteractStyleNone 0`. -/
def SmInteractStyleNone : Int := 0

/-- Interact style `SmInteractStyleErrors` (`X11/SM/SM.h`): `#define SmInteractStyleErrors 1`. -/
def SmInteractStyleErrors : Int := 1

/-- Interact style `SmInteractStyleAny` (`X11/SM/SM.h`): `#define SmInteractStyleAny 2`. -/
def SmInteractStyleAny : Int := 2

/-- Modelled from the spec: `gsm-client.h` is not among the sources; the spec gives
`GetStatus() → u (0 unregistered, 1 registered, 2 finished, 3 failed)`. -/
def GSM_CLIENT_UNREGISTERED : Nat := 0

/-- Modelled from the spec: status value 1 of `GsmClientStatus` (`gsm-client.h`). -/
def GSM_CLIENT_REGISTERED : Nat := 1

/-- Modelled from the spec: status value 2 of `GsmClientStatus` (`gsm-client.h`). -/
def GSM_CLIENT_FINISHED : Nat := 2

/-- Modelled from the spec: status value 3 of `GsmClientStatus` (`gsm-client.h`). -/
def GSM_CLIENT_FAILED : Nat := 3

/-- Modelled from the spec: the end-session flags of `gsm-client.h`,
"Flags: bit 0 = forceful, bit 1 = save, bit 2 = last". -/
def GSM_CLIENT_END_SESSION_FLAG_FORCEFUL : Nat := 1

/-- Modelled from the spec: end-session flag, bit 1 = save (`gsm-client.h`). -/
def GSM_CLIENT_END_SESSION_FLAG_SAVE : Nat := 2

/-- Modelled from the spec: end-session flag, bit 2 = last (`gsm-client.h`). -/
def GSM_CLIENT_END_SESSION_FLAG_LAST : Nat := 4

/-- Error codes of the `GSM_CLIENT_ERROR` domain (`gsm_client_error_get_type`). -/
inductive GsmClientError where
  | GSM_CLIENT_ERROR_GENERAL
  | GSM_CLIENT_ERROR_NOT_REGISTERED
  deriving DecidableEq, Repr

/-- Modelled from the spec: the macro `IS_STRING_EMPTY` comes from a header that is
not among the sources; a string is empty when it is `NULL` or has no first
character ("non-empty id", "if prev_id was empty"). -/
def IS_STRING_EMPTY (x : Option String) : Bool :=
  match x with
  | none => true
  | some s => s.isEmpty

/-! ## Data model -/

/-- An XSMP property (`SmProp` of libSM): name, type tag and a list of byte
strings, each byte a number below 256. -/
structure SmProp where
  name : String
  type : String
  vals : List (List Nat)
  deriving DecidableEq, Repr

/-- Frames handed to libSM for the peer, one constructor per `Sms*` call of
`gsm-xsmp-client.c`. -/
inductive Frame where
  | SaveYourself (save_type : Int) (shutdown : Bool) (interact_style : Int) (fast : Bool)
  | SaveYourselfPhase2
  | Interact
  | SaveComplete
  | Die
  | ShutdownCancelled
  | RegisterClientReply (id : String)
  | ReturnProperties (props : List SmProp)
  deriving DecidableEq, Repr

/-- GObject signals emitted upward: `disconnected` and `end-session-response` of
`GsmClient`, `register-request` and `logout-request` of `GsmXSMPClient`. -/
inductive Signal where
  | disconnected
  | end_session_response (is_ok do_last cancel : Bool) (reason : Option String)
  | register_request (id : Option String)
  | logout_request (show_dialog : Bool)
  deriving DecidableEq, Repr

/-- One observable action of the engine, in program order. -/
inductive Effect where
  | sent (f : Frame)
  | emitted (s : Signal)
  deriving DecidableEq, Repr

/-- The frames of a trace, in order. -/
def frames (t : List Effect) : List Frame :=
  t.filterMap fun e =>
    match e with
    | Effect.sent f => some f
    | Effect.emitted _ => none

/-- The signals of a trace, in order. -/
def signals (t : List Effect) : List Signal :=
  t.filterMap fun e =>
    match e with
    | Effect.sent _ => none
    | Effect.emitted s => some s

/-- The client: `GsmClientPrivate` (`id`, `startup_id`, `app_id`, `status`)
followed by `GsmXSMPClientPrivate`.  `current_save_yourself` and
`next_save_yourself` are C `int`s with `-1` for "none";
`next_save_yourself_allow_interact` is the one-bit field. -/
structure GsmXSMPClient where
  id : String
  startup_id : String
  app_id : String
  status : Nat
  conn : Option Nat
  ice_connection : Option Nat
  watch_id : Nat
  props : List SmProp
  current_save_yourself : Int
  next_save_yourself : Int
  next_save_yourself_allow_interact : Bool
  deriving DecidableEq, Repr

/-- Storing a C `int` into the field `guint next_save_yourself_allow_interact : 1`
keeps the value modulo 2. -/
def bitfield1 (v : Int) : Bool := decide (v % 2 ≠ 0)

/-! ## gsm-client.c -/

/-- The function `get_next_client_serial`: on the 32-bit counter `client_serial`,
returns the serial handed out and the new counter. -/
def get_next_client_serial (client_serial : Nat) : Nat × Nat :=
  let serial := client_serial
  let client_serial := (client_serial + 1) % 2 ^ 32
  if 2 ^ 31 ≤ client_serial then (serial, 1) else (serial, client_serial)

/-- The function `gsm_client_set_status`. -/
def gsm_client_set_status (client : GsmXSMPClient) (status : Nat) : GsmXSMPClient :=
  if client.status ≠ status then { client with status := status } else client

/-- The function `gsm_client_set_startup_id`: a `NULL` id is stored as `""`. -/
def gsm_client_set_startup_id (client : GsmXSMPClient) (startup_id : Option String) :
    GsmXSMPClient :=
  match startup_id with
  | some s => { client with startup_id := s }
  | none => { client with startup_id := "" }

/-- The function `gsm_client_end_session_response`: emits the signal. -/
def gsm_client_end_session_response (is_ok do_last cancel : Bool) (reason : Option String) :
    List Effect :=
  [Effect.emitted (Signal.end_session_response is_ok do_last cancel reason)]

/-- The function `gsm_client_disconnected`: emits the signal. -/
def gsm_client_disconnected : List Effect :=
  [Effect.emitted Signal.disconnected]

/-! ## gsm-xsmp-client.c -/

/-- Construction of a client: `gsm_xsmp_client_new` runs `gsm_client_constructor`
(path from the serial, construct-time defaults `""`, `""`, unregistered),
`gsm_xsmp_client_init` (no property, no current and no queued SaveYourself) and
`setup_connection` (the watch on the descriptor). -/
def gsm_xsmp_client_new (ice_conn : Option Nat) (serial : Nat) (watch_id : Nat) :
    GsmXSMPClient :=
  { id := "/org/gnome/SessionManager/Client" ++ toString serial
    startup_id := ""
    app_id := ""
    status := GSM_CLIENT_UNREGISTERED
    conn := none
    ice_connection := ice_conn
    watch_id := watch_id
    props := []
    current_save_yourself := -1
    next_save_yourself := -1
    next_save_yourself_allow_interact := false }

/-- The function `gsm_xsmp_client_connect`: attaches the session-management
connection (the callbacks it registers are the `*_callback` functions below). -/
def gsm_xsmp_client_connect (client : GsmXSMPClient) (conn : Nat) : GsmXSMPClient :=
  { client with conn := some conn }

/-- The loop of `find_property` from index `i` on: the first property whose name
is `name`, with its index. -/
def find_property_from (props : List SmProp) (name : String) (i : Nat) :
    Option (SmProp × Nat) :=
  match props with
  | [] => none
  | prop :: rest =>
    if prop.name = name then some (prop, i) else find_property_from rest name (i + 1)

/-- The function `find_property`; `none` is the `NULL` return (index `-1`). -/
def find_property (client : GsmXSMPClient) (name : String) : Option (SmProp × Nat) :=
  find_property_from client.props name 0

/-- The GLib call `g_ptr_array_remove_index_fast`: the last element takes the
place of the removed one, the array becoming one shorter. -/
def g_ptr_array_remove_index_fast (pdata : List SmProp) (index : Nat) : List SmProp :=
  match pdata.getLast? with
  | none => pdata
  | some last => (pdata.set index last).dropLast

/-- The function `delete_property`. -/
def delete_property (client : GsmXSMPClient) (name : String) : GsmXSMPClient :=
  match find_property client name with
  | none => client
  | some (_, index) =>
    { client with props := g_ptr_array_remove_index_fast client.props index }

/-- The function `set_properties_callback`: for each property in turn,
`delete_property` by its name and then `g_ptr_array_add` (the calls
`debug_print_property` and `set_description` feed the debug log only). -/
def set_properties_callback (client : GsmXSMPClient) (props : List SmProp) :
    GsmXSMPClient × List Effect :=
  (props.foldl
    (fun client prop =>
      let client := delete_property client prop.name
      { client with props := client.props ++ [prop] })
    client, [])

/-- The function `delete_properties_callback`. -/
def delete_properties_callback (client : GsmXSMPClient) (prop_names : List String) :
    GsmXSMPClient × List Effect :=
  (prop_names.foldl (fun client name => delete_property client name) client, [])

/-- The function `get_properties_callback`. -/
def get_properties_callback (client : GsmXSMPClient) : GsmXSMPClient × List Effect :=
  (client, [Effect.sent (Frame.ReturnProperties client.props)])

/-- The three outcomes of `IceProcessMessages` that `client_iochannel_watch`
handles once the pending messages were dispatched to the callbacks. -/
inductive IceProcessMessagesStatus where
  | IceProcessMessagesSuccess
  | IceProcessMessagesIOError
  | IceProcessMessagesConnectionClosed
  deriving DecidableEq, Repr

/-- The function `client_iochannel_watch` after `IceProcessMessages` returned; the
`Bool` is `keep_going`, whether the descriptor stays watched. -/
def client_iochannel_watch (client : GsmXSMPClient) (status : IceProcessMessagesStatus) :
    GsmXSMPClient × List Effect × Bool :=
  match status with
  | IceProcessMessagesStatus.IceProcessMessagesSuccess => (client, [], true)
  | IceProcessMessagesStatus.IceProcessMessagesIOError =>
    let client := gsm_client_set_status client GSM_CLIENT_FAILED
    (client, gsm_client_disconnected, false)
  | IceProcessMessagesStatus.IceProcessMessagesConnectionClosed =>
    ({ client with ice_connection := none }, [], false)

/-- The function `do_save_yourself`. -/
def do_save_yourself (client : GsmXSMPClient) (save_type : Int) (allow_interact : Bool) :
    Option (GsmXSMPClient × List Effect) :=
  if client.conn = none then
    none
  else if client.next_save_yourself ≠ -1 then
    some (client, [])
  else if client.current_save_yourself ≠ -1 then
    some ({ client with
              next_save_yourself := save_type
              next_save_yourself_allow_interact := (allow_interact != false) }, [])
  else
    let client := { client with
                      current_save_yourself := save_type
                      next_save_yourself := -1
                      next_save_yourself_allow_interact := false }
    if save_type = SmSaveLocal then
      some (client, [Effect.sent (Frame.SaveYourself SmSaveLocal false SmInteractStyleNone false)])
    else if !allow_interact then
      some (client, [Effect.sent (Frame.SaveYourself save_type true SmInteractStyleNone true)])
    else
      some (client, [Effect.sent (Frame.SaveYourself save_type true SmInteractStyleAny false)])

/-- The function `xsmp_save_yourself_phase2`. -/
def xsmp_save_yourself_phase2 (client : GsmXSMPClient) : GsmXSMPClient × List Effect :=
  (client, [Effect.sent Frame.SaveYourselfPhase2])

/-- The function `xsmp_interact`. -/
def xsmp_interact (client : GsmXSMPClient) : GsmXSMPClient × List Effect :=
  (client, [Effect.sent Frame.Interact])

/-- What an upward operation hands back: the client, what was done, the
`gboolean` returned and the `GError` set, if any. -/
structure CallResult where
  client : GsmXSMPClient
  trace : List Effect
  retval : Bool
  error : Option GsmClientError
  deriving DecidableEq, Repr

/-- The error return shared by the upward operations:
`g_set_error (..., GSM_CLIENT_ERROR_NOT_REGISTERED, ...); return FALSE;`. -/
def not_registered (client : GsmXSMPClient) : CallResult :=
  { client := client
    trace := []
    retval := false
    error := some GsmClientError.GSM_CLIENT_ERROR_NOT_REGISTERED }

/-- The function `xsmp_cancel_end_session`. -/
def xsmp_cancel_end_session (client : GsmXSMPClient) : CallResult :=
  if client.conn = none then
    not_registered client
  else
    { client := { client with
                    current_save_yourself := -1
                    next_save_yourself := -1
                    next_save_yourself_allow_interact := false }
      trace := [Effect.sent Frame.ShutdownCancelled]
      retval := true
      error := none }

/-- The function `xsmp_stop`. -/
def xsmp_stop (client : GsmXSMPClient) : CallResult :=
  if client.conn = none then
    not_registered client
  else
    { client := client, trace := [Effect.sent Frame.Die], retval := true, error := none }

/-- The function `xsmp_query_end_session`. -/
def xsmp_query_end_session (client : GsmXSMPClient) (flags : Nat) : Option CallResult :=
  if client.conn = none then
    some (not_registered client)
  else
    let allow_interact := (flags &&& GSM_CLIENT_END_SESSION_FLAG_FORCEFUL) == 0
    let save_type := SmSaveGlobal
    match do_save_yourself client save_type allow_interact with
    | none => none
    | some (client, t) => some { client := client, trace := t, retval := true, error := none }

/-- The function `xsmp_end_session`. -/
def xsmp_end_session (client : GsmXSMPClient) (flags : Nat) : Option CallResult :=
  if client.conn = none then
    some (not_registered client)
  else
    let phase2 := (flags &&& GSM_CLIENT_END_SESSION_FLAG_LAST) != 0
    if phase2 then
      let (client, t) := xsmp_save_yourself_phase2 client
      some { client := client, trace := t, retval := true, error := none }
    else
      let allow_interact := false
      let save_type :=
        if (flags &&& GSM_CLIENT_END_SESSION_FLAG_SAVE) != 0 then SmSaveBoth else SmSaveGlobal
      match do_save_yourself client save_type allow_interact with
      | none => none
      | some (client, t) => some { client := client, trace := t, retval := true, error := none }

/-- The function `_boolean_handled_accumulator`: from the value accumulated so far
and the return of the handler that just ran, the new accumulated value and
whether the emission continues. -/
def _boolean_handled_accumulator (_return_accu : Bool) (handler_return : Bool) : Bool × Bool :=
  let signal_handled := handler_return
  let return_accu := signal_handled
  let continue_emission := !signal_handled
  (return_accu, continue_emission)

/-- A `register-request` handler: it receives the id (which it may replace) and
returns whether it handled the request, with the id it leaves. -/
abbrev RegisterHandler := Option String → Bool × Option String

/-- Emission of `register-request` (`g_signal_emit` with the accumulator
`_boolean_handled_accumulator`, no class handler being installed): the
handlers run in connection order on the shared id while the accumulator lets
the emission continue; `handled` is the value of the return location, which
`register_client_callback` initialises to `FALSE`. -/
def emit_register_request (handlers : List RegisterHandler) (id : Option String)
    (handled : Bool) : Option String × Bool :=
  match handlers with
  | [] => (id, handled)
  | h :: rest =>
    let (handler_return, id) := h id
    let (return_accu, continue_emission) := _boolean_handled_accumulator handled handler_return
    if continue_emission then emit_register_request rest id return_accu else (id, return_accu)

/-- The handlers that an emission of `register-request` invokes, as the list of
what each of them returned, in order of invocation: the traversal of
`emit_register_request` with every handler call recorded. -/
def invoked_handlers (handlers : List RegisterHandler) (id : Option String)
    (handled : Bool) : List (Bool × Option String) :=
  match handlers with
  | [] => []
  | h :: rest =>
    let (handler_return, id) := h id
    let (return_accu, continue_emission) := _boolean_handled_accumulator handled handler_return
    if continue_emission then
      (handler_return, id) :: invoked_handlers rest id return_accu
    else [(handler_return, id)]

/-- The function `register_client_callback`; the `Bool` is the `Status` returned
to libSM. -/
def register_client_callback (handlers : List RegisterHandler) (client : GsmXSMPClient)
    (previous_id : Option String) : Option (GsmXSMPClient × List Effect × Bool) :=
  let id := previous_id
  let t0 := [Effect.emitted (Signal.register_request id)]
  let (id, handled) := emit_register_request handlers id false
  if !handled then
    none
  else if IS_STRING_EMPTY id then
    some (client, t0, false)
  else
    let client := gsm_client_set_startup_id client id
    let t1 := [Effect.sent (Frame.RegisterClientReply (id.getD ""))]
    let (client, t2) :=
      if IS_STRING_EMPTY previous_id then
        ({ client with current_save_yourself := SmSaveLocal },
          [Effect.sent (Frame.SaveYourself SmSaveLocal false SmInteractStyleNone false)])
      else (client, [])
    let client := gsm_client_set_status client GSM_CLIENT_REGISTERED
    some (client, t0 ++ t1 ++ t2, true)

/-- The function `save_yourself_request_callback`. -/
def save_yourself_request_callback (client : GsmXSMPClient) (_save_type : Int)
    (shutdown : Bool) (_interact_style : Int) (fast : Bool) (global : Bool) :
    Option (GsmXSMPClient × List Effect) :=
  if shutdown && global then
    some (client, [Effect.emitted (Signal.logout_request (!fast))])
  else if !shutdown && !global then
    do_save_yourself client SmSaveLocal true
  else
    some (client, [])

/-- The function `save_yourself_phase2_request_callback`. -/
def save_yourself_phase2_request_callback (client : GsmXSMPClient) :
    GsmXSMPClient × List Effect :=
  let client := { client with current_save_yourself := -1 }
  (client, gsm_client_end_session_response true true false none)

/-- The function `interact_request_callback`. -/
def interact_request_callback (client : GsmXSMPClient) (_dialog_type : Int) :
    GsmXSMPClient × List Effect :=
  let t0 := gsm_client_end_session_response false false false
    (some "This program is blocking logout.")
  let (client, t1) := xsmp_interact client
  (client, t0 ++ t1)

/-- The function `interact_done_callback`. -/
def interact_done_callback (client : GsmXSMPClient) (cancel_shutdown : Bool) :
    GsmXSMPClient × List Effect :=
  (client, gsm_client_end_session_response true false cancel_shutdown none)

/-- The function `save_yourself_done_callback`.  The queued request is tested with
`if (priv->next_save_yourself)`, that is, against zero. -/
def save_yourself_done_callback (client : GsmXSMPClient) (_success : Bool) :
    Option (GsmXSMPClient × List Effect) :=
  let (client, t0) :=
    if client.current_save_yourself ≠ -1 then
      ({ client with current_save_yourself := -1 }, [Effect.sent Frame.SaveComplete])
    else (client, [])
  let t1 := gsm_client_end_session_response true false false none
  if client.next_save_yourself ≠ 0 then
    let save_type := client.next_save_yourself
    let allow_interact := client.next_save_yourself_allow_interact
    let client := { client with
                      next_save_yourself := -1
                      next_save_yourself_allow_interact := bitfield1 (-1) }
    match do_save_yourself client save_type allow_interact with
    | none => none
    | some (client, t2) => some (client, t0 ++ t1 ++ t2)
  else
    some (client, t0 ++ t1)

/-- The function `close_connection_callback`. -/
def close_connection_callback (client : GsmXSMPClient) (_reason_msgs : List String) :
    GsmXSMPClient × List Effect :=
  let client := gsm_client_set_status client GSM_CLIENT_FINISHED
  (client, gsm_client_disconnected)

/-! ### Strings and property vocabulary -/

/-- The bytes of an ASCII string literal of the source. -/
def bytes (s : String) : List Nat := s.toList.map Char.toNat

/-- What a read through a `char *` sees of a byte array that libSM has terminated
with a NUL: the bytes before the first NUL. -/
def c_string (value : List Nat) : List Nat := value.takeWhile (fun c => c ≠ 0)

/-- Property name `SmProgram` (`X11/SM/SM.h`). -/
def SmProgram : String := "Program"

/-- Property name `SmRestartCommand` (`X11/SM/SM.h`). -/
def SmRestartCommand : String := "RestartCommand"

/-- Property name `SmDiscardCommand` (`X11/SM/SM.h`). -/
def SmDiscardCommand : String := "DiscardCommand"

/-- Property name `SmRestartStyleHint` (`X11/SM/SM.h`). -/
def SmRestartStyleHint : String := "RestartStyleHint"

/-- Property name `SmProcessID` (`X11/SM/SM.h`). -/
def SmProcessID : String := "ProcessID"

/-- The non-standard property name `GsmDesktopFile` of `gsm-xsmp-client.c`. -/
def GsmDesktopFile : String := "_GSM_DesktopFile"

/-- Property type `SmCARD8` (`X11/SM/SM.h`). -/
def SmCARD8 : String := "CARD8"

/-- Property type `SmARRAY8` (`X11/SM/SM.h`). -/
def SmARRAY8 : String := "ARRAY8"

/-- Property type `SmLISTofARRAY8` (`X11/SM/SM.h`). -/
def SmLISTofARRAY8 : String := "LISTofARRAY8"

/-- Restart style `SmRestartIfRunning` on the wire (`X11/SM/SM.h`). -/
def SmRestartIfRunning : Nat := 0

/-- Restart style `SmRestartAnyway` on the wire (`X11/SM/SM.h`). -/
def SmRestartAnyway : Nat := 1

/-- Restart style `SmRestartImmediately` on the wire (`X11/SM/SM.h`). -/
def SmRestartImmediately : Nat := 2

/-- Restart style `SmRestartNever` on the wire (`X11/SM/SM.h`). -/
def SmRestartNever : Nat := 3

/-- Modelled from the spec: `GsmClientRestartStyle` of `gsm-client.h`, which is not
among the sources; the spec gives `GetRestartStyleHint() → u (0 IfRunning,
1 Anyway, 2 Immediately, 3 Never)`. -/
def GSM_CLIENT_RESTART_IF_RUNNING : Nat := 0

/-- Modelled from the spec: restart style 1 of `GsmClientRestartStyle`. -/
def GSM_CLIENT_RESTART_ANYWAY : Nat := 1

/-- Modelled from the spec: restart style 2 of `GsmClientRestartStyle`. -/
def GSM_CLIENT_RESTART_IMMEDIATELY : Nat := 2

/-- Modelled from the spec: restart style 3 of `GsmClientRestartStyle`. -/
def GSM_CLIENT_RESTART_NEVER : Nat := 3

/-! ### Command reconstruction -/

/-- The GLib call `g_ascii_isalnum`: an ASCII letter or digit. -/
def g_ascii_isalnum (c : Nat) : Bool :=
  decide ((48 ≤ c ∧ c ≤ 57) ∨ (65 ≤ c ∧ c ≤ 90) ∨ (97 ≤ c ∧ c ≤ 122))

/-- Whether `strchr (s, c)` is not `NULL`: the byte occurs in the C string `s`, whose
terminating NUL counts as part of it. -/
def strchr (s : List Nat) (c : Nat) : Bool :=
  decide (c = 0 ∨ c ∈ s)

/-- The scan of `prop_to_command` that sets `need_quotes`: some byte of the value is
neither alphanumeric nor found by `strchr ("-_=:./", ...)`. -/
def need_quotes_loop (val : List Nat) : Bool :=
  match val with
  | [] => false
  | c :: rest =>
    if !g_ascii_isalnum c && !strchr (bytes "-_=:./") c then true else need_quotes_loop rest

/-- The `while` loop of `prop_to_command` on a quoted value: every byte is
appended as it is, except a single quote, for which the string literal written
quote, backslash, quote, quote between double quotes is appended.  In a C
string literal a backslash followed by a quote is the escape sequence for a
quote, so that literal holds the three bytes quote, quote, quote. -/
def quote_loop (val : List Nat) : List Nat :=
  match val with
  | [] => []
  | c :: rest => (if c = 39 then [39, 39, 39] else [c]) ++ quote_loop rest

/-- What `prop_to_command` appends for one value: `"%.*s"` with the length as
precision (it stops at a NUL) when no quotes are needed, else the value
between single quotes. -/
def append_value (val : List Nat) : List Nat :=
  if !need_quotes_loop val then c_string val else [39] ++ quote_loop val ++ [39]

/-- The `for` loop of `prop_to_command` from index `i` on, `str` being the
`GString` built so far. -/
def prop_to_command_loop (vals : List (List Nat)) (i : Nat) (str : List Nat) : List Nat :=
  match vals with
  | [] => str
  | val :: rest =>
    let str := if i > 0 then str ++ [32] else str
    prop_to_command_loop rest (i + 1) (str ++ append_value val)

/-- The function `prop_to_command`: the bytes of the buffer handed back by
`g_string_free (str, FALSE)`. -/
def prop_to_command (prop : SmProp) : List Nat :=
  prop_to_command_loop prop.vals 0 []

/-- The function `xsmp_get_restart_command`; `none` is `NULL`. -/
def xsmp_get_restart_command (client : GsmXSMPClient) : Option (List Nat) :=
  match find_property client SmRestartCommand with
  | none => none
  | some (prop, _) => if prop.type ≠ SmLISTofARRAY8 then none else some (prop_to_command prop)

/-- The function `xsmp_get_discard_command`; `none` is `NULL`. -/
def xsmp_get_discard_command (client : GsmXSMPClient) : Option (List Nat) :=
  match find_property client SmDiscardCommand with
  | none => none
  | some (prop, _) => if prop.type ≠ SmLISTofARRAY8 then none else some (prop_to_command prop)

/-- The function `xsmp_get_app_name`; `none` is `NULL`. -/
def xsmp_get_app_name (client : GsmXSMPClient) : Option (List Nat) :=
  match find_property client SmProgram with
  | none => none
  | some (prop, _) => some (prop_to_command prop)

/-! ### Restart style and process id -/

/-- The function `xsmp_get_restart_style_hint`.  `none` stands for the undefined
behaviour of reading `prop->vals[0]` of a property without any value; the
first byte of an empty value is the NUL libSM puts after every value. -/
def xsmp_get_restart_style_hint (client : GsmXSMPClient) : Option Nat :=
  match find_property client SmRestartStyleHint with
  | none => some GSM_CLIENT_RESTART_IF_RUNNING
  | some (prop, _) =>
    if prop.type ≠ SmCARD8 then some GSM_CLIENT_RESTART_IF_RUNNING
    else
      match prop.vals with
      | [] => none
      | value :: _ =>
        let byte := value.headD 0
        if byte = SmRestartIfRunning then some GSM_CLIENT_RESTART_IF_RUNNING
        else if byte = SmRestartAnyway then some GSM_CLIENT_RESTART_ANYWAY
        else if byte = SmRestartImmediately then some GSM_CLIENT_RESTART_IMMEDIATELY
        else if byte = SmRestartNever then some GSM_CLIENT_RESTART_NEVER
        else some GSM_CLIENT_RESTART_IF_RUNNING

/-- The C library call `isspace` in the "C" locale: space, and tab to carriage
return. -/
def isspace (c : Nat) : Bool := decide (c = 32 ∨ (9 ≤ c ∧ c ≤ 13))

/-- The C library call `isdigit`. -/
def isdigit (c : Nat) : Bool := decide (48 ≤ c ∧ c ≤ 57)

/-- The number a run of decimal digits stands for, most significant first. -/
def digits_value (digits : List Nat) : Nat :=
  digits.foldl (fun acc d => acc * 10 + (d - 48)) 0

/-- The C library call `strtoul (value, &end, 10)` on a C string, `unsigned long`
having `long_bits` bits: leading white space, an optional sign and the longest
run of digits are consumed.  The result is the value returned, what `end`
points to, and whether `errno` is set to `ERANGE`.  Without any digit nothing
is consumed; a number that does not fit gives `ULONG_MAX` and `ERANGE`; a
minus sign negates modulo `2 ^ long_bits`. -/
def strtoul (long_bits : Nat) (value : List Nat) : Nat × List Nat × Bool :=
  let after_space := value.dropWhile isspace
  let negative := after_space.head? = some 45
  let after_sign :=
    if after_space.head? = some 45 ∨ after_space.head? = some 43 then after_space.tail
    else after_space
  let digits := after_sign.takeWhile isdigit
  let rest := after_sign.dropWhile isdigit
  if digits = [] then (0, value, false)
  else if 2 ^ long_bits ≤ digits_value digits then (2 ^ long_bits - 1, rest, true)
  else if negative then ((2 ^ long_bits - digits_value digits) % 2 ^ long_bits, rest, false)
  else (digits_value digits, rest, false)

/-- The function `_parse_value_as_uint` on a C string; `none` is the `FALSE`
return, `some` carries `*uintval`. -/
def _parse_value_as_uint (long_bits : Nat) (value : List Nat) : Option Nat :=
  let (ulong_value, end_of_valid_uint, erange) := strtoul long_bits value
  if value = [] ∨ end_of_valid_uint ≠ [] then none
  else
    let uint_value := ulong_value % 2 ^ 32
    if uint_value ≠ ulong_value ∨ erange = true then none
    else some uint_value

/-- The function `xsmp_get_unix_process_id`.  `none` stands for the undefined
behaviour of reading `prop->vals[0]` of a property without any value. -/
def xsmp_get_unix_process_id (long_bits : Nat) (client : GsmXSMPClient) : Option Nat :=
  match find_property client SmProcessID with
  | none => some 0
  | some (prop, _) =>
    if prop.type ≠ SmARRAY8 then some 0
    else
      match prop.vals with
      | [] => none
      | value :: _ =>
        match _parse_value_as_uint long_bits (c_string value) with
        | some pid => some pid
        | none => some 0

/-! ### Saving a client as a desktop entry -/

/-- A `GError`, known by its message. -/
structure GError where
  message : String
  deriving DecidableEq, Repr

/-- A value stored in a key file: a C string written in the program text, a C
string made of bytes received from the peer, or a boolean. -/
inductive KeyValue where
  | text (s : String)
  | raw (b : List Nat)
  | boolean (b : Bool)
  deriving DecidableEq, Repr

/-- A `GKeyFile`: the values stored under (group, key). -/
abbrev GKeyFile := List ((String × String) × KeyValue)

/-- Group `G_KEY_FILE_DESKTOP_GROUP` of GLib. -/
def G_KEY_FILE_DESKTOP_GROUP : String := "Desktop Entry"

/-- Key `G_KEY_FILE_DESKTOP_KEY_NAME` of GLib. -/
def G_KEY_FILE_DESKTOP_KEY_NAME : String := "Name"

/-- Key `G_KEY_FILE_DESKTOP_KEY_COMMENT` of GLib. -/
def G_KEY_FILE_DESKTOP_KEY_COMMENT : String := "Comment"

/-- Key `G_KEY_FILE_DESKTOP_KEY_ICON` of GLib. -/
def G_KEY_FILE_DESKTOP_KEY_ICON : String := "Icon"

/-- Key `G_KEY_FILE_DESKTOP_KEY_TYPE` of GLib. -/
def G_KEY_FILE_DESKTOP_KEY_TYPE : String := "Type"

/-- Key `G_KEY_FILE_DESKTOP_KEY_STARTUP_NOTIFY` of GLib. -/
def G_KEY_FILE_DESKTOP_KEY_STARTUP_NOTIFY : String := "StartupNotify"

/-- Key `G_KEY_FILE_DESKTOP_KEY_EXEC` of GLib. -/
def G_KEY_FILE_DESKTOP_KEY_EXEC : String := "Exec"

/-- Modelled from the spec: `gsm-autostart-app.h` is not among the sources; the
spec names the key `X-GNOME-Autostart-startup-id`. -/
def GSM_AUTOSTART_APP_STARTUP_ID_KEY : String := "X-GNOME-Autostart-startup-id"

/-- Modelled from the spec: `gsm-autostart-app.h` is not among the sources; the
spec names the key `X-GNOME-Autostart-discard-command`. -/
def GSM_AUTOSTART_APP_DISCARD_KEY : String := "X-GNOME-Autostart-discard-command"

/-- The GLib call `g_key_file_set_string` (and, with a boolean, the call
`g_key_file_set_boolean`): the value replaces whatever was stored under the
key. -/
def g_key_file_set (keyfile : GKeyFile) (group key : String) (value : KeyValue) : GKeyFile :=
  ((group, key), value) :: keyfile.filter fun e => decide (e.1 ≠ (group, key))

/-- The value a key file holds under (group, key), if any. -/
def g_key_file_get (keyfile : GKeyFile) (group key : String) : Option KeyValue :=
  (keyfile.find? fun e => decide (e.1 = (group, key))).map fun e => e.2

/-- What `xsmp_save` needs from outside the client: `g_file_get_path` of the
`GFile` made from a URI; the search of the autostart directories
(`gsm_util_find_desktop_file_for_app_name` on `gsm_util_get_autostart_dirs`,
both outside the sources); and `g_key_file_load_from_file`, giving what the
file holds and the error, if any. -/
structure Files where
  g_file_get_path : List Nat → Option (List Nat)
  gsm_util_find_desktop_file_for_app_name : List Nat → Option (List Nat)
  g_key_file_load_from_file : List Nat → GKeyFile × Option GError

/-- The function `get_desktop_file_path`: the outer `none` is the undefined
behaviour of reading `prop->vals[0]` of a property without any value, the inner
one a `NULL` path. -/
def get_desktop_file_path (files : Files) (client : GsmXSMPClient) :
    Option (Option (List Nat)) :=
  match find_property client GsmDesktopFile with
  | some (prop, _) =>
    match prop.vals with
    | [] => none
    | value :: _ => some (files.g_file_get_path (c_string value))
  | none =>
    match find_property client SmProgram with
    | none => some none
    | some (prop, _) =>
      match prop.vals with
      | [] => none
      | value :: _ => some (files.gsm_util_find_desktop_file_for_app_name (c_string value))

/-- The function `set_desktop_file_keys_from_client`; `none` is the undefined
behaviour of reading `prop->vals[0]` of a property without any value. -/
def set_desktop_file_keys_from_client (client : GsmXSMPClient) (keyfile : GKeyFile) :
    Option GKeyFile :=
  let name : Option KeyValue :=
    match find_property client SmProgram with
    | some (prop, _) =>
      match prop.vals with
      | [] => none
      | value :: _ => some (KeyValue.raw (c_string value))
    | none => some (KeyValue.text "Remembered Application")
  match name with
  | none => none
  | some name =>
    let comment :=
      KeyValue.text ("Client " ++ client.startup_id ++ " which was automatically saved")
    let keyfile :=
      g_key_file_set keyfile G_KEY_FILE_DESKTOP_GROUP G_KEY_FILE_DESKTOP_KEY_NAME name
    let keyfile :=
      g_key_file_set keyfile G_KEY_FILE_DESKTOP_GROUP G_KEY_FILE_DESKTOP_KEY_COMMENT comment
    let keyfile :=
      g_key_file_set keyfile G_KEY_FILE_DESKTOP_GROUP G_KEY_FILE_DESKTOP_KEY_ICON
        (KeyValue.text "system-run")
    let keyfile :=
      g_key_file_set keyfile G_KEY_FILE_DESKTOP_GROUP G_KEY_FILE_DESKTOP_KEY_TYPE
        (KeyValue.text "Application")
    let keyfile :=
      g_key_file_set keyfile G_KEY_FILE_DESKTOP_GROUP G_KEY_FILE_DESKTOP_KEY_STARTUP_NOTIFY
        (KeyValue.boolean true)
    some keyfile

/-- The function `create_client_key_file`: the key file and the error set, if
any. -/
def create_client_key_file (files : Files) (client : GsmXSMPClient)
    (desktop_file_path : Option (List Nat)) : Option (GKeyFile × Option GError) :=
  match desktop_file_path with
  | some path => some (files.g_key_file_load_from_file path)
  | none =>
    match set_desktop_file_keys_from_client client [] with
    | none => none
    | some keyfile => some (keyfile, none)

/-- What `xsmp_save` hands back: the client, the key file returned (`none` is
`NULL`) and the error reported, if any. -/
structure SaveResult where
  client : GsmXSMPClient
  keyfile : Option GKeyFile
  error : Option GError
  deriving DecidableEq, Repr

/-- The function `xsmp_save`; `none` is undefined behaviour met on the way. -/
def xsmp_save (files : Files) (client : GsmXSMPClient) : Option SaveResult :=
  match xsmp_get_restart_style_hint client with
  | none => none
  | some restart_style =>
    if restart_style = GSM_CLIENT_RESTART_NEVER then
      some { client := client, keyfile := none, error := none }
    else
      match xsmp_get_restart_command client with
      | none => some { client := client, keyfile := none, error := none }
      | some exec_program =>
        match get_desktop_file_path files client with
        | none => none
        | some desktop_file_path =>
          match create_client_key_file files client desktop_file_path with
          | none => none
          | some (_, some local_error) =>
            some { client := client, keyfile := none, error := some local_error }
          | some (keyfile, none) =>
            let startup_id := client.startup_id
            let keyfile :=
              g_key_file_set keyfile G_KEY_FILE_DESKTOP_GROUP GSM_AUTOSTART_APP_STARTUP_ID_KEY
                (KeyValue.text startup_id)
            let keyfile :=
              g_key_file_set keyfile G_KEY_FILE_DESKTOP_GROUP G_KEY_FILE_DESKTOP_KEY_EXEC
                (KeyValue.raw (c_string exec_program))
            let keyfile :=
              match xsmp_get_discard_command client with
              | some exec_discard =>
                g_key_file_set keyfile G_KEY_FILE_DESKTOP_GROUP GSM_AUTOSTART_APP_DISCARD_KEY
                  (KeyValue.raw (c_string exec_discard))
              | none => keyfile
            some { client := client, keyfile := some keyfile, error := none }

/-! ### What the specification says of numbers -/

/-- The decimal rendering of a number: its base-ten digits, most significant
first, as ASCII digits. -/
def decimal (n : Nat) : List Nat :=
  if n = 0 then [48] else (Nat.digits 10 n).reverse.map fun d => d + 48

/-! ### What the specification says of command reconstruction -/

/-- The set of the specification: ASCII letters, ASCII digits and the six bytes
underscore, equals sign, colon, full stop, slash and hyphen. -/
def in_safe_set (c : Nat) : Bool :=
  decide ((48 ≤ c ∧ c ≤ 57) ∨ (65 ≤ c ∧ c ≤ 90) ∨ (97 ≤ c ∧ c ≤ 122) ∨
    c = 95 ∨ c = 61 ∨ c = 58 ∨ c = 46 ∨ c = 47 ∨ c = 45)

/-- The element with each single quote replaced by quote, backslash, quote,
quote. -/
def escape_quotes (val : List Nat) : List Nat :=
  val.flatMap fun c => if c = 39 then [39, 92, 39, 39] else [c]

/-- The quoted rendering of the specification: a single quote, the element with
its single quotes escaped, a single quote. -/
def shell_quote (val : List Nat) : List Nat :=
  [39] ++ escape_quotes val ++ [39]

/-- The rendering of one element according to the specification: verbatim when
every byte is in the set, quoted otherwise. -/
def render (val : List Nat) : List Nat :=
  if val.all in_safe_set then val else shell_quote val

/-- Renderings joined by exactly one space: nothing for no rendering, no space
before the first or after the last. -/
def join_with_space (renderings : List (List Nat)) : List Nat :=
  match renderings with
  | [] => []
  | [r] => r
  | r :: rest => r ++ [32] ++ join_with_space rest

/-- Where a scan of a shell command line stands: outside quotes, between single
quotes, or right after a backslash met outside quotes. -/
inductive ShellMode where
  | plain
  | quoted
  | escaped
  deriving DecidableEq, Repr

/-- Shell word splitting by the three rules named for command lines: outside
quotes a space ends the word being built, a single quote opens a quoted
stretch and a backslash makes the next byte literal; between single quotes
every byte up to the closing quote is literal.  `word` is the word being
built, `none` between words (a pair of quotes with nothing inside starts a
word, which is then empty). -/
def shell_split_loop (input : List Nat) (word : Option (List Nat)) (mode : ShellMode) :
    List (List Nat) :=
  match input with
  | [] =>
    match word with
    | none => []
    | some w => [w]
  | c :: rest =>
    match mode with
    | ShellMode.escaped => shell_split_loop rest (some (word.getD [] ++ [c])) ShellMode.plain
    | ShellMode.quoted =>
      if c = 39 then shell_split_loop rest word ShellMode.plain
      else shell_split_loop rest (some (word.getD [] ++ [c])) ShellMode.quoted
    | ShellMode.plain =>
      if c = 32 then
        match word with
        | none => shell_split_loop rest none ShellMode.plain
        | some w => w :: shell_split_loop rest none ShellMode.plain
      else if c = 39 then shell_split_loop rest (some (word.getD [])) ShellMode.quoted
      else if c = 92 then shell_split_loop rest (some (word.getD [])) ShellMode.escaped
      else shell_split_loop rest (some (word.getD [] ++ [c])) ShellMode.plain

/-- The argument vector a shell makes of a command line. -/
def shell_split (input : List Nat) : List (List Nat) :=
  shell_split_loop input none ShellMode.plain

/-! ## The client as a state machine -/

/-- What can happen to a client: the attachment of its session-management
connection, the inbound messages libSM dispatches to the callbacks installed
by `gsm_xsmp_client_connect`, the outcome of a read on the descriptor, and the
operations the session manager invokes. -/
inductive Event where
  | connect (conn : Nat)
  | RegisterClient (handlers : List RegisterHandler) (previous_id : Option String)
  | SetProperties (props : List SmProp)
  | DeleteProperties (prop_names : List String)
  | GetProperties
  | SaveYourselfRequest (save_type : Int) (shutdown : Bool) (interact_style : Int)
      (fast : Bool) (global : Bool)
  | SaveYourselfPhase2Request
  | InteractRequest (dialog_type : Int)
  | InteractDone (cancel_shutdown : Bool)
  | SaveYourselfDone (success : Bool)
  | CloseConnection (reason_msgs : List String)
  | watch (status : IceProcessMessagesStatus)
  | stop
  | query_end_session (flags : Nat)
  | end_session (flags : Nat)
  | cancel_end_session

/-- Whether the event is an inbound message, delivered through the callbacks:
these exist only once `gsm_xsmp_client_connect` has stored the connection. -/
def Event.isInbound (ev : Event) : Bool :=
  match ev with
  | Event.connect _ => false
  | Event.watch _ => false
  | Event.stop => false
  | Event.query_end_session _ => false
  | Event.end_session _ => false
  | Event.cancel_end_session => false
  | _ => true

/-- One step of a client: the state after the event and what was done; `none`
when an inbound message is offered to a client without connection (it cannot
be delivered) or when the process aborts. -/
def step (client : GsmXSMPClient) (ev : Event) : Option (GsmXSMPClient × List Effect) :=
  if ev.isInbound && client.conn.isNone then none
  else
    match ev with
    | Event.connect conn => some (gsm_xsmp_client_connect client conn, [])
    | Event.RegisterClient handlers previous_id =>
      (register_client_callback handlers client previous_id).map fun r => (r.1, r.2.1)
    | Event.SetProperties props => some (set_properties_callback client props)
    | Event.DeleteProperties prop_names => some (delete_properties_callback client prop_names)
    | Event.GetProperties => some (get_properties_callback client)
    | Event.SaveYourselfRequest save_type shutdown interact_style fast global =>
      save_yourself_request_callback client save_type shutdown interact_style fast global
    | Event.SaveYourselfPhase2Request => some (save_yourself_phase2_request_callback client)
    | Event.InteractRequest dialog_type => some (interact_request_callback client dialog_type)
    | Event.InteractDone cancel_shutdown => some (interact_done_callback client cancel_shutdown)
    | Event.SaveYourselfDone success => save_yourself_done_callback client success
    | Event.CloseConnection reason_msgs => some (close_connection_callback client reason_msgs)
    | Event.watch status =>
      let r := client_iochannel_watch client status
      some (r.1, r.2.1)
    | Event.stop =>
      let r := xsmp_stop client
      some (r.client, r.trace)
    | Event.query_end_session flags =>
      (xsmp_query_end_session client flags).map fun r => (r.client, r.trace)
    | Event.end_session flags =>
      (xsmp_end_session client flags).map fun r => (r.client, r.trace)
    | Event.cancel_end_session =>
      let r := xsmp_cancel_end_session client
      some (r.client, r.trace)

/-- The states a client can be in: those reached from a newly constructed client
by finitely many events. -/
inductive Reachable : GsmXSMPClient → Prop where
  | new (ice_conn : Option Nat) (serial watch_id : Nat) :
      Reachable (gsm_xsmp_client_new ice_conn serial watch_id)
  | next (client client2 : GsmXSMPClient) (ev : Event) (t : List Effect) :
      Reachable client → step client ev = some (client2, t) → Reachable client2

/-! ## The session: construction of clients -/

/-- The initial value of the counter: `static guint32 client_serial = 1;`. -/
def client_serial_start : Nat := 1

/-- Construction of a client in a session whose counter is `client_serial`:
`gsm_client_constructor` draws the serial of the path from
`get_next_client_serial`.  The result is the client and the new counter. -/
def construct_client (client_serial : Nat) (ice_conn : Option Nat) (watch_id : Nat) :
    GsmXSMPClient × Nat :=
  let (serial, client_serial) := get_next_client_serial client_serial
  (gsm_xsmp_client_new ice_conn serial watch_id, client_serial)

/-- The counter after `k` clients were constructed in a session. -/
def client_serial_after (k : Nat) : Nat :=
  match k with
  | 0 => client_serial_start
  | k + 1 => (get_next_client_serial (client_serial_after k)).2

/-- The serial handed out by the `k`-th allocation of a session, `k` counted
from 1. -/
def allocated_serial (k : Nat) : Nat :=
  (get_next_client_serial (client_serial_after (k - 1))).1

/-- The `k`-th client constructed in a session, `k` counted from 1. -/
def constructed_client (k : Nat) (ice_conn : Option Nat) (watch_id : Nat) : GsmXSMPClient :=
  (construct_client (client_serial_after (k - 1)) ice_conn watch_id).1

/-- A client run through a sequence of events; `none` when some event cannot be
delivered or aborts. -/
def run (client : GsmXSMPClient) (events : List Event) : Option GsmXSMPClient :=
  match events with
  | [] => some client
  | ev :: rest =>
    match step client ev with
    | none => none
    | some (client, _) => run client rest

/-- Whether the event is an inbound RegisterClient. -/
def Event.isRegisterClient (ev : Event) : Bool :=
  match ev with
  | Event.RegisterClient _ _ => true
  | _ => false

/-! ## Scenario states -/

/-- A client as the listener leaves it once the session-management connection
is attached: `gsm_xsmp_client_new` followed by `gsm_xsmp_client_connect`. -/
def connected_client : GsmXSMPClient :=
  gsm_xsmp_client_connect (gsm_xsmp_client_new (some 7) 1 3) 42

/-- A `register-request` handler that accepts with the id `c1`. -/
def accept_c1 : RegisterHandler := fun _ => (true, some "c1")

/-- A `register-request` handler that does not handle the request and leaves the
id as it is. -/
def not_handled : RegisterHandler := fun id => (false, id)

/-- A `register-request` handler that accepts with the id `id-A`. -/
def accept_id_A : RegisterHandler := fun _ => (true, some "id-A")

/-- A `register-request` handler that accepts with the id `id-B`. -/
def accept_id_B : RegisterHandler := fun _ => (true, some "id-B")

/-- The client of scenario 1 after `RegisterClient(prev_id = NULL)` was accepted
with id `c1`: registered, its initial local SaveYourself in flight. -/
def registered_client : GsmXSMPClient :=
  { connected_client with
      startup_id := "c1"
      status := GSM_CLIENT_REGISTERED
      current_save_yourself := SmSaveLocal }

/-- The registered client after `query_end_session(flags = 0)` arrived while its
initial SaveYourself was still in flight: the request (global, interaction
allowed) is queued. -/
def queued_global_client : GsmXSMPClient :=
  { registered_client with
      next_save_yourself := SmSaveGlobal
      next_save_yourself_allow_interact := true }

/-- The property of scenario 6: `SmProgram = ["my app", "--file=/tmp/a'b"]`. -/
def my_app_program : SmProp :=
  { name := SmProgram
    type := SmLISTofARRAY8
    vals := [bytes "my app", bytes "--file=/tmp/a'b"] }

/-- The registered client of scenario 1 holding the property of scenario 6. -/
def my_app_client : GsmXSMPClient :=
  { registered_client with props := [my_app_program] }

/-- The registered client of scenario 1 holding one property. -/
def client_with (prop : SmProp) : GsmXSMPClient :=
  { registered_client with props := [prop] }

/-- A world without any desktop file: no URI has a path, the autostart
directories hold no match, and loading a file fails. -/
def no_files : Files :=
  { g_file_get_path := fun _ => none
    gsm_util_find_desktop_file_for_app_name := fun _ => none
    g_key_file_load_from_file := fun _ =>
      ([], some { message := "No such file or directory" }) }

/-- A restart command of three words, none needing quotes. -/
def restart_command : SmProp :=
  { name := SmRestartCommand
    type := SmLISTofARRAY8
    vals := [bytes "gedit", bytes "--sm-client-id", bytes "c1"] }

/-- The registered client of scenario 1 holding a restart command. -/
def saving_client : GsmXSMPClient :=
  { registered_client with props := [restart_command] }

/-- The entry `xsmp_save` makes for `saving_client` when no desktop file is
found. -/
def saved_entry : GKeyFile :=
  [((G_KEY_FILE_DESKTOP_GROUP, G_KEY_FILE_DESKTOP_KEY_EXEC),
      KeyValue.raw (bytes "gedit --sm-client-id c1")),
   ((G_KEY_FILE_DESKTOP_GROUP, GSM_AUTOSTART_APP_STARTUP_ID_KEY), KeyValue.text "c1"),
   ((G_KEY_FILE_DESKTOP_GROUP, G_KEY_FILE_DESKTOP_KEY_STARTUP_NOTIFY), KeyValue.boolean true),
   ((G_KEY_FILE_DESKTOP_GROUP, G_KEY_FILE_DESKTOP_KEY_TYPE), KeyValue.text "Application"),
   ((G_KEY_FILE_DESKTOP_GROUP, G_KEY_FILE_DESKTOP_KEY_ICON), KeyValue.text "system-run"),
   ((G_KEY_FILE_DESKTOP_GROUP, G_KEY_FILE_DESKTOP_KEY_COMMENT),
      KeyValue.text "Client c1 which was automatically saved"),
   ((G_KEY_FILE_DESKTOP_GROUP, G_KEY_FILE_DESKTOP_KEY_NAME),
      KeyValue.text "Remembered Application")]

/-- The saving client with, besides, a DiscardCommand sent with the type ARRAY8. -/
def discard_array8_client : GsmXSMPClient :=
  { registered_client with
      props := [restart_command,
                { name := SmDiscardCommand, type := SmARRAY8, vals := [bytes "rm"] }] }

/-- A restart command whose last argument is the empty string. -/
def empty_argument_command : SmProp :=
  { name := SmRestartCommand
    type := SmLISTofARRAY8
    vals := [bytes "prog", bytes "--name", []] }

/-- The registered client of scenario 1 holding that restart command. -/
def empty_argument_client : GsmXSMPClient :=
  { registered_client with props := [empty_argument_command] }

/-! ## Helper lemmas -/

theorem and_two_pow_eq (x i : Nat) : x &&& 2 ^ i = if x.testBit i then 2 ^ i else 0 := by
  apply Nat.eq_of_testBit_eq
  intro j
  rw [Nat.testBit_and, Nat.testBit_two_pow]
  by_cases hij : i = j
  · subst hij
    cases hx : x.testBit i <;> simp [Nat.testBit_two_pow_self]
  · cases hx : x.testBit i <;> simp [hij, Nat.testBit_two_pow]

theorem forceful_bit (flags : Nat) :
    ((flags &&& GSM_CLIENT_END_SESSION_FLAG_FORCEFUL) == 0) = !flags.testBit 0 := by
  have h := and_two_pow_eq flags 0
  simp only [pow_zero] at h
  unfold GSM_CLIENT_END_SESSION_FLAG_FORCEFUL
  rw [h]
  cases flags.testBit 0 <;> simp

theorem save_bit (flags : Nat) :
    ((flags &&& GSM_CLIENT_END_SESSION_FLAG_SAVE) != 0) = flags.testBit 1 := by
  have h := and_two_pow_eq flags 1
  simp only [pow_one] at h
  unfold GSM_CLIENT_END_SESSION_FLAG_SAVE
  rw [h]
  cases flags.testBit 1 <;> simp

theorem last_bit (flags : Nat) :
    ((flags &&& GSM_CLIENT_END_SESSION_FLAG_LAST) != 0) = flags.testBit 2 := by
  have h := and_two_pow_eq flags 2
  have h4 : (2 : Nat) ^ 2 = 4 := by norm_num
  rw [h4] at h
  unfold GSM_CLIENT_END_SESSION_FLAG_LAST
  rw [h]
  cases flags.testBit 2 <;> simp

theorem registered_client_reached :
    register_client_callback [accept_c1] connected_client none =
      some (registered_client,
        [Effect.emitted (Signal.register_request none),
         Effect.sent (Frame.RegisterClientReply "c1"),
         Effect.sent (Frame.SaveYourself SmSaveLocal false SmInteractStyleNone false)],
        true) := by
  rfl

theorem do_save_yourself_returns (client : GsmXSMPClient) (save_type : Int)
    (allow_interact : Bool) (hconn : client.conn ≠ none) :
    ∃ c t, do_save_yourself client save_type allow_interact = some (c, t) := by
  unfold do_save_yourself
  simp only [hconn, if_false]
  split
  · exact ⟨_, _, rfl⟩
  · split
    · exact ⟨_, _, rfl⟩
    · split
      · exact ⟨_, _, rfl⟩
      · split <;> exact ⟨_, _, rfl⟩

theorem queued_global_client_reached :
    xsmp_query_end_session registered_client 0 =
      some ⟨queued_global_client, [], true, none⟩ := by
  rfl

theorem save_yourself_done_nonzero (client : GsmXSMPClient) (success : Bool)
    (hconn : client.conn ≠ none)
    (hcur : client.current_save_yourself ≠ -1)
    (hnext : client.next_save_yourself ≠ 0) :
    save_yourself_done_callback client success =
      some ({ client with
                current_save_yourself := client.next_save_yourself
                next_save_yourself := -1
                next_save_yourself_allow_interact := false },
            [Effect.sent Frame.SaveComplete,
             Effect.emitted (Signal.end_session_response true false false none),
             Effect.sent
              (if client.next_save_yourself = SmSaveLocal then
                Frame.SaveYourself SmSaveLocal false SmInteractStyleNone false
              else if client.next_save_yourself_allow_interact = false then
                Frame.SaveYourself client.next_save_yourself true SmInteractStyleNone true
              else
                Frame.SaveYourself client.next_save_yourself true SmInteractStyleAny false)]) := by
  unfold save_yourself_done_callback do_save_yourself gsm_client_end_session_response
  have hlocal : SmSaveLocal ≠ 0 := by decide
  by_cases hl : client.next_save_yourself = SmSaveLocal
  · simp [hconn, hcur, hl, hlocal]
  · cases hai : client.next_save_yourself_allow_interact <;>
      simp [hconn, hcur, hnext, hl, hai]

theorem set_status_eq (client : GsmXSMPClient) (status : Nat) :
    gsm_client_set_status client status = { client with status := status } := by
  unfold gsm_client_set_status
  split
  · rfl
  · rename_i h
    have h2 : client.status = status := by
      by_contra hne
      exact h hne
    cases client
    simp_all

theorem is_string_empty_some (s : String) : IS_STRING_EMPTY (some s) = true ↔ s = "" := by
  simp [IS_STRING_EMPTY, String.isEmpty_iff]

theorem scenario_coalesced_logout :
    xsmp_query_end_session connected_client 0 =
      some ⟨{ connected_client with current_save_yourself := SmSaveGlobal },
        [Effect.sent (Frame.SaveYourself SmSaveGlobal true SmInteractStyleAny false)],
        true, none⟩ ∧
    xsmp_end_session { connected_client with current_save_yourself := SmSaveGlobal }
        GSM_CLIENT_END_SESSION_FLAG_SAVE =
      some ⟨{ connected_client with
                current_save_yourself := SmSaveGlobal
                next_save_yourself := SmSaveBoth },
        [], true, none⟩ ∧
    save_yourself_done_callback
        { connected_client with
            current_save_yourself := SmSaveGlobal
            next_save_yourself := SmSaveBoth } true =
      some ({ connected_client with current_save_yourself := SmSaveBoth },
        [Effect.sent Frame.SaveComplete,
         Effect.emitted (Signal.end_session_response true false false none),
         Effect.sent (Frame.SaveYourself SmSaveBoth true SmInteractStyleNone true)]) := by
  refine ⟨rfl, rfl, rfl⟩

/-! ### The connection of a registered client

The connection is never detached, and the status becomes registered only in
`register_client_callback`, which needs the connection: a registered client
has its session-management connection attached. -/

theorem do_save_yourself_conn (client c : GsmXSMPClient) (save_type : Int)
    (allow_interact : Bool) (t : List Effect)
    (h : do_save_yourself client save_type allow_interact = some (c, t)) :
    c.conn = client.conn ∧ c.status = client.status := by
  unfold do_save_yourself at h
  split at h
  · simp at h
  · split at h
    · simp at h; rw [← h.1]; exact ⟨rfl, rfl⟩
    · split at h
      · simp at h; rw [← h.1]; exact ⟨rfl, rfl⟩
      · split at h
        · simp at h; rw [← h.1]; exact ⟨rfl, rfl⟩
        · split at h <;> (simp at h; rw [← h.1]; exact ⟨rfl, rfl⟩)

theorem delete_property_conn (client : GsmXSMPClient) (name : String) :
    (delete_property client name).conn = client.conn ∧
    (delete_property client name).status = client.status := by
  unfold delete_property
  split <;> exact ⟨rfl, rfl⟩

theorem set_properties_conn (props : List SmProp) (client : GsmXSMPClient) :
    (set_properties_callback client props).1.conn = client.conn ∧
    (set_properties_callback client props).1.status = client.status := by
  unfold set_properties_callback
  induction props generalizing client with
  | nil => exact ⟨rfl, rfl⟩
  | cons p rest ih =>
    simp only [List.foldl_cons]
    have h := ih { delete_property client p.name with
      props := (delete_property client p.name).props ++ [p] }
    have hd := delete_property_conn client p.name
    exact ⟨h.1.trans hd.1, h.2.trans hd.2⟩

theorem delete_properties_conn (names : List String) (client : GsmXSMPClient) :
    (delete_properties_callback client names).1.conn = client.conn ∧
    (delete_properties_callback client names).1.status = client.status := by
  unfold delete_properties_callback
  induction names generalizing client with
  | nil => exact ⟨rfl, rfl⟩
  | cons n rest ih =>
    simp only [List.foldl_cons]
    have h := ih (delete_property client n)
    have hd := delete_property_conn client n
    exact ⟨h.1.trans hd.1, h.2.trans hd.2⟩

theorem register_client_conn (handlers : List RegisterHandler)
    (client c : GsmXSMPClient) (previous_id : Option String) (t : List Effect) (b : Bool)
    (h : register_client_callback handlers client previous_id = some (c, t, b)) :
    c.conn = client.conn := by
  unfold register_client_callback at h
  simp only [set_status_eq] at h
  split at h
  · simp at h
  · split at h
    · simp at h; rw [← h.1]
    · simp only [Option.some.injEq, Prod.mk.injEq] at h
      rw [← h.1]
      unfold gsm_client_set_startup_id
      split <;> split <;> rfl

theorem save_yourself_done_conn (client c : GsmXSMPClient) (success : Bool)
    (t : List Effect) (h : save_yourself_done_callback client success = some (c, t)) :
    c.conn = client.conn ∧ c.status = client.status := by
  unfold save_yourself_done_callback at h
  by_cases hcur : client.current_save_yourself = -1 <;>
    by_cases hn : client.next_save_yourself = 0 <;>
    simp only [hcur, hn, ne_eq, not_true_eq_false, not_false_eq_true, if_true, if_false] at h
  · simp only [Option.some.injEq, Prod.mk.injEq] at h
    rw [← h.1]
    exact ⟨rfl, rfl⟩
  · split at h
    · simp at h
    · rename_i c2 t2 hd
      simp only [Option.some.injEq, Prod.mk.injEq] at h
      rw [← h.1]
      have h2 := do_save_yourself_conn _ _ _ _ _ hd
      exact h2
  · simp only [Option.some.injEq, Prod.mk.injEq] at h
    rw [← h.1]
    exact ⟨rfl, rfl⟩
  · split at h
    · simp at h
    · rename_i c2 t2 hd
      simp only [Option.some.injEq, Prod.mk.injEq] at h
      rw [← h.1]
      have h2 := do_save_yourself_conn _ _ _ _ _ hd
      exact h2

theorem query_end_session_conn (client : GsmXSMPClient) (flags : Nat) (r : CallResult)
    (h : xsmp_query_end_session client flags = some r) : r.client.conn = client.conn := by
  unfold xsmp_query_end_session at h
  by_cases hc : client.conn = none
  · simp only [hc, if_true, Option.some.injEq] at h
    rw [← h]
    rfl
  · simp only [hc, if_false] at h
    split at h
    · simp at h
    · rename_i c2 t2 hd
      simp only [Option.some.injEq] at h
      rw [← h]
      exact (do_save_yourself_conn _ _ _ _ _ hd).1

theorem end_session_conn (client : GsmXSMPClient) (flags : Nat) (r : CallResult)
    (h : xsmp_end_session client flags = some r) : r.client.conn = client.conn := by
  unfold xsmp_end_session at h
  by_cases hc : client.conn = none
  · simp only [hc, if_true, Option.some.injEq] at h
    rw [← h]
    rfl
  · simp only [hc, if_false, xsmp_save_yourself_phase2] at h
    split at h
    · simp only [Option.some.injEq] at h
      rw [← h]
    · split at h
      · simp at h
      · rename_i c2 t2 hd
        simp only [Option.some.injEq] at h
        rw [← h]
        exact (do_save_yourself_conn _ _ _ _ _ hd).1

theorem step_conn_status (client c : GsmXSMPClient) (ev : Event) (t : List Effect)
    (h : step client ev = some (c, t)) :
    (c.conn = client.conn ∨ c.conn ≠ none) ∧
    (c.status = client.status ∨ c.status ≠ GSM_CLIENT_REGISTERED ∨ client.conn ≠ none) := by
  unfold step at h
  by_cases hc : client.conn = none
  · cases ev with
    | connect conn =>
      simp [Event.isInbound, gsm_xsmp_client_connect] at h
      rw [← h.1]; simp
    | watch st =>
      simp only [Event.isInbound, Bool.false_and, Bool.false_eq_true, if_false,
        Option.some.injEq, Prod.mk.injEq] at h
      rw [← h.1]
      cases st <;> simp [client_iochannel_watch, set_status_eq, GSM_CLIENT_FAILED,
        GSM_CLIENT_REGISTERED]
    | stop =>
      simp [Event.isInbound, xsmp_stop, hc, not_registered] at h
      rw [← h.1]; simp
    | query_end_session flags =>
      simp [Event.isInbound, xsmp_query_end_session, hc, not_registered] at h
      rw [← h.1]; simp
    | end_session flags =>
      simp [Event.isInbound, xsmp_end_session, hc, not_registered] at h
      rw [← h.1]; simp
    | cancel_end_session =>
      simp [Event.isInbound, xsmp_cancel_end_session, hc, not_registered] at h
      rw [← h.1]; simp
    | _ => simp [Event.isInbound, hc] at h
  · have hs : client.conn.isNone = false := by
      cases hcc : client.conn
      · exact absurd hcc hc
      · rfl
    refine ⟨?_, Or.inr (Or.inr hc)⟩
    simp only [hs, Bool.and_false, Bool.false_eq_true, if_false] at h
    cases ev with
    | connect conn =>
      right
      simp only [Option.some.injEq, Prod.mk.injEq] at h
      rw [← h.1]; simp [gsm_xsmp_client_connect]
    | RegisterClient handlers pid =>
      left
      cases hr : register_client_callback handlers client pid with
      | none => simp [hr] at h
      | some r =>
        obtain ⟨c2, t2, b⟩ := r
        simp only [hr, Option.map_some', Option.some.injEq, Prod.mk.injEq] at h
        rw [← h.1]
        exact register_client_conn _ _ _ _ _ _ hr
    | SetProperties props =>
      left
      simp only [Option.some.injEq] at h
      have := (set_properties_conn props client).1
      rw [h] at this
      exact this
    | DeleteProperties names =>
      left
      simp only [Option.some.injEq] at h
      have := (delete_properties_conn names client).1
      rw [h] at this
      exact this
    | GetProperties =>
      left; simp [get_properties_callback] at h; rw [← h.1]
    | SaveYourselfRequest st sh is f g =>
      left
      simp only at h
      unfold save_yourself_request_callback at h
      split at h
      · simp at h; rw [← h.1]
      · split at h
        · exact (do_save_yourself_conn _ _ _ _ _ h).1
        · simp at h; rw [← h.1]
    | SaveYourselfPhase2Request =>
      left; simp [save_yourself_phase2_request_callback] at h; rw [← h.1]
    | InteractRequest d =>
      left; simp [interact_request_callback, xsmp_interact] at h; rw [← h.1]
    | InteractDone cs =>
      left; simp [interact_done_callback] at h; rw [← h.1]
    | SaveYourselfDone su =>
      left; exact (save_yourself_done_conn _ _ _ _ h).1
    | CloseConnection r =>
      left; simp [close_connection_callback, set_status_eq] at h; rw [← h.1]
    | watch st =>
      left
      simp only [Option.some.injEq, Prod.mk.injEq] at h
      rw [← h.1]
      cases st <;> simp [client_iochannel_watch, set_status_eq]
    | stop =>
      left; simp [xsmp_stop, hc] at h; rw [← h.1]
    | query_end_session flags =>
      left
      cases hr : xsmp_query_end_session client flags with
      | none => simp [hr] at h
      | some r =>
        simp only [hr, Option.map_some', Option.some.injEq, Prod.mk.injEq] at h
        rw [← h.1]
        exact query_end_session_conn _ _ _ hr
    | end_session flags =>
      left
      cases hr : xsmp_end_session client flags with
      | none => simp [hr] at h
      | some r =>
        simp only [hr, Option.map_some', Option.some.injEq, Prod.mk.injEq] at h
        rw [← h.1]
        exact end_session_conn _ _ _ hr
    | cancel_end_session =>
      left; simp [xsmp_cancel_end_session, hc] at h; rw [← h.1]

theorem registered_has_conn (client : GsmXSMPClient) (hr : Reachable client) :
    client.status = GSM_CLIENT_REGISTERED → client.conn ≠ none := by
  induction hr with
  | new ice serial watch =>
    intro h
    simp [gsm_xsmp_client_new, GSM_CLIENT_UNREGISTERED, GSM_CLIENT_REGISTERED] at h
  | next c c2 ev t _ hstep ih =>
    intro hreg
    obtain ⟨h1, h2⟩ := step_conn_status c c2 ev t hstep
    have hc : c.conn ≠ none := by
      rcases h2 with h | h | h
      · exact ih (h ▸ hreg)
      · exact absurd hreg h
      · exact h
    rcases h1 with h | h
    · rw [h]; exact hc
    · exact h

theorem query_end_session_succeeds (client : GsmXSMPClient) (flags : Nat)
    (hconn : client.conn ≠ none) :
    ∃ c t, xsmp_query_end_session client flags =
      some { client := c, trace := t, retval := true, error := none } := by
  obtain ⟨c, t, h⟩ := do_save_yourself_returns client SmSaveGlobal
    ((flags &&& GSM_CLIENT_END_SESSION_FLAG_FORCEFUL) == 0) hconn
  exact ⟨c, t, by simp only [xsmp_query_end_session, hconn, if_false, h]⟩

theorem end_session_succeeds (client : GsmXSMPClient) (flags : Nat)
    (hconn : client.conn ≠ none) :
    ∃ c t, xsmp_end_session client flags =
      some { client := c, trace := t, retval := true, error := none } := by
  by_cases hl : ((flags &&& GSM_CLIENT_END_SESSION_FLAG_LAST) != 0) = true
  · exact ⟨client, [Effect.sent Frame.SaveYourselfPhase2],
      by simp [xsmp_end_session, hconn, hl, xsmp_save_yourself_phase2]⟩
  · obtain ⟨c, t, h⟩ := do_save_yourself_returns client
      (if ((flags &&& GSM_CLIENT_END_SESSION_FLAG_SAVE) != 0) = true then SmSaveBoth
       else SmSaveGlobal) false hconn
    refine ⟨c, t, ?_⟩
    simp only [xsmp_end_session, hconn, if_false, hl, h]
    rfl

/-! ## The outbound SaveYourself routine -/

/-- C1: with a connection attached, no current and no queued SaveYourself,
`do_save_yourself` makes the request the current one, leaves nothing queued
(the queued flag cleared) and sends exactly one SaveYourself frame:
(local, no shutdown, interact none, not fast) for a local save, otherwise
(save_type, shutdown, interact none, fast) when interaction is not allowed and
(save_type, shutdown, interact any, not fast) when it is.  Holds for every
integer save type, in particular for local, global and both. -/
theorem C1_do_save_yourself_idle (client : GsmXSMPClient) (save_type : Int)
    (allow_interact : Bool)
    (hconn : client.conn ≠ none)
    (hcur : client.current_save_yourself = -1)
    (hnext : client.next_save_yourself = -1) :
    do_save_yourself client save_type allow_interact =
      some ({ client with
                current_save_yourself := save_type
                next_save_yourself := -1
                next_save_yourself_allow_interact := false },
            [Effect.sent
              (if save_type = SmSaveLocal then
                Frame.SaveYourself SmSaveLocal false SmInteractStyleNone false
              else if allow_interact = false then
                Frame.SaveYourself save_type true SmInteractStyleNone true
              else
                Frame.SaveYourself save_type true SmInteractStyleAny false)]) := by
  unfold do_save_yourself
  by_cases hl : save_type = SmSaveLocal
  · simp [hconn, hcur, hnext, hl]
  · cases allow_interact <;> simp [hconn, hcur, hnext, hl]

theorem C1_do_save_yourself_idle_witness :
    do_save_yourself connected_client SmSaveBoth false =
      some ({ connected_client with
                current_save_yourself := SmSaveBoth
                next_save_yourself := -1
                next_save_yourself_allow_interact := false },
            [Effect.sent
              (if SmSaveBoth = SmSaveLocal then
                Frame.SaveYourself SmSaveLocal false SmInteractStyleNone false
              else if false = false then
                Frame.SaveYourself SmSaveBoth true SmInteractStyleNone true
              else
                Frame.SaveYourself SmSaveBoth true SmInteractStyleAny false)]) :=
  C1_do_save_yourself_idle connected_client SmSaveBoth false (by decide) (by decide) (by decide)

/-- C2: with a connection attached, `do_save_yourself` sends nothing while the
client is busy.  If a request is already queued, neither the current nor the
queued request changes; otherwise, if a SaveYourself is current, the new
request `(save_type, allow_interact)` is queued and the current one is kept.
Hence, while a SaveYourself is current, `query_end_session`, `end_session`
without the last flag and every SaveYourselfRequest (the checkpoint included)
complete without sending any frame. -/
theorem C2_do_save_yourself_busy (client : GsmXSMPClient) (save_type : Int)
    (allow_interact : Bool) (hconn : client.conn ≠ none) :
    (client.next_save_yourself ≠ -1 →
      do_save_yourself client save_type allow_interact = some (client, [])) ∧
    (client.next_save_yourself = -1 → client.current_save_yourself ≠ -1 →
      do_save_yourself client save_type allow_interact =
        some ({ client with
                  next_save_yourself := save_type
                  next_save_yourself_allow_interact := allow_interact }, [])) ∧
    (client.current_save_yourself ≠ -1 →
      (∀ flags, ∃ r, xsmp_query_end_session client flags = some r ∧ frames r.trace = []) ∧
      (∀ flags, flags.testBit 2 = false →
        ∃ r, xsmp_end_session client flags = some r ∧ frames r.trace = []) ∧
      (∀ st shutdown style fast global,
        ∃ r, save_yourself_request_callback client st shutdown style fast global = some r ∧
          frames r.2 = [])) := by
  have busy : client.current_save_yourself ≠ -1 → ∀ st ai,
      ∃ c, do_save_yourself client st ai = some (c, []) := by
    intro hcur st ai
    unfold do_save_yourself
    by_cases hn : client.next_save_yourself = -1
    · exact ⟨{ client with
                 next_save_yourself := st
                 next_save_yourself_allow_interact := ai },
        by simp [hconn, hn, hcur]⟩
    · exact ⟨client, by simp [hconn, hn]⟩
  refine ⟨?_, ?_, ?_⟩
  · intro hn
    simp [do_save_yourself, hconn, hn]
  · intro hn hcur
    simp [do_save_yourself, hconn, hn, hcur]
  · intro hcur
    refine ⟨?_, ?_, ?_⟩
    · intro flags
      obtain ⟨c, hc⟩ := busy hcur SmSaveGlobal
        ((flags &&& GSM_CLIENT_END_SESSION_FLAG_FORCEFUL) == 0)
      exact ⟨⟨c, [], true, none⟩,
        by simp only [xsmp_query_end_session, hconn, if_false, hc], rfl⟩
    · intro flags hlast
      obtain ⟨c, hc⟩ := busy hcur
        (if (flags &&& GSM_CLIENT_END_SESSION_FLAG_SAVE) != 0 then SmSaveBoth else SmSaveGlobal)
        false
      refine ⟨⟨c, [], true, none⟩, ?_, rfl⟩
      simp only [xsmp_end_session, hconn, if_false, last_bit, hlast, hc]
      rfl
    · intro st shutdown style fast global
      obtain ⟨c, hc⟩ := busy hcur SmSaveLocal true
      cases shutdown <;> cases global <;>
        simp [save_yourself_request_callback, hc, frames]

theorem C2_do_save_yourself_busy_witness :
    do_save_yourself registered_client SmSaveGlobal true =
      some ({ registered_client with
                next_save_yourself := SmSaveGlobal
                next_save_yourself_allow_interact := true }, []) :=
  (C2_do_save_yourself_busy registered_client SmSaveGlobal true (by decide)).2.1
    (by decide) (by decide)

/-! ## SaveYourselfDone -/

/-- C3 (the code at the failing input): a registered client whose initial local
SaveYourself is in flight receives `query_end_session(flags = 0)`, which queues
(global, interaction allowed); on SaveYourselfDone the engine sends
SaveComplete and emits end-session-response(true, false, false, null), and
that is all: no SaveYourself(global, yes, any, no) follows, the current
SaveYourself is none and the global request stays queued. -/
theorem C3_queued_global_stays_queued :
    xsmp_query_end_session registered_client 0 =
      some ⟨queued_global_client, [], true, none⟩ ∧
    save_yourself_done_callback queued_global_client true =
      some ({ queued_global_client with current_save_yourself := -1 },
            [Effect.sent Frame.SaveComplete,
             Effect.emitted (Signal.end_session_response true false false none)]) ∧
    ({ queued_global_client with current_save_yourself := -1 } :
      GsmXSMPClient).next_save_yourself = SmSaveGlobal := by
  refine ⟨rfl, rfl, rfl⟩

/-- C4 (the code at the failing input): the freshly registered client of
scenario 1, with its initial local SaveYourself current and nothing queued,
receives SaveYourselfDone; the engine sends SaveComplete, emits
end-session-response(true, false, false, null) and then sends a second frame,
SaveYourself(-1, shutdown, interact none, fast), ending with no current and no
queued SaveYourself. -/
theorem C4_done_with_nothing_queued_sends_save_yourself :
    register_client_callback [accept_c1] connected_client none =
      some (registered_client,
        [Effect.emitted (Signal.register_request none),
         Effect.sent (Frame.RegisterClientReply "c1"),
         Effect.sent (Frame.SaveYourself SmSaveLocal false SmInteractStyleNone false)],
        true) ∧
    registered_client.next_save_yourself = -1 ∧
    save_yourself_done_callback registered_client true =
      some ({ registered_client with current_save_yourself := -1 },
            [Effect.sent Frame.SaveComplete,
             Effect.emitted (Signal.end_session_response true false false none),
             Effect.sent (Frame.SaveYourself (-1) true SmInteractStyleNone true)]) := by
  refine ⟨rfl, rfl, rfl⟩

/-! ## cancel_end_session -/

/-- C5 fails on a client whose session-management connection is not attached
yet (a newly constructed one): `cancel_end_session` sends no ShutdownCancelled
frame. -/
theorem C5_counterexample :
    ¬ (Frame.ShutdownCancelled ∈
        frames (xsmp_cancel_end_session (gsm_xsmp_client_new (some 7) 1 3)).trace) := by
  decide

/-- C5 (amended): for every client with a session-management connection attached
and every prior save-yourself state, `cancel_end_session` leaves no current and
no queued SaveYourself, the queued flag cleared, sends exactly one frame,
ShutdownCancelled, and returns success, every other field of the client being
kept; with no connection attached it fails with the not-registered error,
sends nothing and changes nothing. -/
theorem C5_cancel_end_session (client : GsmXSMPClient) :
    (client.conn ≠ none →
      xsmp_cancel_end_session client =
        { client := { client with
                        current_save_yourself := -1
                        next_save_yourself := -1
                        next_save_yourself_allow_interact := false }
          trace := [Effect.sent Frame.ShutdownCancelled]
          retval := true
          error := none }) ∧
    (client.conn = none →
      xsmp_cancel_end_session client =
        { client := client
          trace := []
          retval := false
          error := some GsmClientError.GSM_CLIENT_ERROR_NOT_REGISTERED }) := by
  constructor
  · intro h
    simp [xsmp_cancel_end_session, h]
  · intro h
    simp [xsmp_cancel_end_session, not_registered, h]

theorem C5_cancel_end_session_witness :
    xsmp_cancel_end_session queued_global_client =
      { client := { queued_global_client with
                      current_save_yourself := -1
                      next_save_yourself := -1
                      next_save_yourself_allow_interact := false }
        trace := [Effect.sent Frame.ShutdownCancelled]
        retval := true
        error := none } :=
  (C5_cancel_end_session queued_global_client).1 (by decide)

/-! ## Inbound requests -/

/-- C6: let `id` be what the `register-request` emission leaves after a handler
handled it.  If `id` is a non-empty string, `register_client_callback` stores it
as the startup id, sets the status to registered and sends
RegisterClientReply(id); when `previous_id` is empty it then sends
SaveYourself(local, no shutdown, interact none, not fast) and makes local the
current SaveYourself, and when `previous_id` is not empty it sends no
SaveYourself and keeps the current one.  If `id` is empty (null or `""`), the
request is rejected: no frame is sent and the client is unchanged. -/
theorem C6_register_client (handlers : List RegisterHandler) (client : GsmXSMPClient)
    (previous_id id : Option String)
    (hemit : emit_register_request handlers previous_id false = (id, true)) :
    (∀ s, id = some s → s ≠ "" →
      register_client_callback handlers client previous_id =
        some (
          (if IS_STRING_EMPTY previous_id then
            { client with
                startup_id := s
                status := GSM_CLIENT_REGISTERED
                current_save_yourself := SmSaveLocal }
          else
            { client with
                startup_id := s
                status := GSM_CLIENT_REGISTERED }),
          (if IS_STRING_EMPTY previous_id then
            [Effect.emitted (Signal.register_request previous_id),
             Effect.sent (Frame.RegisterClientReply s),
             Effect.sent (Frame.SaveYourself SmSaveLocal false SmInteractStyleNone false)]
          else
            [Effect.emitted (Signal.register_request previous_id),
             Effect.sent (Frame.RegisterClientReply s)]),
          true)) ∧
    ((id = none ∨ id = some "") →
      register_client_callback handlers client previous_id =
        some (client, [Effect.emitted (Signal.register_request previous_id)], false)) := by
  constructor
  · intro s hid hs
    subst hid
    have hne : IS_STRING_EMPTY (some s) = false := by
      cases h : IS_STRING_EMPTY (some s)
      · rfl
      · exact absurd ((is_string_empty_some s).1 h) hs
    unfold register_client_callback
    simp only [hemit, hne, set_status_eq, gsm_client_set_startup_id]
    cases IS_STRING_EMPTY previous_id <;> simp
  · intro hid
    have he : IS_STRING_EMPTY id = true := by
      rcases hid with h | h <;> subst h <;> rfl
    unfold register_client_callback
    simp [hemit, he]

theorem C6_register_client_witness :
    register_client_callback [accept_c1] connected_client none =
      some (
        (if IS_STRING_EMPTY none then
          { connected_client with
              startup_id := "c1"
              status := GSM_CLIENT_REGISTERED
              current_save_yourself := SmSaveLocal }
        else
          { connected_client with
              startup_id := "c1"
              status := GSM_CLIENT_REGISTERED }),
        (if IS_STRING_EMPTY none then
          [Effect.emitted (Signal.register_request none),
           Effect.sent (Frame.RegisterClientReply "c1"),
           Effect.sent (Frame.SaveYourself SmSaveLocal false SmInteractStyleNone false)]
        else
          [Effect.emitted (Signal.register_request none),
           Effect.sent (Frame.RegisterClientReply "c1")]),
        true) :=
  (C6_register_client [accept_c1] connected_client none (some "c1") rfl).1 "c1" rfl (by decide)

/-- C7: `save_yourself_request_callback` has three cases.  With shutdown and
global both set it emits exactly one logout-request(allow_interact = not fast),
sends nothing and leaves the client as it was; with neither set it is
`do_save_yourself` called with (local, interaction allowed); in every other
case it emits nothing, sends nothing and changes nothing.  The save type and
the interact style of the request never matter. -/
theorem C7_save_yourself_request (client : GsmXSMPClient) (save_type : Int)
    (shutdown : Bool) (interact_style : Int) (fast global : Bool) :
    (shutdown = true → global = true →
      save_yourself_request_callback client save_type shutdown interact_style fast global =
        some (client, [Effect.emitted (Signal.logout_request (!fast))])) ∧
    (shutdown = false → global = false →
      save_yourself_request_callback client save_type shutdown interact_style fast global =
        do_save_yourself client SmSaveLocal true) ∧
    (shutdown ≠ global →
      save_yourself_request_callback client save_type shutdown interact_style fast global =
        some (client, [])) ∧
    (∀ save_type2 interact_style2,
      save_yourself_request_callback client save_type2 shutdown interact_style2 fast global =
        save_yourself_request_callback client save_type shutdown interact_style fast global) := by
  refine ⟨?_, ?_, ?_, ?_⟩
  · intro hs hg
    simp [save_yourself_request_callback, hs, hg]
  · intro hs hg
    simp [save_yourself_request_callback, hs, hg]
  · intro hne
    cases shutdown <;> cases global <;> simp_all [save_yourself_request_callback]
  · intro st2 is2
    rfl

theorem C7_save_yourself_request_witness :
    save_yourself_request_callback connected_client SmSaveBoth true SmInteractStyleErrors
        false true =
      some (connected_client, [Effect.emitted (Signal.logout_request (!false))]) :=
  (C7_save_yourself_request connected_client SmSaveBoth true SmInteractStyleErrors
    false true).1 rfl rfl

/-! ## Upward operations -/

/-- C8: on a client with its session-management connection attached (which every
registered client has, see `registered_has_conn`, and which is what the code
tests), for every flags
value `query_end_session` does exactly what `do_save_yourself` does for
(global, allow_interact = not bit 0 of flags) and returns success with no
error; flags that agree on bit 0 give the same result, so the save and last
bits play no part. -/
theorem C8_query_end_session (client : GsmXSMPClient) (flags : Nat)
    (hconn : client.conn ≠ none) :
    (∃ c t, do_save_yourself client SmSaveGlobal (!flags.testBit 0) = some (c, t) ∧
      xsmp_query_end_session client flags =
        some { client := c, trace := t, retval := true, error := none }) ∧
    (∀ flags2, flags2.testBit 0 = flags.testBit 0 →
      xsmp_query_end_session client flags2 = xsmp_query_end_session client flags) := by
  constructor
  · obtain ⟨c, t, h⟩ := do_save_yourself_returns client SmSaveGlobal (!flags.testBit 0) hconn
    refine ⟨c, t, h, ?_⟩
    simp only [xsmp_query_end_session, hconn, if_false, forceful_bit, h]
  · intro flags2 h2
    simp only [xsmp_query_end_session, forceful_bit, h2]

theorem C8_query_end_session_witness :
    ∃ c t, do_save_yourself connected_client SmSaveGlobal (!(6 : Nat).testBit 0) = some (c, t) ∧
      xsmp_query_end_session connected_client 6 =
        some { client := c, trace := t, retval := true, error := none } :=
  (C8_query_end_session connected_client 6 (by decide)).1

/-- C9: on a client with its session-management connection attached (which every
registered client has, see `registered_has_conn`), `end_session` with the last flag (bit 2) set sends exactly one frame,
SaveYourselfPhase2, and leaves the client as it was; without the last flag it
does exactly what `do_save_yourself` does for save type both when the save flag
(bit 1) is set and global when it is not, interaction never allowed.  Both
return success with no error. -/
theorem C9_end_session (client : GsmXSMPClient) (flags : Nat)
    (hconn : client.conn ≠ none) :
    (flags.testBit 2 = true →
      xsmp_end_session client flags =
        some { client := client
               trace := [Effect.sent Frame.SaveYourselfPhase2]
               retval := true
               error := none }) ∧
    (flags.testBit 2 = false →
      ∃ c t,
        do_save_yourself client (if flags.testBit 1 then SmSaveBoth else SmSaveGlobal) false =
          some (c, t) ∧
        xsmp_end_session client flags =
          some { client := c, trace := t, retval := true, error := none }) := by
  constructor
  · intro hlast
    simp [xsmp_end_session, hconn, last_bit, hlast, xsmp_save_yourself_phase2]
  · intro hlast
    obtain ⟨c, t, h⟩ := do_save_yourself_returns client
      (if flags.testBit 1 then SmSaveBoth else SmSaveGlobal) false hconn
    refine ⟨c, t, h, ?_⟩
    simp only [xsmp_end_session, hconn, if_false, last_bit, hlast, save_bit, h]
    rfl

theorem C9_end_session_witness :
    xsmp_end_session registered_client 4 =
      some { client := registered_client
             trace := [Effect.sent Frame.SaveYourselfPhase2]
             retval := true
             error := none } :=
  (C9_end_session registered_client 4 (by decide)).1 (by decide)

/-! ## SaveYourselfPhase2Request -/

/-- C10 fails on the registered client of scenario 1, whose initial local
SaveYourself is current: handling SaveYourselfPhase2Request sends no
SaveYourselfPhase2 frame. -/
theorem C10_counterexample :
    registered_client.current_save_yourself ≠ -1 ∧
    ¬ (Frame.SaveYourselfPhase2 ∈
        frames (save_yourself_phase2_request_callback registered_client).2) := by
  decide

/-- C10 (amended): on an inbound SaveYourselfPhase2Request, whatever the current
SaveYourself is, the engine emits exactly one signal,
end-session-response(ok = true, do_last = true, cancel = false, no reason),
clears the current SaveYourself, keeps the rest of the client and sends no
frame. -/
theorem C10_save_yourself_phase2_request (client : GsmXSMPClient) :
    save_yourself_phase2_request_callback client =
      ({ client with current_save_yourself := -1 },
       [Effect.emitted (Signal.end_session_response true true false none)]) ∧
    frames (save_yourself_phase2_request_callback client).2 = [] := by
  constructor <;> rfl

/-! ## The not-registered error -/

/-- C11 fails on a client whose session-management connection is attached but on
which RegisterClient has not been handled yet: its status is unregistered, and
`stop` sends Die and returns success. -/
theorem C11_counterexample :
    connected_client.status = GSM_CLIENT_UNREGISTERED ∧
    xsmp_stop connected_client =
      { client := connected_client
        trace := [Effect.sent Frame.Die]
        retval := true
        error := none } := by
  decide

/-- C11 (amended): for every client to which no session-management connection is
attached (as is every client between its construction and
`gsm_xsmp_client_connect`), each of `stop`, `query_end_session`, `end_session`
and `cancel_end_session` fails with the not-registered error, sends nothing
and leaves the client as it was. -/
theorem C11_not_registered_without_connection (client : GsmXSMPClient) (flags : Nat)
    (hconn : client.conn = none) :
    xsmp_stop client =
      { client := client, trace := [], retval := false
        error := some GsmClientError.GSM_CLIENT_ERROR_NOT_REGISTERED } ∧
    xsmp_query_end_session client flags =
      some { client := client, trace := [], retval := false
             error := some GsmClientError.GSM_CLIENT_ERROR_NOT_REGISTERED } ∧
    xsmp_end_session client flags =
      some { client := client, trace := [], retval := false
             error := some GsmClientError.GSM_CLIENT_ERROR_NOT_REGISTERED } ∧
    xsmp_cancel_end_session client =
      { client := client, trace := [], retval := false
        error := some GsmClientError.GSM_CLIENT_ERROR_NOT_REGISTERED } := by
  refine ⟨?_, ?_, ?_, ?_⟩
  · simp [xsmp_stop, hconn, not_registered]
  · simp [xsmp_query_end_session, hconn, not_registered]
  · simp [xsmp_end_session, hconn, not_registered]
  · simp [xsmp_cancel_end_session, hconn, not_registered]

theorem C11_not_registered_without_connection_witness :
    xsmp_stop (gsm_xsmp_client_new (some 7) 1 3) =
      { client := gsm_xsmp_client_new (some 7) 1 3, trace := [], retval := false
        error := some GsmClientError.GSM_CLIENT_ERROR_NOT_REGISTERED } :=
  (C11_not_registered_without_connection (gsm_xsmp_client_new (some 7) 1 3) 0 rfl).1

/-- C12 fails on the registered client of scenario 1: after the transport I/O
error its status is failed, yet `stop` is not rejected, it sends Die and
returns success. -/
theorem C12_counterexample :
    (client_iochannel_watch registered_client
        IceProcessMessagesStatus.IceProcessMessagesIOError).1.status = GSM_CLIENT_FAILED ∧
    (xsmp_stop (client_iochannel_watch registered_client
        IceProcessMessagesStatus.IceProcessMessagesIOError).1).error = none ∧
    (xsmp_stop (client_iochannel_watch registered_client
        IceProcessMessagesStatus.IceProcessMessagesIOError).1).trace =
      [Effect.sent Frame.Die] := by
  decide

/-- C12 (amended): for every client, handling a transport I/O error sets the
status to failed, emits `disconnected` exactly once, sends nothing, stops
watching the descriptor and changes nothing else; in particular the
session-management connection stays attached.  Hence on a client that had its
connection (as every registered client has) the upward operations are not
rejected afterwards: `stop` sends Die and `cancel_end_session` sends
ShutdownCancelled, both returning success, and `query_end_session` and
`end_session` return success too. -/
theorem C12_transport_io_error (client : GsmXSMPClient) (flags : Nat) :
    client_iochannel_watch client IceProcessMessagesStatus.IceProcessMessagesIOError =
      ({ client with status := GSM_CLIENT_FAILED },
       [Effect.emitted Signal.disconnected], false) ∧
    (client.conn ≠ none →
      xsmp_stop { client with status := GSM_CLIENT_FAILED } =
        { client := { client with status := GSM_CLIENT_FAILED }
          trace := [Effect.sent Frame.Die], retval := true, error := none } ∧
      (xsmp_cancel_end_session { client with status := GSM_CLIENT_FAILED }).trace =
        [Effect.sent Frame.ShutdownCancelled] ∧
      (xsmp_cancel_end_session { client with status := GSM_CLIENT_FAILED }).error = none ∧
      (∃ r, xsmp_query_end_session { client with status := GSM_CLIENT_FAILED } flags = some r ∧
        r.retval = true ∧ r.error = none) ∧
      (∃ r, xsmp_end_session { client with status := GSM_CLIENT_FAILED } flags = some r ∧
        r.retval = true ∧ r.error = none)) := by
  constructor
  · simp [client_iochannel_watch, set_status_eq, gsm_client_disconnected]
  · intro hconn
    have hc : ({ client with status := GSM_CLIENT_FAILED } : GsmXSMPClient).conn ≠ none := hconn
    refine ⟨?_, ?_, ?_, ?_, ?_⟩
    · simp [xsmp_stop, hconn]
    · simp [xsmp_cancel_end_session, hconn]
    · simp [xsmp_cancel_end_session, hconn]
    · obtain ⟨c, t, h2⟩ := query_end_session_succeeds _ flags hc
      exact ⟨_, h2, rfl, rfl⟩
    · obtain ⟨c, t, h2⟩ := end_session_succeeds _ flags hc
      exact ⟨_, h2, rfl, rfl⟩

theorem C12_transport_io_error_witness :
    xsmp_stop { registered_client with status := GSM_CLIENT_FAILED } =
      { client := { registered_client with status := GSM_CLIENT_FAILED }
        trace := [Effect.sent Frame.Die], retval := true, error := none } :=
  ((C12_transport_io_error registered_client 0).2 (by decide)).1

/-! ## Command reconstruction -/

theorem bytes_safe_chars : bytes "-_=:./" = [45, 95, 61, 58, 46, 47] := by
  rfl

theorem prop_to_command_loop_eq (vals : List (List Nat)) (i : Nat) (str : List Nat) :
    prop_to_command_loop vals i str =
      str ++ (if vals = [] then []
              else (if i > 0 then [32] else []) ++ prop_to_command_loop vals 0 []) := by
  induction vals generalizing i str with
  | nil => simp [prop_to_command_loop]
  | cons v rest ih =>
    simp only [prop_to_command_loop]
    rw [ih (i + 1), ih (0 + 1)]
    by_cases hi : i > 0 <;> simp [hi]

theorem prop_to_command_loop_cons (v : List Nat) (rest : List (List Nat)) :
    prop_to_command_loop (v :: rest) 0 [] =
      append_value v ++ (if rest = [] then [] else [32] ++ prop_to_command_loop rest 0 []) := by
  simp only [prop_to_command_loop]
  rw [prop_to_command_loop_eq]
  simp

theorem prop_to_command_loop_append (pre : List (List Nat)) (v : List Nat)
    (post : List (List Nat)) :
    prop_to_command_loop (pre ++ v :: post) 0 [] =
      (if pre = [] then [] else prop_to_command_loop pre 0 [] ++ [32]) ++ append_value v ++
        (if post = [] then [] else [32] ++ prop_to_command_loop post 0 []) := by
  induction pre with
  | nil => simp [prop_to_command_loop_cons]
  | cons p rest ih =>
    rw [List.cons_append, prop_to_command_loop_cons, ih, prop_to_command_loop_cons]
    by_cases hr : rest = [] <;> simp [hr]

theorem quote_loop_eq (val : List Nat) :
    quote_loop val = val.flatMap fun c => if c = 39 then [39, 39, 39] else [c] := by
  induction val with
  | nil => rfl
  | cons c rest ih =>
    simp only [quote_loop, ih, List.flatMap_cons]

theorem quote_loop_of_quote_free (val : List Nat) (h : 39 ∉ val) : quote_loop val = val := by
  induction val with
  | nil => rfl
  | cons c rest ih =>
    have hc : c ≠ 39 := fun e => h (e ▸ List.mem_cons_self _ _)
    have hr : 39 ∉ rest := fun e => h (List.mem_cons_of_mem _ e)
    simp [quote_loop, hc, ih hr]

theorem need_quotes_of_nul_free (val : List Nat) (h : 0 ∉ val) :
    need_quotes_loop val = !val.all in_safe_set := by
  induction val with
  | nil => rfl
  | cons c rest ih =>
    have hc : c ≠ 0 := fun h0 => h (h0 ▸ List.mem_cons_self _ _)
    have hr : 0 ∉ rest := fun h0 => h (List.mem_cons_of_mem _ h0)
    simp only [need_quotes_loop, ih hr, List.all_cons, bytes_safe_chars]
    by_cases hs : in_safe_set c = true
    · have : (!g_ascii_isalnum c && !strchr [45, 95, 61, 58, 46, 47] c) = false := by
        simp only [in_safe_set, decide_eq_true_eq] at hs
        simp only [g_ascii_isalnum, strchr, Bool.and_eq_false_iff, Bool.not_eq_false',
          decide_eq_true_eq, List.mem_cons, List.mem_singleton, List.not_mem_nil, or_false]
        omega
      simp [this, hs]
    · have : (!g_ascii_isalnum c && !strchr [45, 95, 61, 58, 46, 47] c) = true := by
        simp only [in_safe_set, decide_eq_true_eq] at hs
        simp only [g_ascii_isalnum, strchr, Bool.and_eq_true, Bool.not_eq_true',
          decide_eq_false_iff_not, List.mem_cons, List.mem_singleton, List.not_mem_nil, or_false]
        omega
      simp [this, hs]

theorem c_string_of_nul_free (val : List Nat) (h : 0 ∉ val) : c_string val = val := by
  unfold c_string
  rw [List.takeWhile_eq_self_iff]
  intro c hc
  simp only [ne_eq, decide_eq_true_eq]
  intro h0
  exact h (h0 ▸ hc)

theorem append_value_of_nul_free (val : List Nat) (h : 0 ∉ val) :
    append_value val =
      if val.all in_safe_set then val else [39] ++ quote_loop val ++ [39] := by
  unfold append_value
  rw [need_quotes_of_nul_free val h, c_string_of_nul_free val h]
  cases val.all in_safe_set <;> simp

theorem prop_to_command_loop_join (vals : List (List Nat)) :
    prop_to_command_loop vals 0 [] = join_with_space (vals.map append_value) := by
  induction vals with
  | nil => rfl
  | cons v rest ih =>
    rw [prop_to_command_loop_cons, ih]
    cases rest with
    | nil => simp [join_with_space]
    | cons w more => simp [join_with_space]

theorem quoted_element_output (name type : String) (pre : List (List Nat)) (v : List Nat)
    (post : List (List Nat)) (hq : need_quotes_loop v = true) :
    prop_to_command { name := name, type := type, vals := pre ++ v :: post } =
      (if pre = [] then []
        else prop_to_command { name := name, type := type, vals := pre } ++ [32]) ++
      ([39] ++ (v.flatMap fun c => if c = 39 then [39, 39, 39] else [c]) ++ [39]) ++
      (if post = [] then []
        else [32] ++ prop_to_command { name := name, type := type, vals := post }) := by
  simp only [prop_to_command]
  rw [prop_to_command_loop_append]
  simp only [append_value, hq, Bool.not_true, Bool.false_eq_true, if_false, quote_loop_eq]

/-- C13 fails on the property of scenario 6, `SmProgram = ["my app",
"--file=/tmp/a'b"]`: for a single quote `prop_to_command` appends three single
quotes, not quote, backslash, quote, quote.  The buffer it builds, which is
also what `get_app_name` returns, is `'my app' '--file=/tmp/a'''b'`, whereas the
rendering the specification describes is `'my app' '--file=/tmp/a'\''b'`; shell
word splitting of the buffer gives `--file=/tmp/ab` as second word, the single
quote being lost, while the rendering of the specification splits into the two
values. -/
theorem C13_single_quote_written_as_three_quotes :
    quote_loop [39] = [39, 39, 39] ∧
    prop_to_command my_app_program = bytes "'my app' '--file=/tmp/a'''b'" ∧
    xsmp_get_app_name my_app_client = some (bytes "'my app' '--file=/tmp/a'''b'") ∧
    join_with_space (my_app_program.vals.map render) =
      bytes "'my app' '--file=/tmp/a'\\''b'" ∧
    prop_to_command my_app_program ≠ join_with_space (my_app_program.vals.map render) ∧
    shell_split (prop_to_command my_app_program) = [bytes "my app", bytes "--file=/tmp/ab"] ∧
    shell_split (join_with_space (my_app_program.vals.map render)) =
      my_app_program.vals := by
  refine ⟨?_, ?_, ?_, ?_, ?_, ?_, ?_⟩ <;> decide

/-- C14 fails on an element holding a NUL byte: the value `a`, NUL, `b` has a byte
outside the set, yet it is not quoted, and only `a` is put out.  Besides, an
empty first element leaves the output starting with a space. -/
theorem C14_counterexample :
    in_safe_set 0 = false ∧
    prop_to_command { name := SmProgram, type := SmARRAY8, vals := [[97, 0, 98]] } = [97] ∧
    prop_to_command { name := SmProgram, type := SmLISTofARRAY8, vals := [[], [97]] } =
      [32, 97] := by
  decide

/-- C14 (amended): for every list of byte-string values holding no NUL byte, the
output of `prop_to_command` is the renderings of the elements, in order, joined
by exactly one space (nothing for the empty list, no space put before the
first rendering or after the last), where an element whose bytes are all
ASCII letters, digits or one of underscore, equals sign, colon, full stop,
slash, hyphen is rendered verbatim and unquoted (an empty element as nothing),
and any other element is rendered enclosed in single quotes: a single quote,
the bytes of the element in order, each single quote among them written as
three single quotes, and a single quote. -/
theorem C14_command_reconstruction (name type : String) (vals : List (List Nat))
    (hnul : ∀ v ∈ vals, 0 ∉ v) :
    prop_to_command { name := name, type := type, vals := vals } =
      join_with_space (vals.map fun v =>
        if v.all in_safe_set then v
        else [39] ++ (v.flatMap fun c => if c = 39 then [39, 39, 39] else [c]) ++ [39]) := by
  simp only [prop_to_command]
  rw [prop_to_command_loop_join]
  congr 1
  apply List.map_congr_left
  intro v hv
  rw [append_value_of_nul_free v (hnul v hv), quote_loop_eq]

theorem C14_command_reconstruction_witness :
    prop_to_command my_app_program =
      join_with_space (my_app_program.vals.map fun v =>
        if v.all in_safe_set then v
        else [39] ++ (v.flatMap fun c => if c = 39 then [39, 39, 39] else [c]) ++ [39]) :=
  C14_command_reconstruction SmProgram SmLISTofARRAY8 my_app_program.vals (by decide)

/-! ## Process id and restart style -/

theorem foldl_digits (digits : List Nat) (acc : Nat) :
    digits.foldl (fun acc d => acc * 10 + (d - 48)) acc =
      acc * 10 ^ digits.length +
        Nat.ofDigits 10 ((digits.map fun d => d - 48).reverse) := by
  induction digits generalizing acc with
  | nil => simp
  | cons d rest ih =>
    simp only [List.foldl_cons, ih, List.map_cons, List.reverse_cons, Nat.ofDigits_append,
      List.length_reverse, List.length_map, List.length_cons, Nat.ofDigits_singleton]
    ring

theorem digits_value_eq (digits : List Nat) :
    digits_value digits = Nat.ofDigits 10 ((digits.map fun d => d - 48).reverse) := by
  unfold digits_value
  rw [foldl_digits]
  simp

theorem strtoul_digits (long_bits : Nat) (digits : List Nat) (hne : digits ≠ [])
    (hdig : ∀ d ∈ digits, isdigit d = true) :
    strtoul long_bits digits =
      if 2 ^ long_bits ≤ digits_value digits then (2 ^ long_bits - 1, [], true)
      else (digits_value digits, [], false) := by
  obtain ⟨d, rest, rfl⟩ := List.exists_cons_of_ne_nil hne
  have hd : isdigit d = true := hdig d (List.mem_cons_self _ _)
  have hd2 : 48 ≤ d ∧ d ≤ 57 := by simpa [isdigit] using hd
  have hsp : isspace d = false := by
    simp only [isspace, decide_eq_false_iff_not]
    omega
  have h1 : (d :: rest).dropWhile isspace = d :: rest := by
    simp [List.dropWhile_cons, hsp]
  have h45 : ¬ (d = 45) := by omega
  have h43 : ¬ (d = 43) := by omega
  have h2 : (d :: rest).takeWhile isdigit = d :: rest :=
    List.takeWhile_eq_self_iff.2 hdig
  have h3 : (d :: rest).dropWhile isdigit = [] :=
    List.dropWhile_eq_nil_iff.2 hdig
  simp only [strtoul, h1, List.head?_cons, Option.some.injEq, h45, h43, or_self, if_false,
    h2, h3, decide_False, Bool.false_eq_true]
  simp

theorem parse_digits (long_bits : Nat) (hbits : 32 ≤ long_bits) (digits : List Nat)
    (hne : digits ≠ []) (hdig : ∀ d ∈ digits, isdigit d = true) :
    _parse_value_as_uint long_bits digits =
      if digits_value digits ≤ 4294967295 then some (digits_value digits) else none := by
  have hpow : (2 : Nat) ^ 32 ≤ 2 ^ long_bits := Nat.pow_le_pow_right (by norm_num) hbits
  have h32 : (2 : Nat) ^ 32 = 4294967296 := by norm_num
  unfold _parse_value_as_uint
  rw [strtoul_digits long_bits digits hne hdig]
  by_cases hov : 2 ^ long_bits ≤ digits_value digits
  · have : ¬ digits_value digits ≤ 4294967295 := by omega
    simp [hov, hne, this]
  · by_cases hsmall : digits_value digits ≤ 4294967295
    · have hmod : digits_value digits % 2 ^ 32 = digits_value digits :=
        Nat.mod_eq_of_lt (by omega)
      simp [hov, hne, hsmall, hmod]
      omega
    · have hmod : digits_value digits % 2 ^ 32 ≠ digits_value digits := by
        intro h
        have := Nat.mod_lt (digits_value digits) (show 0 < 2 ^ 32 by norm_num)
        omega
      simp [hov, hne, hsmall, hmod]
      omega


theorem decimal_digits (n : Nat) :
    decimal n ≠ [] ∧ (∀ d ∈ decimal n, isdigit d = true) ∧ digits_value (decimal n) = n := by
  unfold decimal
  by_cases h0 : n = 0
  · subst h0
    simp [isdigit, digits_value]
  · simp only [h0, if_false]
    refine ⟨?_, ?_, ?_⟩
    · simp [Nat.digits_eq_nil_iff_eq_zero, h0]
    · intro d hd
      simp only [List.mem_map, List.mem_reverse] at hd
      obtain ⟨e, he, rfl⟩ := hd
      have := Nat.digits_lt_base (by norm_num : 1 < 10) he
      simp only [isdigit, decide_eq_true_eq]
      omega
    · rw [digits_value_eq]
      simp only [List.map_map, List.map_reverse, List.reverse_reverse]
      have : ((fun d => d - 48) ∘ fun d => d + 48) = (id : Nat → Nat) := by
        funext d
        simp
      rw [this, List.map_id, Nat.ofDigits_digits]

theorem parse_rejects_garbage (long_bits : Nat) (s : List Nat)
    (h : s = [] ∨ ∃ c, s.getLast? = some c ∧ isdigit c = false) :
    _parse_value_as_uint long_bits s = none := by
  rcases h with h | ⟨c, hlast, hc⟩
  · subst h
    simp [_parse_value_as_uint]
  · have hs : s ≠ [] := by
      intro h
      simp [h] at hlast
    -- what follows the digits cannot be empty: the string would end in a digit
    have key : ∀ t : List Nat, t <:+ s → t.takeWhile isdigit ≠ [] →
        t.dropWhile isdigit ≠ [] := by
      intro t hsuf hdigits hrest
      have hall : ∀ x ∈ t, isdigit x = true := List.dropWhile_eq_nil_iff.1 hrest
      have ht : t ≠ [] := by
        intro h
        simp [h] at hdigits
      have h1 := hsuf.getLast ht
      have h2 : s.getLast? = some (t.getLast ht) := by
        rw [List.getLast?_eq_getLast s hs, h1]
      rw [hlast] at h2
      have h3 := hall _ (List.getLast_mem ht)
      simp only [Option.some.injEq] at h2
      rw [← h2, hc] at h3
      exact absurd h3 (by decide)
    have hsuf1 : s.dropWhile isspace <:+ s := List.dropWhile_suffix _
    have hsuf2 : (s.dropWhile isspace).tail <:+ s :=
      (List.tail_suffix _).trans hsuf1
    unfold _parse_value_as_uint strtoul
    simp only
    split
    · have k := key _ hsuf2
      split
      · simp [hs]
      · rename_i hd
        have := k hd
        split <;> (split <;> simp [this])
    · have k := key _ hsuf1
      split
      · simp [hs]
      · rename_i hd
        have := k hd
        split <;> (split <;> simp [this])

/-- C18: let the client have a ProcessID property of type ARRAY8 whose value is a
non-empty string of ASCII decimal digits standing for the number n.  Then
`get_unix_process_id` returns n if n is at most 4294967295 and 0 otherwise,
whether `unsigned long` has 32 bits, 64 bits or more.  In particular the value
`4294967296` gives 0, and the decimal rendering of every n up to 4294967295
gives n back. -/
theorem C18_decimal_process_id (long_bits : Nat) (hbits : 32 ≤ long_bits)
    (client : GsmXSMPClient) (prop : SmProp) (index : Nat) (value : List Nat)
    (rest : List (List Nat))
    (hfind : find_property client SmProcessID = some (prop, index))
    (htype : prop.type = SmARRAY8) (hvals : prop.vals = value :: rest) :
    (value ≠ [] → (∀ d ∈ value, isdigit d = true) →
      xsmp_get_unix_process_id long_bits client =
        some (if Nat.ofDigits 10 ((value.map fun d => d - 48).reverse) ≤ 4294967295
              then Nat.ofDigits 10 ((value.map fun d => d - 48).reverse) else 0)) ∧
    (value = bytes "4294967296" → xsmp_get_unix_process_id long_bits client = some 0) ∧
    (∀ n, n ≤ 4294967295 → value = decimal n →
      xsmp_get_unix_process_id long_bits client = some n) := by
  have main : value ≠ [] → (∀ d ∈ value, isdigit d = true) →
      xsmp_get_unix_process_id long_bits client =
        some (if digits_value value ≤ 4294967295 then digits_value value else 0) := by
    intro hne hdig
    have hnul : 0 ∉ value := fun h0 => absurd (hdig 0 h0) (by decide)
    simp only [xsmp_get_unix_process_id, hfind, htype, hvals, ne_eq, not_true_eq_false,
      if_false, c_string_of_nul_free value hnul, parse_digits long_bits hbits value hne hdig]
    by_cases hsmall : digits_value value ≤ 4294967295
    · simp [hsmall]
    · simp [hsmall]
  refine ⟨?_, ?_, ?_⟩
  · intro hne hdig
    rw [main hne hdig, digits_value_eq]
  · intro hv
    subst hv
    rw [main (by decide) (by decide)]
    rfl
  · intro n hn hv
    obtain ⟨h1, h2, h3⟩ := decimal_digits n
    subst hv
    rw [main h1 h2, h3]
    simp [hn]

theorem C18_decimal_process_id_witness :
    xsmp_get_unix_process_id 64
        (client_with { name := SmProcessID, type := SmARRAY8, vals := [bytes "4294967296"] }) =
      some 0 :=
  (C18_decimal_process_id 64 (by decide)
    (client_with { name := SmProcessID, type := SmARRAY8, vals := [bytes "4294967296"] })
    { name := SmProcessID, type := SmARRAY8, vals := [bytes "4294967296"] } 0
    (bytes "4294967296") [] rfl rfl rfl).2.1 rfl

/-- C19 fails on a ProcessID value holding a NUL byte: the values `1`, `2`, NUL,
`a` and `1`, `2`, NUL end in a byte that is not an ASCII decimal digit, yet
`get_unix_process_id` returns 12 for both, the parser reading the value as a C
string, which ends at the NUL. -/
theorem C19_counterexample :
    ([49, 50, 0, 97] : List Nat).getLast? = some 97 ∧ isdigit 97 = false ∧
    xsmp_get_unix_process_id 64
        (client_with { name := SmProcessID, type := SmARRAY8, vals := [[49, 50, 0, 97]] }) =
      some 12 ∧
    ([49, 50, 0] : List Nat).getLast? = some 0 ∧ isdigit 0 = false ∧
    xsmp_get_unix_process_id 64
        (client_with { name := SmProcessID, type := SmARRAY8, vals := [[49, 50, 0]] }) =
      some 12 := by
  refine ⟨?_, ?_, ?_, ?_, ?_, ?_⟩ <;> decide

/-- C19 (amended): let the client have a ProcessID property of type ARRAY8.  If
its value, read as the C string the parser is given (the bytes before the
first NUL byte, the whole value when it holds none), is empty or ends in a
character that is not an ASCII decimal digit, then `get_unix_process_id`
returns 0. -/
theorem C19_trailing_garbage (long_bits : Nat) (client : GsmXSMPClient) (prop : SmProp)
    (index : Nat) (value : List Nat) (rest : List (List Nat))
    (hfind : find_property client SmProcessID = some (prop, index))
    (htype : prop.type = SmARRAY8) (hvals : prop.vals = value :: rest)
    (hbad : c_string value = [] ∨
      ∃ c, (c_string value).getLast? = some c ∧ isdigit c = false) :
    xsmp_get_unix_process_id long_bits client = some 0 ∧
    (0 ∉ value → c_string value = value) := by
  refine ⟨?_, c_string_of_nul_free value⟩
  simp only [xsmp_get_unix_process_id, hfind, htype, hvals, ne_eq, not_true_eq_false,
    if_false, parse_rejects_garbage long_bits (c_string value) hbad]

theorem C19_trailing_garbage_witness :
    xsmp_get_unix_process_id 64
        (client_with { name := SmProcessID, type := SmARRAY8, vals := [bytes "12a"] }) =
      some 0 :=
  (C19_trailing_garbage 64
    (client_with { name := SmProcessID, type := SmARRAY8, vals := [bytes "12a"] })
    { name := SmProcessID, type := SmARRAY8, vals := [bytes "12a"] } 0 (bytes "12a") []
    rfl rfl rfl (Or.inr ⟨97, by decide, by decide⟩)).1

/-- C20: `get_restart_style_hint` returns if-running when the client has no
RestartStyleHint property and when that property is not of type CARD8; for a
CARD8 property it maps the first byte of the value (0 if-running, 1 anyway,
2 immediately, 3 never) to the restart style of the same name and number, and
every other byte to if-running.  It returns a restart style in each of these
cases, that is, whenever a CARD8 RestartStyleHint carries its value. -/
theorem C20_restart_style_hint (client : GsmXSMPClient) :
    (find_property client SmRestartStyleHint = none →
      xsmp_get_restart_style_hint client = some GSM_CLIENT_RESTART_IF_RUNNING) ∧
    (∀ prop index, find_property client SmRestartStyleHint = some (prop, index) →
      prop.type ≠ SmCARD8 →
      xsmp_get_restart_style_hint client = some GSM_CLIENT_RESTART_IF_RUNNING) ∧
    (∀ prop index value rest,
      find_property client SmRestartStyleHint = some (prop, index) →
      prop.type = SmCARD8 → prop.vals = value :: rest →
      (value.headD 0 = 0 →
        xsmp_get_restart_style_hint client = some GSM_CLIENT_RESTART_IF_RUNNING) ∧
      (value.headD 0 = 1 →
        xsmp_get_restart_style_hint client = some GSM_CLIENT_RESTART_ANYWAY) ∧
      (value.headD 0 = 2 →
        xsmp_get_restart_style_hint client = some GSM_CLIENT_RESTART_IMMEDIATELY) ∧
      (value.headD 0 = 3 →
        xsmp_get_restart_style_hint client = some GSM_CLIENT_RESTART_NEVER) ∧
      (3 < value.headD 0 →
        xsmp_get_restart_style_hint client = some GSM_CLIENT_RESTART_IF_RUNNING)) ∧
    ((∀ prop index, find_property client SmRestartStyleHint = some (prop, index) →
        prop.type = SmCARD8 → prop.vals ≠ []) →
      ∃ hint, xsmp_get_restart_style_hint client = some hint ∧ hint ≤ 3) ∧
    (SmRestartIfRunning = 0 ∧ SmRestartAnyway = 1 ∧ SmRestartImmediately = 2 ∧
      SmRestartNever = 3 ∧ GSM_CLIENT_RESTART_IF_RUNNING = 0 ∧ GSM_CLIENT_RESTART_ANYWAY = 1 ∧
      GSM_CLIENT_RESTART_IMMEDIATELY = 2 ∧ GSM_CLIENT_RESTART_NEVER = 3) := by
  refine ⟨?_, ?_, ?_, ?_, by decide⟩
  · intro h
    simp [xsmp_get_restart_style_hint, h]
  · intro prop index h ht
    simp [xsmp_get_restart_style_hint, h, ht]
  · intro prop index value rest h ht hv
    have e : xsmp_get_restart_style_hint client =
        if value.headD 0 = 0 then some GSM_CLIENT_RESTART_IF_RUNNING
        else if value.headD 0 = 1 then some GSM_CLIENT_RESTART_ANYWAY
        else if value.headD 0 = 2 then some GSM_CLIENT_RESTART_IMMEDIATELY
        else if value.headD 0 = 3 then some GSM_CLIENT_RESTART_NEVER
        else some GSM_CLIENT_RESTART_IF_RUNNING := by
      simp only [xsmp_get_restart_style_hint, h, ht, hv, ne_eq, not_true_eq_false, if_false,
        SmRestartIfRunning, SmRestartAnyway, SmRestartImmediately, SmRestartNever]
    rw [e]
    generalize value.headD 0 = byte
    refine ⟨?_, ?_, ?_, ?_, ?_⟩
    · intro hb
      subst hb
      rfl
    · intro hb
      subst hb
      rfl
    · intro hb
      subst hb
      rfl
    · intro hb
      subst hb
      rfl
    · intro hb
      have h0 : ¬ byte = 0 := by omega
      have h1 : ¬ byte = 1 := by omega
      have h2 : ¬ byte = 2 := by omega
      have h3 : ¬ byte = 3 := by omega
      simp [h0, h1, h2, h3]
  · intro hwf
    unfold xsmp_get_restart_style_hint
    split
    · exact ⟨_, rfl, by decide⟩
    · rename_i prop index hfind
      split
      · exact ⟨_, rfl, by decide⟩
      · rename_i ht
        have ht2 : prop.type = SmCARD8 := by
          by_contra hne
          exact ht hne
        split
        · rename_i hv
          exact absurd hv (hwf prop index hfind ht2)
        · simp only
          split
          · exact ⟨_, rfl, by decide⟩
          · split
            · exact ⟨_, rfl, by decide⟩
            · split
              · exact ⟨_, rfl, by decide⟩
              · split <;> exact ⟨_, rfl, by decide⟩

theorem C20_restart_style_hint_witness :
    xsmp_get_restart_style_hint
        (client_with { name := SmRestartStyleHint, type := SmCARD8, vals := [[3]] }) =
      some GSM_CLIENT_RESTART_NEVER :=
  ((C20_restart_style_hint
    (client_with { name := SmRestartStyleHint, type := SmCARD8, vals := [[3]] })).2.2.1
    { name := SmRestartStyleHint, type := SmCARD8, vals := [[3]] } 0 [3] [] rfl rfl rfl).2.2.2.1
    rfl

/-! ## Saving a client -/

theorem g_key_file_get_set_same (keyfile : GKeyFile) (group key : String) (value : KeyValue) :
    g_key_file_get (g_key_file_set keyfile group key value) group key = some value := by
  simp [g_key_file_get, g_key_file_set]

theorem find_filter_other (keyfile : GKeyFile) (k k2 : String × String) (h : k ≠ k2) :
    (keyfile.filter fun e => decide (e.1 ≠ k)).find? (fun e => decide (e.1 = k2)) =
      keyfile.find? (fun e => decide (e.1 = k2)) := by
  induction keyfile with
  | nil => rfl
  | cons e rest ih =>
    by_cases h1 : e.1 = k
    · have h2 : ¬ e.1 = k2 := fun h3 => h (h1.symm.trans h3)
      rw [List.filter_cons_of_neg (by simpa using h1),
        List.find?_cons_of_neg _ (by simpa using h2), ih]
    · rw [List.filter_cons_of_pos (by simpa using h1)]
      by_cases h2 : e.1 = k2
      · rw [List.find?_cons_of_pos _ (by simpa using h2),
          List.find?_cons_of_pos _ (by simpa using h2)]
      · rw [List.find?_cons_of_neg _ (by simpa using h2),
          List.find?_cons_of_neg _ (by simpa using h2), ih]

theorem g_key_file_get_set_other (keyfile : GKeyFile) (group key group2 key2 : String)
    (value : KeyValue) (h : (group, key) ≠ (group2, key2)) :
    g_key_file_get (g_key_file_set keyfile group key value) group2 key2 =
      g_key_file_get keyfile group2 key2 := by
  unfold g_key_file_get g_key_file_set
  rw [List.find?_cons]
  have h1 : decide (((group, key), value).1 = (group2, key2)) = false := by
    simp only [decide_eq_false_iff_not]
    exact h
  rw [h1]
  simp only
  rw [find_filter_other keyfile (group, key) (group2, key2) h]

theorem xsmp_save_entry (files : Files) (client : GsmXSMPClient) (r : SaveResult)
    (keyfile : GKeyFile) (hsave : xsmp_save files client = some r)
    (hentry : r.keyfile = some keyfile) :
    ∃ hint exec_program path base,
      xsmp_get_restart_style_hint client = some hint ∧ hint ≠ GSM_CLIENT_RESTART_NEVER ∧
      xsmp_get_restart_command client = some exec_program ∧
      get_desktop_file_path files client = some path ∧
      create_client_key_file files client path = some (base, none) ∧
      r.client = client ∧ r.error = none ∧
      keyfile =
        (match xsmp_get_discard_command client with
         | some exec_discard =>
           g_key_file_set
             (g_key_file_set
               (g_key_file_set base G_KEY_FILE_DESKTOP_GROUP GSM_AUTOSTART_APP_STARTUP_ID_KEY
                 (KeyValue.text client.startup_id))
               G_KEY_FILE_DESKTOP_GROUP G_KEY_FILE_DESKTOP_KEY_EXEC
               (KeyValue.raw (c_string exec_program)))
             G_KEY_FILE_DESKTOP_GROUP GSM_AUTOSTART_APP_DISCARD_KEY
             (KeyValue.raw (c_string exec_discard))
         | none =>
           g_key_file_set
             (g_key_file_set base G_KEY_FILE_DESKTOP_GROUP GSM_AUTOSTART_APP_STARTUP_ID_KEY
               (KeyValue.text client.startup_id))
             G_KEY_FILE_DESKTOP_GROUP G_KEY_FILE_DESKTOP_KEY_EXEC
             (KeyValue.raw (c_string exec_program))) := by
  unfold xsmp_save at hsave
  split at hsave
  · simp at hsave
  · rename_i hint hhint
    split at hsave
    · simp only [Option.some.injEq] at hsave
      rw [← hsave] at hentry
      simp at hentry
    · rename_i hnever
      split at hsave
      · simp only [Option.some.injEq] at hsave
        rw [← hsave] at hentry
        simp at hentry
      · rename_i exec_program hexec
        split at hsave
        · simp at hsave
        · rename_i path hpath
          split at hsave
          · simp at hsave
          · simp only [Option.some.injEq] at hsave
            rw [← hsave] at hentry
            simp at hentry
          · rename_i base hbase
            simp only [Option.some.injEq] at hsave
            refine ⟨hint, exec_program, path, base, hhint, hnever, hexec, hpath, hbase, ?_, ?_, ?_⟩
            · rw [← hsave]
            · rw [← hsave]
            · rw [← hsave] at hentry
              simp only [Option.some.injEq] at hentry
              rw [← hentry]


theorem append_value_nul_free (v : List Nat) (h : 0 ∉ v) : 0 ∉ append_value v := by
  rw [append_value_of_nul_free v h, quote_loop_eq]
  split
  · exact h
  · simp only [List.mem_append, List.mem_singleton, List.mem_flatMap, not_or]
    refine ⟨⟨by decide, ?_⟩, by decide⟩
    rintro ⟨c, hc, hmem⟩
    split at hmem
    · revert hmem
      decide
    · simp only [List.mem_singleton] at hmem
      exact h (hmem ▸ hc)

theorem join_with_space_nul_free (rs : List (List Nat)) (h : ∀ r ∈ rs, 0 ∉ r) :
    0 ∉ join_with_space rs := by
  induction rs with
  | nil => simp [join_with_space]
  | cons r rest ih =>
    have hr : 0 ∉ r := h r (List.mem_cons_self _ _)
    have hrest : 0 ∉ join_with_space rest :=
      ih fun x hx => h x (List.mem_cons_of_mem _ hx)
    cases rest with
    | nil => simpa [join_with_space] using hr
    | cons w more =>
      simp only [join_with_space, List.mem_append, List.mem_singleton, not_or] at hrest ⊢
      exact ⟨⟨hr, by decide⟩, hrest⟩

theorem prop_to_command_nul_free (prop : SmProp) (h : ∀ v ∈ prop.vals, 0 ∉ v) :
    c_string (prop_to_command prop) = prop_to_command prop := by
  apply c_string_of_nul_free
  unfold prop_to_command
  rw [prop_to_command_loop_join]
  apply join_with_space_nul_free
  intro r hr
  simp only [List.mem_map] at hr
  obtain ⟨v, hv, rfl⟩ := hr
  exact append_value_nul_free v (h v hv)

theorem saving_client_saved :
    xsmp_save no_files saving_client =
      some { client := saving_client, keyfile := some saved_entry, error := none } := by
  rfl

theorem synthesized_entry_discard_key (client : GsmXSMPClient) (base : GKeyFile)
    (h : set_desktop_file_keys_from_client client [] = some base) :
    g_key_file_get base G_KEY_FILE_DESKTOP_GROUP GSM_AUTOSTART_APP_DISCARD_KEY = none := by
  unfold set_desktop_file_keys_from_client at h
  simp only at h
  split at h
  · simp at h
  · simp only [Option.some.injEq] at h
    rw [← h, g_key_file_get_set_other _ _ _ _ _ _ (by decide),
      g_key_file_get_set_other _ _ _ _ _ _ (by decide),
      g_key_file_get_set_other _ _ _ _ _ _ (by decide),
      g_key_file_get_set_other _ _ _ _ _ _ (by decide),
      g_key_file_get_set_other _ _ _ _ _ _ (by decide)]
    rfl

/-- C15 fails on a client whose DiscardCommand was sent with the type ARRAY8:
`save` returns an entry, and the entry has no discard-command key. -/
theorem C15_counterexample :
    (find_property discard_array8_client SmDiscardCommand).isSome = true ∧
    ((xsmp_save no_files discard_array8_client).bind fun r => r.keyfile).map
        (fun keyfile =>
          g_key_file_get keyfile G_KEY_FILE_DESKTOP_GROUP GSM_AUTOSTART_APP_DISCARD_KEY) =
      some none := by
  constructor <;> rfl

/-- C15 (amended): whenever `save` returns an entry, the client has a
RestartCommand of type LISTofARRAY8 and the entry carries Exec equal to its
command reconstruction, read as the C string it is (the whole reconstruction
when the values hold no NUL byte), and X-GNOME-Autostart-startup-id equal to
the startup id of the client; if the client has a DiscardCommand of type
LISTofARRAY8, the entry carries X-GNOME-Autostart-discard-command equal to its
command reconstruction, read likewise.  A DiscardCommand of any other type is
treated as an absent one: `get_discard_command` returns `NULL` and the
discard-command key is not written, the entry being the key file made for the
client with the startup id and Exec set and nothing else, so that it holds
under the discard-command key what that key file held, which is nothing when
the key file was made from the client for want of a desktop file.  And the
restart style hint of the client is not never. -/
theorem C15_saved_entry (files : Files) (client : GsmXSMPClient) (r : SaveResult)
    (keyfile : GKeyFile) (hsave : xsmp_save files client = some r)
    (hentry : r.keyfile = some keyfile) :
    (∃ prop index, find_property client SmRestartCommand = some (prop, index) ∧
      prop.type = SmLISTofARRAY8 ∧
      g_key_file_get keyfile G_KEY_FILE_DESKTOP_GROUP G_KEY_FILE_DESKTOP_KEY_EXEC =
        some (KeyValue.raw (c_string (prop_to_command prop))) ∧
      ((∀ v ∈ prop.vals, 0 ∉ v) →
        g_key_file_get keyfile G_KEY_FILE_DESKTOP_GROUP G_KEY_FILE_DESKTOP_KEY_EXEC =
          some (KeyValue.raw (prop_to_command prop)))) ∧
    g_key_file_get keyfile G_KEY_FILE_DESKTOP_GROUP GSM_AUTOSTART_APP_STARTUP_ID_KEY =
      some (KeyValue.text client.startup_id) ∧
    (∀ dprop dindex, find_property client SmDiscardCommand = some (dprop, dindex) →
      dprop.type = SmLISTofARRAY8 →
      g_key_file_get keyfile G_KEY_FILE_DESKTOP_GROUP GSM_AUTOSTART_APP_DISCARD_KEY =
        some (KeyValue.raw (c_string (prop_to_command dprop)))) ∧
    ((find_property client SmDiscardCommand = none ∨
        ∃ dprop dindex, find_property client SmDiscardCommand = some (dprop, dindex) ∧
          dprop.type ≠ SmLISTofARRAY8) →
      xsmp_get_discard_command client = none ∧
      ∃ path base exec_program,
        get_desktop_file_path files client = some path ∧
        create_client_key_file files client path = some (base, none) ∧
        xsmp_get_restart_command client = some exec_program ∧
        keyfile =
          g_key_file_set
            (g_key_file_set base G_KEY_FILE_DESKTOP_GROUP GSM_AUTOSTART_APP_STARTUP_ID_KEY
              (KeyValue.text client.startup_id))
            G_KEY_FILE_DESKTOP_GROUP G_KEY_FILE_DESKTOP_KEY_EXEC
            (KeyValue.raw (c_string exec_program)) ∧
        g_key_file_get keyfile G_KEY_FILE_DESKTOP_GROUP GSM_AUTOSTART_APP_DISCARD_KEY =
          g_key_file_get base G_KEY_FILE_DESKTOP_GROUP GSM_AUTOSTART_APP_DISCARD_KEY ∧
        (path = none →
          g_key_file_get keyfile G_KEY_FILE_DESKTOP_GROUP GSM_AUTOSTART_APP_DISCARD_KEY =
            none)) ∧
    xsmp_get_restart_style_hint client ≠ some GSM_CLIENT_RESTART_NEVER := by
  obtain ⟨hint, exec_program, path, base, hhint, hnever, hexec, hpath, hbase, _, _, hkf⟩ :=
    xsmp_save_entry files client r keyfile hsave hentry
  have hse : (G_KEY_FILE_DESKTOP_GROUP, GSM_AUTOSTART_APP_STARTUP_ID_KEY) ≠
      (G_KEY_FILE_DESKTOP_GROUP, G_KEY_FILE_DESKTOP_KEY_EXEC) := by decide
  have hde : (G_KEY_FILE_DESKTOP_GROUP, GSM_AUTOSTART_APP_DISCARD_KEY) ≠
      (G_KEY_FILE_DESKTOP_GROUP, G_KEY_FILE_DESKTOP_KEY_EXEC) := by decide
  have hds : (G_KEY_FILE_DESKTOP_GROUP, GSM_AUTOSTART_APP_DISCARD_KEY) ≠
      (G_KEY_FILE_DESKTOP_GROUP, GSM_AUTOSTART_APP_STARTUP_ID_KEY) := by decide
  have hes : (G_KEY_FILE_DESKTOP_GROUP, G_KEY_FILE_DESKTOP_KEY_EXEC) ≠
      (G_KEY_FILE_DESKTOP_GROUP, GSM_AUTOSTART_APP_STARTUP_ID_KEY) := by decide
  -- the two keys written in every case
  have hexec_key :
      g_key_file_get keyfile G_KEY_FILE_DESKTOP_GROUP G_KEY_FILE_DESKTOP_KEY_EXEC =
        some (KeyValue.raw (c_string exec_program)) := by
    rw [hkf]
    split
    · rw [g_key_file_get_set_other _ _ _ _ _ _ hde, g_key_file_get_set_same]
    · rw [g_key_file_get_set_same]
  have hid_key :
      g_key_file_get keyfile G_KEY_FILE_DESKTOP_GROUP GSM_AUTOSTART_APP_STARTUP_ID_KEY =
        some (KeyValue.text client.startup_id) := by
    rw [hkf]
    split
    · rw [g_key_file_get_set_other _ _ _ _ _ _ hds, g_key_file_get_set_other _ _ _ _ _ _ hes,
        g_key_file_get_set_same]
    · rw [g_key_file_get_set_other _ _ _ _ _ _ hes, g_key_file_get_set_same]
  refine ⟨?_, hid_key, ?_, ?_, ?_⟩
  · unfold xsmp_get_restart_command at hexec
    split at hexec
    · simp at hexec
    · rename_i prop index hfind
      split at hexec
      · simp at hexec
      · rename_i htype
        have htype2 : prop.type = SmLISTofARRAY8 := by
          by_contra hne
          exact htype hne
        simp only [Option.some.injEq] at hexec
        refine ⟨prop, index, hfind, htype2, ?_, ?_⟩
        · rw [hexec_key, hexec]
        · intro hnul
          rw [hexec_key, ← hexec, prop_to_command_nul_free prop hnul]
  · intro dprop dindex hfind htype
    have hd : xsmp_get_discard_command client = some (prop_to_command dprop) := by
      simp [xsmp_get_discard_command, hfind, htype]
    rw [hkf, hd]
    simp only
    rw [g_key_file_get_set_same]
  · intro habsent
    have hd : xsmp_get_discard_command client = none := by
      rcases habsent with h | ⟨dprop, dindex, h, ht⟩
      · simp [xsmp_get_discard_command, h]
      · simp [xsmp_get_discard_command, h, ht]
    rw [hd] at hkf
    simp only at hkf
    have hsame :
        g_key_file_get keyfile G_KEY_FILE_DESKTOP_GROUP GSM_AUTOSTART_APP_DISCARD_KEY =
          g_key_file_get base G_KEY_FILE_DESKTOP_GROUP GSM_AUTOSTART_APP_DISCARD_KEY := by
      rw [hkf, g_key_file_get_set_other _ _ _ _ _ _ (Ne.symm hde),
        g_key_file_get_set_other _ _ _ _ _ _ (Ne.symm hds)]
    refine ⟨hd, path, base, exec_program, hpath, hbase, hexec, hkf, hsame, ?_⟩
    intro hnone
    subst hnone
    rw [hsame]
    unfold create_client_key_file at hbase
    simp only at hbase
    split at hbase
    · simp at hbase
    · rename_i made hmade
      simp only [Option.some.injEq, Prod.mk.injEq, and_true] at hbase
      rw [← hbase]
      exact synthesized_entry_discard_key client made hmade
  · rw [hhint]
    intro h
    simp only [Option.some.injEq] at h
    exact hnever h

theorem C15_saved_entry_witness :
    g_key_file_get saved_entry G_KEY_FILE_DESKTOP_GROUP GSM_AUTOSTART_APP_STARTUP_ID_KEY =
      some (KeyValue.text saving_client.startup_id) :=
  (C15_saved_entry no_files saving_client
    { client := saving_client, keyfile := some saved_entry, error := none } saved_entry
    saving_client_saved rfl).2.1

/-- C16: `save` returns no entry and reports no error for every client whose
restart style hint is never, and for every client whose restart style hint
can be read and whose RestartCommand is absent or not of type LISTofARRAY8;
and whatever `save` returns, the client it leaves is the client it was given,
property set, status and save-yourself state included. -/
theorem C16_save_nothing_to_restart (files : Files) (client : GsmXSMPClient) :
    (xsmp_get_restart_style_hint client = some GSM_CLIENT_RESTART_NEVER →
      xsmp_save files client = some { client := client, keyfile := none, error := none }) ∧
    (∀ hint, xsmp_get_restart_style_hint client = some hint →
      (find_property client SmRestartCommand = none ∨
        ∃ prop index, find_property client SmRestartCommand = some (prop, index) ∧
          prop.type ≠ SmLISTofARRAY8) →
      xsmp_save files client = some { client := client, keyfile := none, error := none }) ∧
    (∀ r, xsmp_save files client = some r →
      r.client = client ∧ r.client.props = client.props ∧ r.client.status = client.status ∧
      r.client.current_save_yourself = client.current_save_yourself ∧
      r.client.next_save_yourself = client.next_save_yourself ∧
      r.client.next_save_yourself_allow_interact = client.next_save_yourself_allow_interact) := by
  refine ⟨?_, ?_, ?_⟩
  · intro h
    simp [xsmp_save, h]
  · intro hint hhint habsent
    have hcmd : xsmp_get_restart_command client = none := by
      rcases habsent with h | ⟨prop, index, h, ht⟩
      · simp [xsmp_get_restart_command, h]
      · simp [xsmp_get_restart_command, h, ht]
    simp only [xsmp_save, hhint, hcmd]
    split <;> rfl
  · intro r hsave
    have hc : r.client = client := by
      unfold xsmp_save at hsave
      split at hsave
      · simp at hsave
      · split at hsave
        · simp only [Option.some.injEq] at hsave
          rw [← hsave]
        · split at hsave
          · simp only [Option.some.injEq] at hsave
            rw [← hsave]
          · split at hsave
            · simp at hsave
            · split at hsave
              · simp at hsave
              · simp only [Option.some.injEq] at hsave
                rw [← hsave]
              · simp only [Option.some.injEq] at hsave
                rw [← hsave]
    rw [hc]
    exact ⟨rfl, rfl, rfl, rfl, rfl, rfl⟩

theorem C16_save_nothing_to_restart_witness :
    xsmp_save no_files registered_client =
      some { client := registered_client, keyfile := none, error := none } :=
  (C16_save_nothing_to_restart no_files registered_client).2.1
    GSM_CLIENT_RESTART_IF_RUNNING rfl (Or.inl rfl)

/-- C17: let the client have no `_GSM_DesktopFile` property and let the autostart
directories hold no file matching its Program, and let `save` return an
entry.  Then the entry has Name equal to the first value of Program, read as
the C string it is, or to `Remembered Application` when the client has no
Program; Comment equal to `Client`, the startup id of the client and
`which was automatically saved`, separated by single spaces; Icon equal to
`system-run`; Type equal to `Application`; and StartupNotify true. -/
theorem C17_synthesized_entry (files : Files) (client : GsmXSMPClient) (r : SaveResult)
    (keyfile : GKeyFile) (hsave : xsmp_save files client = some r)
    (hentry : r.keyfile = some keyfile)
    (hnofile : find_property client GsmDesktopFile = none)
    (hnomatch : ∀ prop index value rest,
      find_property client SmProgram = some (prop, index) → prop.vals = value :: rest →
      files.gsm_util_find_desktop_file_for_app_name (c_string value) = none) :
    (∀ prop index, find_property client SmProgram = some (prop, index) →
      ∃ value rest, prop.vals = value :: rest ∧
        g_key_file_get keyfile G_KEY_FILE_DESKTOP_GROUP G_KEY_FILE_DESKTOP_KEY_NAME =
          some (KeyValue.raw (c_string value))) ∧
    (find_property client SmProgram = none →
      g_key_file_get keyfile G_KEY_FILE_DESKTOP_GROUP G_KEY_FILE_DESKTOP_KEY_NAME =
        some (KeyValue.text "Remembered Application")) ∧
    g_key_file_get keyfile G_KEY_FILE_DESKTOP_GROUP G_KEY_FILE_DESKTOP_KEY_COMMENT =
      some (KeyValue.text ("Client " ++ client.startup_id ++ " which was automatically saved")) ∧
    g_key_file_get keyfile G_KEY_FILE_DESKTOP_GROUP G_KEY_FILE_DESKTOP_KEY_ICON =
      some (KeyValue.text "system-run") ∧
    g_key_file_get keyfile G_KEY_FILE_DESKTOP_GROUP G_KEY_FILE_DESKTOP_KEY_TYPE =
      some (KeyValue.text "Application") ∧
    g_key_file_get keyfile G_KEY_FILE_DESKTOP_GROUP G_KEY_FILE_DESKTOP_KEY_STARTUP_NOTIFY =
      some (KeyValue.boolean true) := by
  obtain ⟨hint, exec_program, path, base, _, _, _, hpath, hbase, _, _, hkf⟩ :=
    xsmp_save_entry files client r keyfile hsave hentry
  -- no desktop file is found
  have hnone : path = none := by
    unfold get_desktop_file_path at hpath
    rw [hnofile] at hpath
    simp only at hpath
    split at hpath
    · simp only [Option.some.injEq] at hpath
      exact hpath.symm
    · rename_i prop index hfind
      split at hpath
      · simp at hpath
      · rename_i value rest hvals
        simp only [Option.some.injEq] at hpath
        rw [← hpath]
        exact hnomatch prop index value rest hfind hvals
  subst hnone
  -- the keys written after the entry was made do not touch the five keys
  have later : ∀ key, key ≠ GSM_AUTOSTART_APP_STARTUP_ID_KEY → key ≠ G_KEY_FILE_DESKTOP_KEY_EXEC →
      key ≠ GSM_AUTOSTART_APP_DISCARD_KEY →
      g_key_file_get keyfile G_KEY_FILE_DESKTOP_GROUP key =
        g_key_file_get base G_KEY_FILE_DESKTOP_GROUP key := by
    intro key h1 h2 h3
    have e1 : (G_KEY_FILE_DESKTOP_GROUP, GSM_AUTOSTART_APP_STARTUP_ID_KEY) ≠
        (G_KEY_FILE_DESKTOP_GROUP, key) := fun h => h1 (Prod.mk.inj h).2.symm
    have e2 : (G_KEY_FILE_DESKTOP_GROUP, G_KEY_FILE_DESKTOP_KEY_EXEC) ≠
        (G_KEY_FILE_DESKTOP_GROUP, key) := fun h => h2 (Prod.mk.inj h).2.symm
    have e3 : (G_KEY_FILE_DESKTOP_GROUP, GSM_AUTOSTART_APP_DISCARD_KEY) ≠
        (G_KEY_FILE_DESKTOP_GROUP, key) := fun h => h3 (Prod.mk.inj h).2.symm
    rw [hkf]
    split
    · rw [g_key_file_get_set_other _ _ _ _ _ _ e3, g_key_file_get_set_other _ _ _ _ _ _ e2,
        g_key_file_get_set_other _ _ _ _ _ _ e1]
    · rw [g_key_file_get_set_other _ _ _ _ _ _ e2, g_key_file_get_set_other _ _ _ _ _ _ e1]
  -- the entry made from the client
  unfold create_client_key_file at hbase
  simp only at hbase
  split at hbase
  · simp at hbase
  · rename_i made hmade
    simp only [Option.some.injEq, Prod.mk.injEq, and_true] at hbase
    subst hbase
    unfold set_desktop_file_keys_from_client at hmade
    simp only at hmade
    split at hmade
    · simp at hmade
    · rename_i name hname
      simp only [Option.some.injEq] at hmade
      have key_ne : ∀ a b : String, a ≠ b →
          (G_KEY_FILE_DESKTOP_GROUP, a) ≠ (G_KEY_FILE_DESKTOP_GROUP, b) :=
        fun a b h e => h (Prod.mk.inj e).2
      have hname_key :
          g_key_file_get made G_KEY_FILE_DESKTOP_GROUP G_KEY_FILE_DESKTOP_KEY_NAME =
            some name := by
        rw [← hmade,
          g_key_file_get_set_other _ _ _ _ _ _ (key_ne _ _ (by decide)),
          g_key_file_get_set_other _ _ _ _ _ _ (key_ne _ _ (by decide)),
          g_key_file_get_set_other _ _ _ _ _ _ (key_ne _ _ (by decide)),
          g_key_file_get_set_other _ _ _ _ _ _ (key_ne _ _ (by decide)),
          g_key_file_get_set_same]
      refine ⟨?_, ?_, ?_, ?_, ?_, ?_⟩
      · intro prop index hfind
        rw [hfind] at hname
        simp only at hname
        split at hname
        · simp at hname
        · rename_i value rest hvals
          simp only [Option.some.injEq] at hname
          refine ⟨value, rest, hvals, ?_⟩
          rw [later _ (by decide) (by decide) (by decide), hname_key, hname]
      · intro hfind
        rw [hfind] at hname
        simp only [Option.some.injEq] at hname
        rw [later _ (by decide) (by decide) (by decide), hname_key, hname]
      · rw [later _ (by decide) (by decide) (by decide), ← hmade,
          g_key_file_get_set_other _ _ _ _ _ _ (key_ne _ _ (by decide)),
          g_key_file_get_set_other _ _ _ _ _ _ (key_ne _ _ (by decide)),
          g_key_file_get_set_other _ _ _ _ _ _ (key_ne _ _ (by decide)),
          g_key_file_get_set_same]
      · rw [later _ (by decide) (by decide) (by decide), ← hmade,
          g_key_file_get_set_other _ _ _ _ _ _ (key_ne _ _ (by decide)),
          g_key_file_get_set_other _ _ _ _ _ _ (key_ne _ _ (by decide)),
          g_key_file_get_set_same]
      · rw [later _ (by decide) (by decide) (by decide), ← hmade,
          g_key_file_get_set_other _ _ _ _ _ _ (key_ne _ _ (by decide)),
          g_key_file_get_set_same]
      · rw [later _ (by decide) (by decide) (by decide), ← hmade, g_key_file_get_set_same]

theorem C17_synthesized_entry_witness :
    g_key_file_get saved_entry G_KEY_FILE_DESKTOP_GROUP G_KEY_FILE_DESKTOP_KEY_ICON =
      some (KeyValue.text "system-run") :=
  (C17_synthesized_entry no_files saving_client
    { client := saving_client, keyfile := some saved_entry, error := none } saved_entry
    saving_client_saved rfl rfl (fun _ _ _ _ _ _ => rfl)).2.2.2.1

/-! ## Path allocation -/

theorem client_serial_after_eq (k : Nat) :
    client_serial_after k = k % 2147483647 + 1 := by
  induction k with
  | zero => rfl
  | succ k ih =>
    simp only [client_serial_after, get_next_client_serial, ih]
    have h32 : (2 : Nat) ^ 32 = 4294967296 := by norm_num
    have h31 : (2 : Nat) ^ 31 = 2147483648 := by norm_num
    rw [h32, h31]
    split <;> simp only <;> omega

theorem allocated_serial_eq (k : Nat) :
    allocated_serial k = (k - 1) % 2147483647 + 1 := by
  simp only [allocated_serial, get_next_client_serial, client_serial_after_eq]
  split <;> rfl

theorem digitChar_toNat (k : Nat) (h : k < 10) : (Nat.digitChar k).toNat - 48 = k := by
  interval_cases k <;> rfl

theorem toDigitsCore_value (fuel n : Nat) (ds : List Char) (h : n < fuel) :
    (Nat.toDigitsCore 10 fuel n ds).foldl (fun acc c => acc * 10 + (c.toNat - 48)) 0 =
      ds.foldl (fun acc c => acc * 10 + (c.toNat - 48)) n := by
  induction fuel generalizing n ds with
  | zero => omega
  | succ fuel ih =>
    simp only [Nat.toDigitsCore]
    split
    · rename_i h0
      simp only [List.foldl_cons, Nat.zero_mul, Nat.zero_add]
      rw [digitChar_toNat _ (Nat.mod_lt _ (by norm_num))]
      congr 1
      omega
    · rename_i h0
      rw [ih (n / 10) _ (by omega)]
      simp only [List.foldl_cons]
      rw [digitChar_toNat _ (Nat.mod_lt _ (by norm_num))]
      congr 1
      omega

theorem digits_value_toString (n : Nat) : digits_value (bytes (toString n)) = n := by
  have h := toDigitsCore_value (n + 1) n [] (by omega)
  simp only [List.foldl_nil] at h
  simp only [digits_value, bytes, List.foldl_map]
  exact h

theorem toString_injective (a b : Nat) (h : toString a = toString b) : a = b := by
  rw [← digits_value_toString a, ← digits_value_toString b, h]

theorem path_injective (a b : Nat)
    (h : "/org/gnome/SessionManager/Client" ++ toString a =
      "/org/gnome/SessionManager/Client" ++ toString b) : a = b := by
  apply toString_injective
  have h2 := congrArg String.data h
  simp only [String.data_append] at h2
  exact String.ext (List.append_cancel_left h2)

theorem constructed_client_id (k : Nat) (ice_conn : Option Nat) (watch_id : Nat) :
    (constructed_client k ice_conn watch_id).id =
      "/org/gnome/SessionManager/Client" ++ toString (allocated_serial k) := by
  rfl

/-- C21: the counter starts at 1; an allocation on a counter between 1 and
2^31 - 1 returns the counter and leaves it one larger, except that it leaves 1
when the counter was 2^31 - 1 (the incremented value, read as a signed 32-bit
integer, being negative).  Hence for every k from 1 on the k-th serial
allocated is ((k - 1) mod (2^31 - 1)) + 1, it lies between 1 and 2^31 - 1, the
allocation after serial 2^31 - 1 returns 1, and the path of the k-th client
constructed is `/org/gnome/SessionManager/Client` followed by that serial
written in decimal (a string of digits that reads back as the serial). -/
theorem C21_path_allocation (k : Nat) (hk : 1 ≤ k) (ice_conn : Option Nat) (watch_id : Nat) :
    client_serial_after 0 = 1 ∧
    (∀ c, 1 ≤ c → c ≤ 2 ^ 31 - 1 →
      get_next_client_serial c = (c, if c = 2 ^ 31 - 1 then 1 else c + 1)) ∧
    allocated_serial k = (k - 1) % (2 ^ 31 - 1) + 1 ∧
    1 ≤ allocated_serial k ∧ allocated_serial k ≤ 2 ^ 31 - 1 ∧
    (allocated_serial k = 2 ^ 31 - 1 → allocated_serial (k + 1) = 1) ∧
    (constructed_client k ice_conn watch_id).id =
      "/org/gnome/SessionManager/Client" ++ toString (allocated_serial k) ∧
    digits_value (bytes (toString (allocated_serial k))) = allocated_serial k := by
  have h31 : (2 : Nat) ^ 31 - 1 = 2147483647 := by norm_num
  have hk2 := allocated_serial_eq k
  have hk3 := allocated_serial_eq (k + 1)
  refine ⟨rfl, ?_, ?_, ?_, ?_, ?_, rfl, digits_value_toString _⟩
  · intro c h1 h2
    have h32 : (2 : Nat) ^ 32 = 4294967296 := by norm_num
    have h31b : (2 : Nat) ^ 31 = 2147483648 := by norm_num
    simp only [get_next_client_serial, h32, h31b] at *
    split <;> split <;> simp only [Prod.mk.injEq, true_and] <;> omega
  · rw [h31]
    exact hk2
  · omega
  · omega
  · omega

theorem C21_path_allocation_witness :
    (constructed_client 3 (some 7) 3).id =
      "/org/gnome/SessionManager/Client" ++ toString (allocated_serial 3) :=
  (C21_path_allocation 3 (by decide) (some 7) 3).2.2.2.2.2.2.1

/-- C22 fails when the counter has gone round: the first client constructed in
a session and the one constructed as number 2^31 are given the same path. -/
theorem C22_counterexample :
    (1 : Nat) ≠ 2147483648 ∧
    (constructed_client 1 (some 7) 3).id = (constructed_client 2147483648 (some 8) 4).id := by
  constructor
  · decide
  · rw [constructed_client_id, constructed_client_id, allocated_serial_eq,
      allocated_serial_eq]

/-- C22 (amended): two constructions of a session are assigned the same path
exactly when their ranks differ by a multiple of 2^31 - 1; hence any two
distinct constructions fewer than 2^31 - 1 allocations apart, in particular any
two among the first 2^31 - 1 clients of a session, have different paths. -/
theorem C22_path_uniqueness (j k : Nat) (hj : 1 ≤ j) (hk : 1 ≤ k)
    (ice_j ice_k : Option Nat) (watch_j watch_k : Nat) :
    ((constructed_client j ice_j watch_j).id = (constructed_client k ice_k watch_k).id ↔
      (j - 1) % (2 ^ 31 - 1) = (k - 1) % (2 ^ 31 - 1)) ∧
    (j < k → k - j < 2 ^ 31 - 1 →
      (constructed_client j ice_j watch_j).id ≠ (constructed_client k ice_k watch_k).id) := by
  have h31 : (2 : Nat) ^ 31 - 1 = 2147483647 := by norm_num
  have e1 : (constructed_client j ice_j watch_j).id =
      "/org/gnome/SessionManager/Client" ++ toString (allocated_serial j) := rfl
  have e2 : (constructed_client k ice_k watch_k).id =
      "/org/gnome/SessionManager/Client" ++ toString (allocated_serial k) := rfl
  have key : (constructed_client j ice_j watch_j).id = (constructed_client k ice_k watch_k).id ↔
      (j - 1) % 2147483647 = (k - 1) % 2147483647 := by
    rw [e1, e2]
    constructor
    · intro h
      have := path_injective _ _ h
      rw [allocated_serial_eq, allocated_serial_eq] at this
      omega
    · intro h
      rw [allocated_serial_eq, allocated_serial_eq, h]
  rw [h31]
  refine ⟨key, ?_⟩
  intro hlt hnear heq
  have := key.1 heq
  omega

theorem C22_path_uniqueness_witness :
    (constructed_client 1 (some 7) 3).id ≠ (constructed_client 2 (some 8) 4).id :=
  (C22_path_uniqueness 1 2 (by decide) (by decide) (some 7) (some 8) 3 4).2
    (by decide) (by decide)

/-! ## Status transitions -/

theorem register_client_status (handlers : List RegisterHandler)
    (client c : GsmXSMPClient) (previous_id : Option String) (t : List Effect) (b : Bool)
    (h : register_client_callback handlers client previous_id = some (c, t, b)) :
    c.status = client.status ∨ c.status = GSM_CLIENT_REGISTERED := by
  unfold register_client_callback at h
  simp only [set_status_eq] at h
  split at h
  · simp at h
  · split at h
    · simp only [Option.some.injEq, Prod.mk.injEq] at h
      left
      rw [← h.1]
    · simp only [Option.some.injEq, Prod.mk.injEq] at h
      right
      rw [← h.1]

theorem query_end_session_status (client : GsmXSMPClient) (flags : Nat) (r : CallResult)
    (h : xsmp_query_end_session client flags = some r) : r.client.status = client.status := by
  unfold xsmp_query_end_session at h
  by_cases hc : client.conn = none
  · simp only [hc, if_true, Option.some.injEq] at h
    rw [← h]
    rfl
  · simp only [hc, if_false] at h
    split at h
    · simp at h
    · rename_i c2 t2 hd
      simp only [Option.some.injEq] at h
      rw [← h]
      exact (do_save_yourself_conn _ _ _ _ _ hd).2

theorem end_session_status (client : GsmXSMPClient) (flags : Nat) (r : CallResult)
    (h : xsmp_end_session client flags = some r) : r.client.status = client.status := by
  unfold xsmp_end_session at h
  by_cases hc : client.conn = none
  · simp only [hc, if_true, Option.some.injEq] at h
    rw [← h]
    rfl
  · simp only [hc, if_false, xsmp_save_yourself_phase2] at h
    split at h
    · simp only [Option.some.injEq] at h
      rw [← h]
    · split at h
      · simp at h
      · rename_i c2 t2 hd
        simp only [Option.some.injEq] at h
        rw [← h]
        exact (do_save_yourself_conn _ _ _ _ _ hd).2

theorem step_status (client c : GsmXSMPClient) (ev : Event) (t : List Effect)
    (h : step client ev = some (c, t)) :
    c.status = client.status ∨
    (ev.isRegisterClient = true ∧ c.status = GSM_CLIENT_REGISTERED) ∨
    c.status = GSM_CLIENT_FINISHED ∨ c.status = GSM_CLIENT_FAILED := by
  unfold step at h
  split at h
  · simp at h
  · cases ev with
    | connect conn =>
      left
      simp only [Option.some.injEq, Prod.mk.injEq] at h
      rw [← h.1]
      rfl
    | RegisterClient handlers pid =>
      cases hr : register_client_callback handlers client pid with
      | none => simp [hr] at h
      | some r =>
        obtain ⟨c2, t2, b⟩ := r
        simp only [hr, Option.map_some', Option.some.injEq, Prod.mk.injEq] at h
        rw [← h.1]
        rcases register_client_status _ _ _ _ _ _ hr with h2 | h2
        · exact Or.inl h2
        · exact Or.inr (Or.inl ⟨rfl, h2⟩)
    | SetProperties props =>
      left
      simp only [Option.some.injEq] at h
      have := (set_properties_conn props client).2
      rw [h] at this
      exact this
    | DeleteProperties names =>
      left
      simp only [Option.some.injEq] at h
      have := (delete_properties_conn names client).2
      rw [h] at this
      exact this
    | GetProperties =>
      left; simp [get_properties_callback] at h; rw [← h.1]
    | SaveYourselfRequest st sh is f g =>
      left
      simp only at h
      unfold save_yourself_request_callback at h
      split at h
      · simp at h; rw [← h.1]
      · split at h
        · exact (do_save_yourself_conn _ _ _ _ _ h).2
        · simp at h; rw [← h.1]
    | SaveYourselfPhase2Request =>
      left; simp [save_yourself_phase2_request_callback] at h; rw [← h.1]
    | InteractRequest d =>
      left; simp [interact_request_callback, xsmp_interact] at h; rw [← h.1]
    | InteractDone cs =>
      left; simp [interact_done_callback] at h; rw [← h.1]
    | SaveYourselfDone su =>
      left; exact (save_yourself_done_conn _ _ _ _ h).2
    | CloseConnection r =>
      right; right; left
      simp [close_connection_callback, set_status_eq] at h; rw [← h.1]
    | watch st =>
      simp only [Option.some.injEq, Prod.mk.injEq] at h
      rw [← h.1]
      cases st
      · left; rfl
      · right; right; right
        simp [client_iochannel_watch, set_status_eq]
      · left; rfl
    | stop =>
      left
      simp only [Option.some.injEq, Prod.mk.injEq] at h
      rw [← h.1]
      unfold xsmp_stop
      split <;> rfl
    | query_end_session flags =>
      left
      cases hr : xsmp_query_end_session client flags with
      | none => simp [hr] at h
      | some r =>
        simp only [hr, Option.map_some', Option.some.injEq, Prod.mk.injEq] at h
        rw [← h.1]
        exact query_end_session_status _ _ _ hr
    | end_session flags =>
      left
      cases hr : xsmp_end_session client flags with
      | none => simp [hr] at h
      | some r =>
        simp only [hr, Option.map_some', Option.some.injEq, Prod.mk.injEq] at h
        rw [← h.1]
        exact end_session_status _ _ _ hr
    | cancel_end_session =>
      left
      simp only [Option.some.injEq, Prod.mk.injEq] at h
      rw [← h.1]
      unfold xsmp_cancel_end_session
      split <;> rfl

theorem run_never_unregistered (events : List Event) (client c : GsmXSMPClient)
    (hstatus : client.status ≠ GSM_CLIENT_UNREGISTERED) (hrun : run client events = some c) :
    c.status ≠ GSM_CLIENT_UNREGISTERED := by
  induction events generalizing client with
  | nil =>
    simp only [run, Option.some.injEq] at hrun
    rw [← hrun]
    exact hstatus
  | cons ev rest ih =>
    simp only [run] at hrun
    split at hrun
    · simp at hrun
    · rename_i c2 t2 hstep
      apply ih c2 _ hrun
      rcases step_status _ _ _ _ hstep with h | ⟨_, h⟩ | h | h
      · rw [h]; exact hstatus
      · rw [h]; decide
      · rw [h]; decide
      · rw [h]; decide

theorem run_stays_ended (events : List Event) (client c : GsmXSMPClient)
    (hstatus : client.status = GSM_CLIENT_FINISHED ∨ client.status = GSM_CLIENT_FAILED)
    (hevents : ∀ ev ∈ events, ev.isRegisterClient = false)
    (hrun : run client events = some c) :
    c.status = GSM_CLIENT_FINISHED ∨ c.status = GSM_CLIENT_FAILED := by
  induction events generalizing client with
  | nil =>
    simp only [run, Option.some.injEq] at hrun
    rw [← hrun]
    exact hstatus
  | cons ev rest ih =>
    simp only [run] at hrun
    split at hrun
    · simp at hrun
    · rename_i c2 t2 hstep
      apply ih c2 _ (fun e he => hevents e (List.mem_cons_of_mem _ he)) hrun
      have hev := hevents ev (List.mem_cons_self _ _)
      rcases step_status _ _ _ _ hstep with h | ⟨h1, _⟩ | h | h
      · rw [h]; exact hstatus
      · rw [hev] at h1; exact absurd h1 (by decide)
      · exact Or.inl h
      · exact Or.inr h

/-- C23 fails on a client that sends RegisterClient after CloseConnection: the
status is finished after the first message and registered after the second. -/
theorem C23_counterexample :
    (run connected_client [Event.CloseConnection []]).map (fun c => c.status) =
      some GSM_CLIENT_FINISHED ∧
    (run connected_client
        [Event.CloseConnection [], Event.RegisterClient [accept_c1] none]).map
        (fun c => c.status) =
      some GSM_CLIENT_REGISTERED := by
  decide

/-- C23 (amended): for every sequence of inbound events and upward operations
applied to a client whose status is finished or failed, the status never
becomes unregistered afterwards, and as long as no RegisterClient is among the
events it stays finished or failed: it becomes registered again only by a
RegisterClient handled afterwards, which `register_client_callback` accepts
whatever the status is. -/
theorem C23_status_after_end (events : List Event) (client c : GsmXSMPClient)
    (hstatus : client.status = GSM_CLIENT_FINISHED ∨ client.status = GSM_CLIENT_FAILED)
    (hrun : run client events = some c) :
    c.status ≠ GSM_CLIENT_UNREGISTERED ∧
    ((∀ ev ∈ events, ev.isRegisterClient = false) →
      c.status = GSM_CLIENT_FINISHED ∨ c.status = GSM_CLIENT_FAILED) := by
  constructor
  · apply run_never_unregistered events client c _ hrun
    rcases hstatus with h | h <;> rw [h] <;> decide
  · intro hevents
    exact run_stays_ended events client c hstatus hevents hrun

theorem C23_status_after_end_witness :
    ({ registered_client with status := GSM_CLIENT_FINISHED } : GsmXSMPClient).status ≠
      GSM_CLIENT_UNREGISTERED ∧
    ((∀ ev ∈ [Event.stop], ev.isRegisterClient = false) →
      ({ registered_client with status := GSM_CLIENT_FINISHED } : GsmXSMPClient).status =
        GSM_CLIENT_FINISHED ∨
      ({ registered_client with status := GSM_CLIENT_FINISHED } : GsmXSMPClient).status =
        GSM_CLIENT_FAILED) :=
  C23_status_after_end [Event.stop] { registered_client with status := GSM_CLIENT_FINISHED }
    { registered_client with status := GSM_CLIENT_FINISHED } (Or.inl rfl) rfl

/-! ## Interaction -/

/-- C26: for every dialog kind, handling InteractRequest emits
end-session-response(is_ok = false, do_last = false, cancel = false,
reason = `This program is blocking logout.`) and then sends exactly one frame,
Interact, leaving the client as it was; for every `cancel_shutdown`, handling
InteractDone emits exactly end-session-response(true, false, cancel_shutdown,
no reason), sends no frame and leaves the client as it was. -/
theorem C26_interactive_block (client : GsmXSMPClient) (dialog_type : Int)
    (cancel_shutdown : Bool) :
    interact_request_callback client dialog_type =
      (client,
       [Effect.emitted (Signal.end_session_response false false false
          (some "This program is blocking logout.")),
        Effect.sent Frame.Interact]) ∧
    interact_done_callback client cancel_shutdown =
      (client,
       [Effect.emitted (Signal.end_session_response true false cancel_shutdown none)]) ∧
    frames (interact_done_callback client cancel_shutdown).2 = [] := by
  refine ⟨rfl, rfl, rfl⟩

/-! ## The connection test of the upward operations -/

/-- C29: whatever the status of the client, each of `stop`, `query_end_session`,
`end_session` and `cancel_end_session` returns the not-registered error if and
only if no session-management connection is attached.  Without connection the
call returns failure, sends nothing and leaves the client as it was; with a
connection it returns success without error, so that `do_save_yourself` never
aborts on its assertion when called from these operations. -/
theorem C29_connection_test (client : GsmXSMPClient) (flags : Nat) :
    ((xsmp_stop client).error = some GsmClientError.GSM_CLIENT_ERROR_NOT_REGISTERED ↔
      client.conn = none) ∧
    ((xsmp_cancel_end_session client).error =
        some GsmClientError.GSM_CLIENT_ERROR_NOT_REGISTERED ↔ client.conn = none) ∧
    (∃ r, xsmp_query_end_session client flags = some r ∧
      (r.error = some GsmClientError.GSM_CLIENT_ERROR_NOT_REGISTERED ↔ client.conn = none)) ∧
    (∃ r, xsmp_end_session client flags = some r ∧
      (r.error = some GsmClientError.GSM_CLIENT_ERROR_NOT_REGISTERED ↔ client.conn = none)) ∧
    (client.conn = none →
      xsmp_stop client = { client := client, trace := [], retval := false
                           error := some GsmClientError.GSM_CLIENT_ERROR_NOT_REGISTERED } ∧
      xsmp_cancel_end_session client =
        { client := client, trace := [], retval := false
          error := some GsmClientError.GSM_CLIENT_ERROR_NOT_REGISTERED } ∧
      xsmp_query_end_session client flags =
        some { client := client, trace := [], retval := false
               error := some GsmClientError.GSM_CLIENT_ERROR_NOT_REGISTERED } ∧
      xsmp_end_session client flags =
        some { client := client, trace := [], retval := false
               error := some GsmClientError.GSM_CLIENT_ERROR_NOT_REGISTERED }) ∧
    (client.conn ≠ none →
      ((xsmp_stop client).retval = true ∧ (xsmp_stop client).error = none) ∧
      ((xsmp_cancel_end_session client).retval = true ∧
        (xsmp_cancel_end_session client).error = none) ∧
      (∃ r, xsmp_query_end_session client flags = some r ∧ r.retval = true ∧ r.error = none) ∧
      (∃ r, xsmp_end_session client flags = some r ∧ r.retval = true ∧ r.error = none)) := by
  by_cases hc : client.conn = none
  · refine ⟨?_, ?_, ?_, ?_, ?_, ?_⟩
    · simp [xsmp_stop, hc, not_registered]
    · simp [xsmp_cancel_end_session, hc, not_registered]
    · exact ⟨not_registered client, by simp [xsmp_query_end_session, hc],
        by simp [hc, not_registered]⟩
    · exact ⟨not_registered client, by simp [xsmp_end_session, hc],
        by simp [hc, not_registered]⟩
    · intro _
      refine ⟨?_, ?_, ?_, ?_⟩
      · simp [xsmp_stop, hc, not_registered]
      · simp [xsmp_cancel_end_session, hc, not_registered]
      · simp [xsmp_query_end_session, hc, not_registered]
      · simp [xsmp_end_session, hc, not_registered]
    · intro h
      exact absurd hc h
  · obtain ⟨c1, t1, h1⟩ := query_end_session_succeeds client flags hc
    obtain ⟨c2, t2, h2⟩ := end_session_succeeds client flags hc
    refine ⟨?_, ?_, ?_, ?_, ?_, ?_⟩
    · simp [xsmp_stop, hc]
    · simp [xsmp_cancel_end_session, hc]
    · exact ⟨_, h1, by simp [hc]⟩
    · exact ⟨_, h2, by simp [hc]⟩
    · intro h
      exact absurd h hc
    · intro _
      refine ⟨?_, ?_, ⟨_, h1, rfl, rfl⟩, ⟨_, h2, rfl, rfl⟩⟩
      · simp [xsmp_stop, hc]
      · simp [xsmp_cancel_end_session, hc]

theorem C29_connection_test_witness :
    (xsmp_stop connected_client).retval = true ∧ (xsmp_stop connected_client).error = none :=
  ((C29_connection_test connected_client 0).2.2.2.2.2 (by decide)).1

/-! ## Shape of an accepted process id -/

theorem invoked_handlers_length (handlers : List RegisterHandler) (id : Option String)
    (handled : Bool) :
    (invoked_handlers handlers id handled).length ≤ handlers.length := by
  induction handlers generalizing id handled with
  | nil => simp [invoked_handlers]
  | cons h rest ih =>
    cases hr : (h id).1
    · simp [invoked_handlers, _boolean_handled_accumulator, hr, ih]
    · simp [invoked_handlers, _boolean_handled_accumulator, hr]

theorem invoked_handlers_stop (handlers : List RegisterHandler) (id : Option String)
    (handled : Bool) :
    (∀ c ∈ (invoked_handlers handlers id handled).dropLast, c.1 = false) ∧
    ((invoked_handlers handlers id handled).length < handlers.length →
      ∃ c, (invoked_handlers handlers id handled).getLast? = some c ∧ c.1 = true) := by
  induction handlers generalizing id handled with
  | nil => simp [invoked_handlers]
  | cons h rest ih =>
    cases hr : (h id).1
    · obtain ⟨ih1, ih2⟩ := ih (h id).2 false
      have e : invoked_handlers (h :: rest) id handled =
          (false, (h id).2) :: invoked_handlers rest (h id).2 false := by
        simp [invoked_handlers, _boolean_handled_accumulator, hr]
      rw [e]
      constructor
      · intro c hc
        cases hrest : invoked_handlers rest (h id).2 false with
        | nil => simp [hrest] at hc
        | cons x xs =>
          rw [hrest, List.dropLast_cons₂] at hc
          rcases List.mem_cons.1 hc with hc | hc
          · rw [hc]
          · exact ih1 c (by rw [hrest]; exact hc)
      · intro hlen
        have hlen2 : (invoked_handlers rest (h id).2 false).length < rest.length := by
          simpa using hlen
        obtain ⟨c, hc1, hc2⟩ := ih2 hlen2
        refine ⟨c, ?_, hc2⟩
        cases hrest : invoked_handlers rest (h id).2 false with
        | nil => simp [hrest] at hc1
        | cons x xs =>
          rw [hrest] at hc1
          rw [List.getLast?_cons_cons]
          exact hc1
    · have e : invoked_handlers (h :: rest) id handled = [(true, (h id).2)] := by
        simp [invoked_handlers, _boolean_handled_accumulator, hr]
      rw [e]
      constructor
      · simp
      · intro _
        exact ⟨(true, (h id).2), rfl, rfl⟩

theorem emit_register_request_handled (handlers : List RegisterHandler) (id : Option String) :
    ((emit_register_request handlers id false).2 = true ↔
      ∃ c ∈ invoked_handlers handlers id false, c.1 = true) ∧
    ((emit_register_request handlers id false).2 = true →
      (invoked_handlers handlers id false).getLast? =
        some (true, (emit_register_request handlers id false).1)) := by
  induction handlers generalizing id with
  | nil => simp [emit_register_request, invoked_handlers]
  | cons h rest ih =>
    cases hr : (h id).1
    · obtain ⟨ih1, ih2⟩ := ih (h id).2
      have e1 : emit_register_request (h :: rest) id false =
          emit_register_request rest (h id).2 false := by
        simp [emit_register_request, _boolean_handled_accumulator, hr]
      have e2 : invoked_handlers (h :: rest) id false =
          (false, (h id).2) :: invoked_handlers rest (h id).2 false := by
        simp [invoked_handlers, _boolean_handled_accumulator, hr]
      rw [e1, e2]
      constructor
      · rw [ih1]
        simp
      · intro hh
        have h2 := ih2 hh
        cases hrest : invoked_handlers rest (h id).2 false with
        | nil => simp [hrest] at h2
        | cons x xs =>
          rw [hrest] at h2
          rw [List.getLast?_cons_cons]
          exact h2
    · have e1 : emit_register_request (h :: rest) id false = ((h id).2, true) := by
        simp [emit_register_request, _boolean_handled_accumulator, hr]
      have e2 : invoked_handlers (h :: rest) id false = [(true, (h id).2)] := by
        simp [invoked_handlers, _boolean_handled_accumulator, hr]
      rw [e1, e2]
      simp

/-- C25: the accumulator of `register-request` stores the return of the handler
that just ran as the accumulated result and lets the emission continue if and
only if that handler returned false.  Hence, for every ordered list of
handlers: every handler invoked before the last invoked one returned false, and
if not all handlers are invoked the last invoked one returned true, so that no
handler after the first one returning true is invoked; the emission is reported
handled if and only if some invoked handler returned true, and the id is then
the one left by that handler.  With three handlers returning (not handled,
`id-A`, `id-B`) two handlers are invoked and the id acknowledged to the peer
in RegisterClientReply is `id-A`. -/
theorem C25_register_request_accumulator (handlers : List RegisterHandler)
    (id : Option String) (return_accu handler_return : Bool) :
    _boolean_handled_accumulator return_accu handler_return =
      (handler_return, !handler_return) ∧
    (invoked_handlers handlers id false).length ≤ handlers.length ∧
    (∀ c ∈ (invoked_handlers handlers id false).dropLast, c.1 = false) ∧
    ((invoked_handlers handlers id false).length < handlers.length →
      ∃ c, (invoked_handlers handlers id false).getLast? = some c ∧ c.1 = true) ∧
    ((emit_register_request handlers id false).2 = true ↔
      ∃ c ∈ invoked_handlers handlers id false, c.1 = true) ∧
    ((emit_register_request handlers id false).2 = true →
      (invoked_handlers handlers id false).getLast? =
        some (true, (emit_register_request handlers id false).1)) ∧
    invoked_handlers [not_handled, accept_id_A, accept_id_B] none false =
      [(false, none), (true, some "id-A")] ∧
    emit_register_request [not_handled, accept_id_A, accept_id_B] none false =
      (some "id-A", true) ∧
    (register_client_callback [not_handled, accept_id_A, accept_id_B] connected_client
        none).map (fun r => (frames r.2.1, r.2.2)) =
      some ([Frame.RegisterClientReply "id-A",
             Frame.SaveYourself SmSaveLocal false SmInteractStyleNone false], true) :=
  ⟨rfl, invoked_handlers_length handlers id false,
    (invoked_handlers_stop handlers id false).1, (invoked_handlers_stop handlers id false).2,
    (emit_register_request_handled handlers id).1, (emit_register_request_handled handlers id).2,
    by decide, by decide, by decide⟩

theorem C25_register_request_accumulator_witness :
    (invoked_handlers [accept_id_A, accept_id_B] none false).getLast? =
      some (true, (emit_register_request [accept_id_A, accept_id_B] none false).1) :=
  (C25_register_request_accumulator [accept_id_A, accept_id_B] none false
    false).2.2.2.2.2.1 (by decide)

/-! ## The property store -/

theorem find_property_from_some (l : List SmProp) (n : String) (k : Nat) (p : SmProp)
    (j : Nat) (h : find_property_from l n k = some (p, j)) :
    ∃ a b, l = a ++ p :: b ∧ j = k + a.length ∧ p.name = n ∧ ∀ q ∈ a, q.name ≠ n := by
  induction l generalizing k with
  | nil => simp [find_property_from] at h
  | cons x xs ih =>
    by_cases hx : x.name = n
    · simp only [find_property_from, if_pos hx, Option.some.injEq, Prod.mk.injEq] at h
      obtain ⟨rfl, rfl⟩ := h
      exact ⟨[], xs, rfl, by simp, hx, by simp⟩
    · simp only [find_property_from, if_neg hx] at h
      obtain ⟨a, b, rfl, rfl, hp, ha⟩ := ih (k + 1) h
      refine ⟨x :: a, b, rfl, by simp; omega, hp, ?_⟩
      intro q hq
      rcases List.mem_cons.1 hq with rfl | hq
      · exact hx
      · exact ha q hq

theorem find_property_from_none (l : List SmProp) (n : String) (k : Nat) :
    find_property_from l n k = none ↔ ∀ q ∈ l, q.name ≠ n := by
  induction l generalizing k with
  | nil => simp [find_property_from]
  | cons x xs ih =>
    by_cases hx : x.name = n
    · simp [find_property_from, hx]
    · simp [find_property_from, hx, ih]

theorem remove_index_fast_perm (a b : List SmProp) (p : SmProp) :
    (g_ptr_array_remove_index_fast (a ++ p :: b) a.length).Perm (a ++ b) := by
  rcases List.eq_nil_or_concat b with rfl | ⟨b1, last, hb⟩
  · have h1 : (a ++ [p]).getLast? = some p := by simp
    simp [g_ptr_array_remove_index_fast, h1]
  · rw [List.concat_eq_append] at hb
    subst hb
    have h1 : (a ++ p :: (b1 ++ [last])).getLast? = some last := by
      rw [show a ++ p :: (b1 ++ [last]) = (a ++ p :: b1) ++ [last] by simp]
      exact List.getLast?_concat _
    have h2 : (a ++ p :: (b1 ++ [last])).set a.length last = (a ++ last :: b1) ++ [last] := by
      simp
    simp only [g_ptr_array_remove_index_fast, h1, h2, List.dropLast_concat]
    exact List.Perm.append_left a (List.perm_append_singleton last b1).symm

theorem delete_property_absent (client : GsmXSMPClient) (n : String)
    (h : ∀ q ∈ client.props, q.name ≠ n) : delete_property client n = client := by
  have hnone : find_property client n = none :=
    (find_property_from_none client.props n 0).2 h
  simp [delete_property, hnone]

theorem delete_property_fields (client : GsmXSMPClient) (n : String) :
    delete_property client n = { client with props := (delete_property client n).props } := by
  unfold delete_property
  split <;> rfl

theorem foldl_keeps_fields {α : Type} (f : GsmXSMPClient → α → GsmXSMPClient)
    (hf : ∀ c a, f c a = { c with props := (f c a).props }) (l : List α)
    (client : GsmXSMPClient) :
    l.foldl f client = { client with props := (l.foldl f client).props } := by
  induction l generalizing client with
  | nil => rfl
  | cons a rest ih =>
    simp only [List.foldl_cons]
    have h := ih (f client a)
    have h2 := hf client a
    generalize List.foldl f (f client a) rest = X at h ⊢
    generalize f client a = Y at h h2
    cases X
    cases Y
    cases client
    simp_all

theorem delete_property_perm (client : GsmXSMPClient) (n : String)
    (hdistinct : (client.props.map SmProp.name).Nodup) :
    (delete_property client n).props.Perm
      (client.props.filter (fun q => decide (q.name ≠ n))) := by
  cases hfind : find_property client n with
  | none =>
    have hall : ∀ q ∈ client.props, q.name ≠ n :=
      (find_property_from_none client.props n 0).1 hfind
    have hf : client.props.filter (fun q => decide (q.name ≠ n)) = client.props :=
      List.filter_eq_self.2 (fun q hq => by simpa using hall q hq)
    simp only [delete_property, hfind, hf]
    exact List.Perm.refl _
  | some r =>
    obtain ⟨p, j⟩ := r
    obtain ⟨a, b, hl, hj, hp, ha⟩ := find_property_from_some client.props n 0 p j hfind
    have hj2 : j = a.length := by omega
    rw [hl] at hdistinct
    have hb : ∀ q ∈ b, q.name ≠ n := by
      intro q hq hqn
      rw [List.map_append, List.map_cons, List.nodup_append] at hdistinct
      have hcons := (List.nodup_cons.1 hdistinct.2.1).1
      exact hcons (by rw [hp, ← hqn]; exact List.mem_map_of_mem _ hq)
    have hf : client.props.filter (fun q => decide (q.name ≠ n)) = a ++ b := by
      rw [hl, List.filter_append, List.filter_cons_of_neg (by simpa using hp),
        List.filter_eq_self.2 (fun q hq => by simpa using ha q hq),
        List.filter_eq_self.2 (fun q hq => by simpa using hb q hq)]
    simp only [delete_property, hfind, hf, hj2]
    rw [hl]
    exact remove_index_fast_perm a b p

theorem nodup_names_of_perm_filter (S D : List SmProp) (f : SmProp → Bool)
    (hdistinct : (S.map SmProp.name).Nodup) (hperm : D.Perm (S.filter f)) :
    (D.map SmProp.name).Nodup := by
  have h1 : ((S.filter f).map SmProp.name).Nodup :=
    List.Nodup.sublist (List.Sublist.map _ (List.filter_sublist S)) hdistinct
  exact (List.Perm.nodup_iff (List.Perm.map _ hperm)).2 h1

theorem delete_properties_perm (N : List String) (client : GsmXSMPClient)
    (hdistinct : (client.props.map SmProp.name).Nodup) :
    (delete_properties_callback client N).1.props.Perm
      (client.props.filter (fun q => decide (q.name ∉ N))) := by
  unfold delete_properties_callback
  induction N generalizing client with
  | nil => simp
  | cons n rest ih =>
    have hd := delete_property_perm client n hdistinct
    have hnodup := nodup_names_of_perm_filter _ _ _ hdistinct hd
    have h := ih (delete_property client n) hnodup
    simp only [List.foldl_cons]
    refine h.trans ?_
    refine (List.Perm.filter _ hd).trans ?_
    rw [List.filter_filter]
    have e : (fun q : SmProp => (decide (q.name ∉ rest) && decide (q.name ≠ n))) =
        (fun q : SmProp => decide (q.name ∉ n :: rest)) := by
      funext q
      by_cases h1 : q.name = n <;> by_cases h2 : q.name ∈ rest <;> simp [h1, h2]
    rw [e]

theorem delete_properties_fields (N : List String) (client : GsmXSMPClient) :
    (delete_properties_callback client N).1 =
      { client with props := (delete_properties_callback client N).1.props } :=
  foldl_keeps_fields (fun client name => delete_property client name)
    delete_property_fields N client

theorem set_properties_fields (L : List SmProp) (client : GsmXSMPClient) :
    (set_properties_callback client L).1 =
      { client with props := (set_properties_callback client L).1.props } :=
  foldl_keeps_fields
    (fun (client : GsmXSMPClient) (prop : SmProp) =>
      let client := delete_property client prop.name
      { client with props := client.props ++ [prop] })
    (fun c a => by
      simp only
      unfold delete_property
      split <;> rfl) L client

theorem set_properties_snoc (client : GsmXSMPClient) (L : List SmProp) (p : SmProp) :
    (set_properties_callback client (L ++ [p])).1.props =
      (delete_property (set_properties_callback client L).1 p.name).props ++ [p] := by
  simp [set_properties_callback, List.foldl_append]

theorem set_properties_spec (L : List SmProp) (client : GsmXSMPClient)
    (hdistinct : (client.props.map SmProp.name).Nodup) :
    ((set_properties_callback client L).1.props.map SmProp.name).Nodup ∧
    ∀ q, q ∈ (set_properties_callback client L).1.props ↔
      (q ∈ client.props ∧ q.name ∉ L.map SmProp.name) ∨
      (L.filter (fun r => decide (r.name = q.name))).getLast? = some q := by
  induction L using List.reverseRecOn with
  | nil => simpa [set_properties_callback] using hdistinct
  | append_singleton L p ih =>
    obtain ⟨ihn, ihm⟩ := ih
    have hd := delete_property_perm (set_properties_callback client L).1 p.name ihn
    have hdn := nodup_names_of_perm_filter _ _ _ ihn hd
    have hmem : ∀ q, q ∈ (delete_property (set_properties_callback client L).1 p.name).props ↔
        q ∈ (set_properties_callback client L).1.props ∧ q.name ≠ p.name := by
      intro q
      rw [hd.mem_iff, List.mem_filter]
      simp
    rw [set_properties_snoc]
    constructor
    · rw [List.map_append, List.nodup_append]
      refine ⟨hdn, by simp, ?_⟩
      intro a ha hb
      simp only [List.map_cons, List.map_nil, List.mem_singleton] at hb
      obtain ⟨q, hq, hqa⟩ := List.mem_map.1 ha
      exact ((hmem q).1 hq).2 (by rw [hqa, hb])
    · intro q
      rw [List.mem_append, hmem, ihm, List.mem_singleton, List.filter_append, List.map_append]
      by_cases hpq : p.name = q.name
      · have hf : [p].filter (fun r => decide (r.name = q.name)) = [p] := by simp [hpq]
        rw [hf, List.getLast?_concat]
        constructor
        · rintro (⟨_, hne⟩ | rfl)
          · exact absurd hpq.symm hne
          · exact Or.inr rfl
        · rintro (⟨_, hnot⟩ | hsome)
          · exact absurd (by simp [hpq]) hnot
          · exact Or.inr (Option.some.inj hsome).symm
      · have hf : [p].filter (fun r => decide (r.name = q.name)) = [] := by simp [hpq]
        have hqp : q.name ≠ p.name := fun e => hpq e.symm
        rw [hf, List.append_nil]
        constructor
        · rintro (⟨h, _⟩ | rfl)
          · rcases h with ⟨h1, h2⟩ | h
            · exact Or.inl ⟨h1, by simpa [hqp] using h2⟩
            · exact Or.inr h
          · exact absurd rfl hpq
        · rintro (⟨h1, h2⟩ | h)
          · exact Or.inl ⟨Or.inl ⟨h1, by
              intro hin
              exact h2 (List.mem_append_left _ hin)⟩, hqp⟩
          · exact Or.inl ⟨Or.inr h, hqp⟩

theorem eq_of_name_eq (S : List SmProp) (hdistinct : (S.map SmProp.name).Nodup)
    (p q : SmProp) (hp : p ∈ S) (hq : q ∈ S) (h : q.name = p.name) : q = p :=
  List.inj_on_of_nodup_map hdistinct hq hp h

theorem delete_properties_absent (N : List String) (client : GsmXSMPClient)
    (h : ∀ n ∈ N, ∀ q ∈ client.props, q.name ≠ n) :
    delete_properties_callback client N = (client, []) := by
  unfold delete_properties_callback
  induction N with
  | nil => rfl
  | cons n rest ih =>
    simp only [List.foldl_cons]
    rw [delete_property_absent client n (h n (List.mem_cons_self _ _))]
    exact ih (fun m hm => h m (List.mem_cons_of_mem _ hm))

theorem do_save_yourself_props (client c : GsmXSMPClient) (save_type : Int)
    (allow_interact : Bool) (t : List Effect)
    (h : do_save_yourself client save_type allow_interact = some (c, t)) :
    c.props = client.props := by
  unfold do_save_yourself at h
  split at h
  · simp at h
  · split at h
    · simp at h; rw [← h.1]
    · split at h
      · simp at h; rw [← h.1]
      · split at h
        · simp at h; rw [← h.1]
        · split at h <;> (simp at h; rw [← h.1])

theorem register_client_props (handlers : List RegisterHandler)
    (client c : GsmXSMPClient) (previous_id : Option String) (t : List Effect) (b : Bool)
    (h : register_client_callback handlers client previous_id = some (c, t, b)) :
    c.props = client.props := by
  unfold register_client_callback at h
  simp only [set_status_eq] at h
  split at h
  · simp at h
  · split at h
    · simp at h; rw [← h.1]
    · simp only [Option.some.injEq, Prod.mk.injEq] at h
      rw [← h.1]
      unfold gsm_client_set_startup_id
      split <;> split <;> rfl

theorem save_yourself_done_props (client c : GsmXSMPClient) (success : Bool)
    (t : List Effect) (h : save_yourself_done_callback client success = some (c, t)) :
    c.props = client.props := by
  unfold save_yourself_done_callback at h
  by_cases hcur : client.current_save_yourself = -1 <;>
    by_cases hn : client.next_save_yourself = 0 <;>
    simp only [hcur, hn, ne_eq, not_true_eq_false, not_false_eq_true, if_true, if_false] at h
  · simp only [Option.some.injEq, Prod.mk.injEq] at h
    rw [← h.1]
  · split at h
    · simp at h
    · rename_i c2 t2 hd
      simp only [Option.some.injEq, Prod.mk.injEq] at h
      rw [← h.1]
      have h2 := do_save_yourself_props _ _ _ _ _ hd
      exact h2
  · simp only [Option.some.injEq, Prod.mk.injEq] at h
    rw [← h.1]
  · split at h
    · simp at h
    · rename_i c2 t2 hd
      simp only [Option.some.injEq, Prod.mk.injEq] at h
      rw [← h.1]
      have h2 := do_save_yourself_props _ _ _ _ _ hd
      exact h2

theorem query_end_session_props (client : GsmXSMPClient) (flags : Nat) (r : CallResult)
    (h : xsmp_query_end_session client flags = some r) : r.client.props = client.props := by
  unfold xsmp_query_end_session at h
  by_cases hc : client.conn = none
  · simp only [hc, if_true, Option.some.injEq] at h
    rw [← h]
    rfl
  · simp only [hc, if_false] at h
    split at h
    · simp at h
    · rename_i c2 t2 hd
      simp only [Option.some.injEq] at h
      rw [← h]
      exact do_save_yourself_props _ _ _ _ _ hd

theorem end_session_props (client : GsmXSMPClient) (flags : Nat) (r : CallResult)
    (h : xsmp_end_session client flags = some r) : r.client.props = client.props := by
  unfold xsmp_end_session at h
  by_cases hc : client.conn = none
  · simp only [hc, if_true, Option.some.injEq] at h
    rw [← h]
    rfl
  · simp only [hc, if_false, xsmp_save_yourself_phase2] at h
    split at h
    · simp only [Option.some.injEq] at h
      rw [← h]
    · split at h
      · simp at h
      · rename_i c2 t2 hd
        simp only [Option.some.injEq] at h
        rw [← h]
        exact do_save_yourself_props _ _ _ _ _ hd

theorem step_names_distinct (client c : GsmXSMPClient) (ev : Event) (t : List Effect)
    (hdistinct : (client.props.map SmProp.name).Nodup)
    (h : step client ev = some (c, t)) : (c.props.map SmProp.name).Nodup := by
  unfold step at h
  by_cases hin : (ev.isInbound && client.conn.isNone) = true
  · simp [hin] at h
  · simp only [hin, Bool.false_eq_true, if_false] at h
    cases ev with
    | connect conn =>
      simp only [Option.some.injEq, Prod.mk.injEq] at h
      rw [← h.1]
      exact hdistinct
    | RegisterClient handlers pid =>
      cases hr : register_client_callback handlers client pid with
      | none => simp [hr] at h
      | some r =>
        obtain ⟨c2, t2, b⟩ := r
        simp only [hr, Option.map_some', Option.some.injEq, Prod.mk.injEq] at h
        rw [← h.1, register_client_props _ _ _ _ _ _ hr]
        exact hdistinct
    | SetProperties props =>
      simp only [Option.some.injEq] at h
      have := (set_properties_spec props client hdistinct).1
      rw [h] at this
      exact this
    | DeleteProperties names =>
      simp only [Option.some.injEq] at h
      have := nodup_names_of_perm_filter _ _ _ hdistinct
        (delete_properties_perm names client hdistinct)
      rw [h] at this
      exact this
    | GetProperties =>
      simp [get_properties_callback] at h
      rw [← h.1]
      exact hdistinct
    | SaveYourselfRequest st sh is f g =>
      simp only at h
      unfold save_yourself_request_callback at h
      split at h
      · simp at h
        rw [← h.1]
        exact hdistinct
      · split at h
        · rw [do_save_yourself_props _ _ _ _ _ h]
          exact hdistinct
        · simp at h
          rw [← h.1]
          exact hdistinct
    | SaveYourselfPhase2Request =>
      simp [save_yourself_phase2_request_callback] at h
      rw [← h.1]
      exact hdistinct
    | InteractRequest d =>
      simp [interact_request_callback, xsmp_interact] at h
      rw [← h.1]
      exact hdistinct
    | InteractDone cs =>
      simp [interact_done_callback] at h
      rw [← h.1]
      exact hdistinct
    | SaveYourselfDone su =>
      rw [save_yourself_done_props _ _ _ _ h]
      exact hdistinct
    | CloseConnection r =>
      simp [close_connection_callback, set_status_eq] at h
      rw [← h.1]
      exact hdistinct
    | watch st =>
      simp only [Option.some.injEq, Prod.mk.injEq] at h
      rw [← h.1]
      cases st <;> simpa [client_iochannel_watch, set_status_eq] using hdistinct
    | stop =>
      simp only [Option.some.injEq, Prod.mk.injEq] at h
      rw [← h.1]
      unfold xsmp_stop
      split
      · exact hdistinct
      · exact hdistinct
    | query_end_session flags =>
      cases hr : xsmp_query_end_session client flags with
      | none => simp [hr] at h
      | some r =>
        simp only [hr, Option.map_some', Option.some.injEq, Prod.mk.injEq] at h
        rw [← h.1, query_end_session_props _ _ _ hr]
        exact hdistinct
    | end_session flags =>
      cases hr : xsmp_end_session client flags with
      | none => simp [hr] at h
      | some r =>
        simp only [hr, Option.map_some', Option.some.injEq, Prod.mk.injEq] at h
        rw [← h.1, end_session_props _ _ _ hr]
        exact hdistinct
    | cancel_end_session =>
      simp only [Option.some.injEq, Prod.mk.injEq] at h
      rw [← h.1]
      unfold xsmp_cancel_end_session
      split
      · exact hdistinct
      · exact hdistinct

theorem run_names_distinct (events : List Event) (client c : GsmXSMPClient)
    (hdistinct : (client.props.map SmProp.name).Nodup) (hrun : run client events = some c) :
    (c.props.map SmProp.name).Nodup := by
  induction events generalizing client with
  | nil =>
    simp only [run, Option.some.injEq] at hrun
    rw [← hrun]
    exact hdistinct
  | cons ev rest ih =>
    simp only [run] at hrun
    split at hrun
    · simp at hrun
    · rename_i c2 t2 hstep
      exact ih c2 (step_names_distinct _ _ _ _ hdistinct hstep) hrun

/-- C24: for every client whose property names are pairwise distinct and every
list L of properties, after SetProperties(L) the names in the store are still
pairwise distinct, and for each name occurring in L a lookup by that name
returns the last property of L bearing it, which is the only property of that
name in the store (a prior property of that name is gone).  The store of a
newly constructed client is empty, so its names are pairwise distinct, and they
remain so after every sequence of inbound events and upward operations. -/
theorem C24_set_properties_replaces (client : GsmXSMPClient) (L : List SmProp)
    (hdistinct : (client.props.map SmProp.name).Nodup) :
    ((set_properties_callback client L).1.props.map SmProp.name).Nodup ∧
    (∀ n ∈ L.map SmProp.name,
      ∃ p index, (L.filter (fun q => decide (q.name = n))).getLast? = some p ∧
        find_property (set_properties_callback client L).1 n = some (p, index) ∧
        ∀ q ∈ (set_properties_callback client L).1.props, q.name = n → q = p) ∧
    (∀ ice_conn serial watch_id,
      (gsm_xsmp_client_new ice_conn serial watch_id).props = [] ∧
      ((gsm_xsmp_client_new ice_conn serial watch_id).props.map SmProp.name).Nodup ∧
      ∀ events c, run (gsm_xsmp_client_new ice_conn serial watch_id) events = some c →
        (c.props.map SmProp.name).Nodup) := by
  obtain ⟨hn, hm⟩ := set_properties_spec L client hdistinct
  refine ⟨hn, ?_, fun ice_conn serial watch_id => ⟨rfl, List.nodup_nil,
    fun events c hrun =>
      run_names_distinct events (gsm_xsmp_client_new ice_conn serial watch_id) c
        List.nodup_nil hrun⟩⟩
  intro n hnL
  obtain ⟨r, hr, hrn⟩ := List.mem_map.1 hnL
  have hne : L.filter (fun q => decide (q.name = n)) ≠ [] := by
    intro e
    have : r ∈ L.filter (fun q => decide (q.name = n)) :=
      List.mem_filter.2 ⟨hr, by simpa using hrn⟩
    rw [e] at this
    exact absurd this (List.not_mem_nil _)
  obtain ⟨p, hp⟩ : ∃ p, (L.filter (fun q => decide (q.name = n))).getLast? = some p := by
    cases hl : (L.filter (fun q => decide (q.name = n))).getLast? with
    | none => exact absurd (List.getLast?_eq_none_iff.1 hl) hne
    | some p => exact ⟨p, rfl⟩
  have hpmem : p ∈ L.filter (fun q => decide (q.name = n)) := List.mem_of_getLast?_eq_some hp
  have hpn : p.name = n := by simpa using (List.mem_filter.1 hpmem).2
  have hpin : p ∈ (set_properties_callback client L).1.props := by
    rw [hm]
    right
    rw [hpn]
    exact hp
  have honly : ∀ q ∈ (set_properties_callback client L).1.props, q.name = n → q = p :=
    fun q hq hqn => eq_of_name_eq _ hn p q hpin hq (by rw [hqn, hpn])
  cases hfind : find_property (set_properties_callback client L).1 n with
  | none =>
    exact absurd hpn ((find_property_from_none _ n 0).1 hfind p hpin)
  | some found =>
    obtain ⟨q, index⟩ := found
    obtain ⟨a, b, hl, _, hqn, _⟩ := find_property_from_some _ n 0 q index hfind
    have hq : q ∈ (set_properties_callback client L).1.props := by
      rw [hl]
      simp
    have hqp : q = p := honly q hq hqn
    subst hqp
    exact ⟨q, index, hp, rfl, honly⟩

theorem C24_set_properties_replaces_witness :
    ((set_properties_callback (client_with my_app_program)
        [{ name := SmProgram, type := SmARRAY8, vals := [bytes "other"] },
         my_app_program]).1.props.map SmProp.name).Nodup :=
  (C24_set_properties_replaces (client_with my_app_program)
    [{ name := SmProgram, type := SmARRAY8, vals := [bytes "other"] }, my_app_program]
    (by simp [client_with])).1

/-- C27: for every client whose property names are pairwise distinct and every
list N of names, after DeleteProperties(N) the store holds exactly the
properties of the former store whose name is not in N, each of them as it was
(name, type and values) and once, in some order; nothing else of the client
changes and nothing is sent.  Likewise after SetProperties(L) every property
of the former store whose name does not occur in L is still present as it
was, and is the only property of its name; and deleting names that are not in
the store changes nothing. -/
theorem C27_property_store_frame (client : GsmXSMPClient) (N : List String)
    (L : List SmProp) (hdistinct : (client.props.map SmProp.name).Nodup) :
    (∀ q, q ∈ (delete_properties_callback client N).1.props ↔
      q ∈ client.props ∧ q.name ∉ N) ∧
    (delete_properties_callback client N).1.props.Perm
      (client.props.filter (fun q => decide (q.name ∉ N))) ∧
    ((delete_properties_callback client N).1.props.map SmProp.name).Nodup ∧
    (delete_properties_callback client N).1 =
      { client with props := (delete_properties_callback client N).1.props } ∧
    (delete_properties_callback client N).2 = [] ∧
    (∀ q ∈ client.props, q.name ∉ L.map SmProp.name →
      q ∈ (set_properties_callback client L).1.props ∧
      ∀ r ∈ (set_properties_callback client L).1.props, r.name = q.name → r = q) ∧
    (set_properties_callback client L).1 =
      { client with props := (set_properties_callback client L).1.props } ∧
    (∀ n, (∀ q ∈ client.props, q.name ≠ n) → delete_property client n = client) ∧
    ((∀ n ∈ N, ∀ q ∈ client.props, q.name ≠ n) →
      delete_properties_callback client N = (client, [])) := by
  have hperm := delete_properties_perm N client hdistinct
  obtain ⟨hn, hm⟩ := set_properties_spec L client hdistinct
  refine ⟨?_, hperm, nodup_names_of_perm_filter _ _ _ hdistinct hperm,
    delete_properties_fields N client, rfl, ?_, set_properties_fields L client,
    fun n h => delete_property_absent client n h,
    fun h => delete_properties_absent N client h⟩
  · intro q
    rw [hperm.mem_iff, List.mem_filter]
    simp
  · intro q hq hqL
    have hin : q ∈ (set_properties_callback client L).1.props := (hm q).2 (Or.inl ⟨hq, hqL⟩)
    exact ⟨hin, fun r hr hrq => eq_of_name_eq _ hn q r hin hr hrq⟩

theorem C27_property_store_frame_witness :
    delete_properties_callback (client_with my_app_program) [SmProcessID] =
      (client_with my_app_program, []) :=
  (C27_property_store_frame (client_with my_app_program) [SmProcessID] []
    (by simp [client_with])).2.2.2.2.2.2.2.2 (by decide)

/-! ## Shell word splitting of a reconstructed command -/

theorem safe_byte_plain (c : Nat) (h : in_safe_set c = true) : c ≠ 32 ∧ c ≠ 39 ∧ c ≠ 92 := by
  simp only [in_safe_set, decide_eq_true_eq] at h
  omega

theorem shell_split_plain_byte (c : Nat) (rest : List Nat) (word : Option (List Nat))
    (h1 : c ≠ 32) (h2 : c ≠ 39) (h3 : c ≠ 92) :
    shell_split_loop (c :: rest) word ShellMode.plain =
      shell_split_loop rest (some (word.getD [] ++ [c])) ShellMode.plain := by
  simp [shell_split_loop, h1, h2, h3]

theorem shell_split_open_quote (rest : List Nat) (word : Option (List Nat)) :
    shell_split_loop (39 :: rest) word ShellMode.plain =
      shell_split_loop rest (some (word.getD [])) ShellMode.quoted := by
  simp [shell_split_loop]

theorem shell_split_close_quote (rest : List Nat) (word : Option (List Nat)) :
    shell_split_loop (39 :: rest) word ShellMode.quoted =
      shell_split_loop rest word ShellMode.plain := by
  simp [shell_split_loop]

theorem shell_split_space (rest : List Nat) (w : List Nat) :
    shell_split_loop (32 :: rest) (some w) ShellMode.plain =
      w :: shell_split_loop rest none ShellMode.plain := by
  simp [shell_split_loop]

theorem shell_split_quoted (v : List Nat) (w tail : List Nat) :
    shell_split_loop (escape_quotes v ++ tail) (some w) ShellMode.quoted =
      shell_split_loop tail (some (w ++ v)) ShellMode.quoted := by
  induction v generalizing w with
  | nil => simp [escape_quotes]
  | cons c rest ih =>
    have e : escape_quotes (c :: rest) =
        (if c = 39 then [39, 92, 39, 39] else [c]) ++ escape_quotes rest := by
      simp [escape_quotes]
    rw [e]
    by_cases hc : c = 39
    · subst hc
      have := ih (w ++ [39])
      simp only [escape_quotes] at this
      simp [shell_split_loop, escape_quotes, this]
    · have := ih (w ++ [c])
      simp only [escape_quotes] at this
      simp [shell_split_loop, hc, escape_quotes, this]

theorem shell_split_shell_quote (v : List Nat) (word : Option (List Nat)) (tail : List Nat) :
    shell_split_loop (shell_quote v ++ tail) word ShellMode.plain =
      shell_split_loop tail (some (word.getD [] ++ v)) ShellMode.plain := by
  have h := shell_split_quoted v (word.getD []) (39 :: tail)
  simp only [shell_quote, List.append_assoc, List.singleton_append, List.cons_append]
  rw [shell_split_open_quote, List.nil_append, List.nil_append, h, shell_split_close_quote]

theorem shell_split_safe (v : List Nat) (hsafe : v.all in_safe_set = true) (c : Nat)
    (rest : List Nat) (word : Option (List Nat)) (tail : List Nat) (hv : v = c :: rest) :
    shell_split_loop (v ++ tail) word ShellMode.plain =
      shell_split_loop tail (some (word.getD [] ++ v)) ShellMode.plain := by
  induction rest generalizing v c word with
  | nil =>
    subst hv
    have hc : in_safe_set c = true := by simpa using hsafe
    obtain ⟨h1, h2, h3⟩ := safe_byte_plain c hc
    simp [shell_split_loop, h1, h2, h3]
  | cons d more ih =>
    subst hv
    have hc : in_safe_set c = true := by
      simp only [List.all_cons, Bool.and_eq_true] at hsafe
      exact hsafe.1
    have hrest : (d :: more).all in_safe_set = true := by
      simp only [List.all_cons, Bool.and_eq_true] at hsafe ⊢
      exact hsafe.2
    obtain ⟨h1, h2, h3⟩ := safe_byte_plain c hc
    have := ih (d :: more) hrest d (some (word.getD [] ++ [c])) rfl
    rw [List.cons_append, shell_split_plain_byte c _ word h1 h2 h3, this]
    simp

theorem shell_split_render (v : List Nat) (hne : v ≠ []) (word : Option (List Nat))
    (tail : List Nat) :
    shell_split_loop (render v ++ tail) word ShellMode.plain =
      shell_split_loop tail (some (word.getD [] ++ v)) ShellMode.plain := by
  unfold render
  by_cases hsafe : v.all in_safe_set = true
  · rw [if_pos hsafe]
    obtain ⟨c, rest, hv⟩ := List.exists_cons_of_ne_nil hne
    exact shell_split_safe v hsafe c rest word tail hv
  · rw [if_neg hsafe]
    exact shell_split_shell_quote v word tail

theorem shell_split_join (vals : List (List Nat)) (hne : ∀ v ∈ vals, v ≠ []) :
    shell_split (join_with_space (vals.map render)) = vals := by
  unfold shell_split
  induction vals with
  | nil => rfl
  | cons v rest ih =>
    have hv : v ≠ [] := hne v (List.mem_cons_self _ _)
    cases rest with
    | nil =>
      have h := shell_split_render v hv none []
      simp only [List.append_nil] at h
      simp only [List.map_cons, List.map_nil, join_with_space, h]
      simp [shell_split_loop]
    | cons w more =>
      have h := shell_split_render v hv none ([32] ++ join_with_space ((w :: more).map render))
      have ih2 := ih (fun x hx => hne x (List.mem_cons_of_mem _ hx))
      simp only [List.map_cons, join_with_space, List.append_assoc] at h ih2 ⊢
      rw [h, List.singleton_append, shell_split_space, ih2]
      simp

theorem escape_quotes_of_quote_free (val : List Nat) (h : 39 ∉ val) :
    escape_quotes val = val := by
  induction val with
  | nil => rfl
  | cons c rest ih =>
    have hc : c ≠ 39 := fun e => h (e ▸ List.mem_cons_self _ _)
    have hr : 39 ∉ rest := fun e => h (List.mem_cons_of_mem _ e)
    have e := ih hr
    simp only [escape_quotes] at e
    simp [escape_quotes, hc, e]

/-- Splitting what `prop_to_command` builds gives the values back when no value
holds a NUL byte or a single quote and no value is empty. -/
theorem shell_split_round_trip (name type : String) (vals : List (List Nat))
    (hnul : ∀ v ∈ vals, 0 ∉ v) (hquote : ∀ v ∈ vals, 39 ∉ v) (hne : ∀ v ∈ vals, v ≠ []) :
    shell_split (prop_to_command { name := name, type := type, vals := vals }) = vals := by
  have e : vals.map append_value = vals.map render :=
    List.map_congr_left (fun v hv => by
      rw [append_value_of_nul_free v (hnul v hv), quote_loop_of_quote_free v (hquote v hv)]
      simp only [render, shell_quote, escape_quotes_of_quote_free v (hquote v hv)])
  simp only [prop_to_command, prop_to_command_loop_join, e]
  exact shell_split_join vals hne

/-- C30 fails on a restart command with an empty argument: for the values
`prog`, `--name` and the empty string, none holding a NUL byte,
`prop_to_command` builds `prog --name `, where nothing stands for the empty
value; shell word splitting of it gives the two words `prog` and `--name`, not
the three values declared, and this is the Exec that `save` writes. -/
theorem C30_empty_argument_lost :
    (∀ v ∈ empty_argument_command.vals, 0 ∉ v) ∧
    empty_argument_command.vals = [bytes "prog", bytes "--name", []] ∧
    prop_to_command empty_argument_command = bytes "prog --name " ∧
    shell_split (prop_to_command empty_argument_command) = [bytes "prog", bytes "--name"] ∧
    shell_split (prop_to_command empty_argument_command) ≠ empty_argument_command.vals ∧
    xsmp_get_restart_command empty_argument_client = some (bytes "prog --name ") ∧
    ((xsmp_save no_files empty_argument_client).bind fun r => r.keyfile).map
        (fun keyfile =>
          g_key_file_get keyfile G_KEY_FILE_DESKTOP_GROUP G_KEY_FILE_DESKTOP_KEY_EXEC) =
      some (some (KeyValue.raw (bytes "prog --name "))) := by
  refine ⟨?_, ?_, ?_, ?_, ?_, ?_, ?_⟩ <;> decide

end MateSession
